import Mathlib

/-!
# SpoofEye monitoring core: embedding and verified properties

Shallow embedding of the three watchers of SpoofEye
(`src/monitors/ArpMonitor.cpp`, `src/monitors/DnsMonitor.cpp`,
`src/monitors/IcmpMonitor.cpp`) and of the orchestrator that owns them
(`src/Core.cpp`), of the configuration reader (`src/Config.cpp`) and of the
argument handling of `src/main.cpp`.

Conventions of the embedding:

* `std::string` is a Lean `String` whose characters stand for the bytes of the
  C++ string; all string functions work on the character list `String.data`.
* `std::isspace` / `std::tolower` are those of the default "C" locale.
* `std::set<std::string>` is a list of strings kept in strictly ascending
  byte-wise lexicographic order (the iteration order of the C++ container).
* A caller supplied `std::function` is a `Callback`: absent, or present and
  either returning or throwing when it is invoked.
* `std::chrono::steady_clock` time points are integers counting nanoseconds.
* Everything a function reads from the operating system (ARP table entry,
  resolver list, file content, captured frame, clock) is an explicit argument.
* A `start()` or `stop()` call yields a `Called` record: the watcher afterwards
  and what the call did (log lines, loop or thread launched, sleep, join).
* An atomic flag polled in a loop is the list of values its successive loads
  yield.
-/

namespace SpoofEye

/-! ## Common vocabulary -/

/-- A caller supplied `std::function`: `null` when empty (`if (cb)` is false),
otherwise present; a present callback either returns or throws when invoked. -/
inductive Callback where
  | null
  | returning
  | throwing
  deriving DecidableEq, Repr

/-- Truth value of `if (cb)` for a `std::function`. -/
def Callback.isSet : Callback → Bool
  | .null => false
  | _ => true

/-- Severity passed to `Logger::log`. -/
inductive LogType where
  | DEFAULT
  | INFO
  | WARNING
  | ERROR
  | CRITICAL
  deriving DecidableEq, Repr

/-- The function `std::isspace` on an `unsigned char` in the "C" locale:
space, `\t`, `\n`, `\v`, `\f`, `\r`. -/
def isspace (c : Char) : Bool :=
  c.toNat = 32 || (9 ≤ c.toNat && c.toNat ≤ 13)

/-- The function `std::tolower` on an `unsigned char` in the "C" locale:
`A`..`Z` are mapped to `a`..`z`, every other byte is unchanged. -/
def tolower (c : Char) : Char :=
  if 65 ≤ c.toNat ∧ c.toNat ≤ 90 then Char.ofNat (c.toNat + 32) else c

/-- Outcome of one call of a watcher's `start()` or `stop()`: the watcher
afterwards, the `Logger::log` calls made, and what the call did. For `start`,
`launched` tells whether the monitor loop was entered (ARP) or the worker
thread was created (DNS, ICMP). For `stop`, `slept` tells whether the 100 ms
grace sleep ran, `interrupted` whether `pcap_breakloop` was called and `joined`
whether the worker thread was joined. -/
structure Called (σ : Type) where
  state : σ
  logs : List (LogType × String) := []
  launched : Bool := false
  slept : Bool := false
  interrupted : Bool := false
  joined : Bool := false
  deriving DecidableEq, Repr

/-! ## ARP monitor (`ArpMonitor.cpp`) -/

/-- `ArpMonitor::Impl::normalize_mac`: drop whitespace, lowercase the rest. -/
def normalize_mac (mac : String) : String :=
  ⟨(mac.data.filter (fun c => !isspace c)).map tolower⟩

/-- Arguments of one invocation of `ArpMonitor::ChangeCallback`. -/
structure ChangeCall where
  old_mac : String
  new_mac : String
  ip : String
  deriving DecidableEq, Repr

/-- Effects of one pass through the body of the `while` loop of
`monitor_loop`: the value of `last_mac` afterwards, the `Logger::log` calls and
the callback invocations made during the pass. -/
structure ArpCycle where
  last_mac : String
  logs : List (LogType × String)
  calls : List ChangeCall
  deriving DecidableEq, Repr

/-- One pass through the loop body of `ArpMonitor::Impl::monitor_loop`
(lines 144-165). `observed` is what `read_mac_from_proc_arp(gateway)` returned
in this pass (the empty string when there is no entry). The callback is
invoked inside `try { ... } catch (...) {}`, so a throwing callback has the
same effect on the loop as a returning one. -/
def monitor_cycle (gateway : String) (cb : Callback) (observed last_mac : String) :
    ArpCycle :=
  let current := normalize_mac observed
  let prev := normalize_mac last_mac
  if current = "" ∧ prev = "" then
    { last_mac := last_mac, logs := [], calls := [] }
  else if current ≠ prev then
    let entry : LogType × String :=
      if prev = "" then
        (LogType.INFO, "ARP entry appeared for gateway " ++ gateway ++ " : " ++ current)
      else if current = "" then
        (LogType.CRITICAL,
          "ARP entry for gateway " ++ gateway ++ " disappeared (was " ++ prev ++ ")")
      else
        (LogType.CRITICAL,
          "MAC change for gateway " ++ gateway ++ " : " ++ prev ++ " -> " ++ current)
    { last_mac := current
      logs := [entry]
      calls := if cb.isSet then [{ old_mac := prev, new_mac := current, ip := gateway }] else [] }
  else
    { last_mac := last_mac, logs := [], calls := [] }

/-- The `while` loop of `monitor_loop` run over the successive results of
`read_mac_from_proc_arp`, one per pass, starting from the stored `last_mac`;
returns the effects of every pass in order. -/
def monitor_loop (gateway : String) (cb : Callback) : String → List String → List ArpCycle
  | _, [] => []
  | last_mac, observed :: rest =>
    let r := monitor_cycle gateway cb observed last_mac
    r :: monitor_loop gateway cb r.last_mac rest

/-- Value of `last_mac` after the loop has processed the given observations. -/
def last_mac_after (gateway : String) (cb : Callback) : String → List String → String
  | last_mac, [] => last_mac
  | last_mac, observed :: rest =>
    last_mac_after gateway cb (monitor_cycle gateway cb observed last_mac).last_mac rest

/-- The lines that successive `std::getline(ifs, line)` calls deliver for a
stream holding `cs`, with `cur` the characters of the line being read: every
newline ends a line, and what follows the last newline is a line only when it
is not empty. -/
def getlinesAux : List Char → List Char → List String
  | [], cur => if cur = [] then [] else [⟨cur⟩]
  | c :: cs, cur =>
    if c = '\n' then ⟨cur⟩ :: getlinesAux cs [] else getlinesAux cs (cur ++ [c])

/-- All lines of a text as `std::getline` reads them. -/
def getlines (text : String) : List String :=
  getlinesAux text.data []

/-- The strings that successive `iss >> token` extractions deliver for a
stream holding `cs`, with `cur` the characters of the token being read:
maximal runs of non-whitespace characters. -/
def tokensAux : List Char → List Char → List String
  | [], cur => if cur = [] then [] else [⟨cur⟩]
  | c :: cs, cur =>
    if isspace c then
      if cur = [] then tokensAux cs [] else ⟨cur⟩ :: tokensAux cs []
    else tokensAux cs (cur ++ [c])

/-- All whitespace-delimited tokens of a line. -/
def tokens (line : String) : List String :=
  tokensAux line.data []

/-- The `while (std::getline(ifs, line))` loop of `read_mac_from_proc_arp`
(lines 101-110) over the lines that follow the header. A line with fewer than
six tokens fails the extraction and is passed over. -/
def scanArpRows (ip : String) : List String → String
  | [] => ""
  | line :: rest =>
    match tokens line with
    | ipaddr :: _hwtype :: _flags :: hwaddr :: _mask :: _device :: _ =>
      if ipaddr = ip then
        if hwaddr = "00:00:00:00:00:00" then "" else ⟨hwaddr.data.map tolower⟩
      else scanArpRows ip rest
    | _ => scanArpRows ip rest

/-- `ArpMonitor::Impl::read_mac_from_proc_arp`. `procNetArp` is the content of
`/proc/net/arp`, `none` when the file cannot be opened. The first line is read
and dropped as the header. -/
def read_mac_from_proc_arp (procNetArp : Option String) (ip : String) : String :=
  match procNetArp with
  | none => ""
  | some text => scanArpRows ip (getlines text).tail

/-- The row for an IP in an ARP table text, in the words of the specification:
the first line after the header that has the six columns of the table and
whose first column is the IP; given by its columns. -/
def arpRowFor (text : String) (ip : String) : Option (List String) :=
  (((getlines text).tail.map tokens).filter (fun row => decide (6 ≤ row.length))).find?
    (fun row => decide (row.head? = some ip))

/-- A sample `/proc/net/arp`: header, a row for 192.168.1.1 with a real
hardware address, a row for 192.168.1.7 with the all-zero address. -/
def sampleArpTable : String :=
  "IP address       HW type     Flags       HW address            Mask     Device\n" ++
  "192.168.1.1      0x1         0x2         AA:BB:CC:dd:ee:ff     *        eth0\n" ++
  "192.168.1.7      0x1         0x0         00:00:00:00:00:00     *        eth0\n"

/-- Members of `ArpMonitor` and of its `Impl`: `gateway`, `interval_seconds`
and `running` of `Impl`, `stopped_` of `ArpMonitor`. -/
structure ArpMonitor where
  gateway : String
  interval_seconds : Int
  running : Bool
  stopped_ : Bool
  deriving DecidableEq, Repr

/-- Constructor `ArpMonitor(int poll_interval_seconds)`; `detected` is what
`detect_gateway_ip()` returns (the empty string when no gateway is found). -/
def ArpMonitor.create (detected : String) (poll_interval_seconds : Int) : ArpMonitor :=
  { gateway := detected
    interval_seconds := if poll_interval_seconds > 0 then poll_interval_seconds else 5
    running := false
    stopped_ := false }

/-- Constructor `ArpMonitor(const std::string& gateway_ip, int)`. -/
def ArpMonitor.createFor (gateway_ip detected : String) (poll_interval_seconds : Int) :
    ArpMonitor :=
  { gateway := if gateway_ip = "" then detected else gateway_ip
    interval_seconds := if poll_interval_seconds > 0 then poll_interval_seconds else 5
    running := false
    stopped_ := false }

/-- `ArpMonitor::gateway_ip` (the `pimpl` pointer is set between construction
and destruction). -/
def ArpMonitor.gateway_ip (m : ArpMonitor) : String := m.gateway

/-- `ArpMonitor::isInitialized`. -/
def ArpMonitor.isInitialized (m : ArpMonitor) : Bool :=
  decide (m.gateway_ip ≠ "")

/-- `ArpMonitor::start` up to the point where it enters `monitor_loop`
(lines 189-206): the two guards and the compare-and-exchange on `running`.
When `launched` holds the call goes on with
`monitor_loop m.gateway cb` and returns once that loop has ended. -/
def ArpMonitor.start (m : ArpMonitor) : Called ArpMonitor :=
  if m.gateway = "" then
    { state := m
      logs := [(LogType.DEFAULT, "ARP monitor enabled"),
               (LogType.ERROR, "ERROR: Could not detect gateway IP. Exiting.")] }
  else if m.running = true then
    { state := m
      logs := [(LogType.DEFAULT, "ARP monitor enabled"),
               (LogType.WARNING, "Monitor already running.")] }
  else
    { state := { m with running := true }
      logs := [(LogType.DEFAULT, "ARP monitor enabled")]
      launched := true }

/-- `ArpMonitor::stop`. -/
def ArpMonitor.stop (m : ArpMonitor) : Called ArpMonitor :=
  if m.stopped_ = true then { state := m }
  else if m.running = true then
    { state := { m with stopped_ := true, running := false }
      logs := [(LogType.DEFAULT, "ARP monitor stopped")]
      slept := true }
  else
    { state := { m with stopped_ := true }
      logs := [(LogType.DEFAULT, "ARP monitor stopped")] }

/-- The passes of the monitor loop of a started watcher: `monitor_loop` runs
with the `gateway` member of the watcher. -/
def ArpMonitor.loopCycles (m : ArpMonitor) (cb : Callback) (initial : String)
    (observations : List String) : List ArpCycle :=
  monitor_loop m.gateway cb initial observations

/-! ## DNS monitor (`DnsMonitor.cpp`) -/

/-- `normalizeIpString`: erase leading whitespace, then trailing whitespace. -/
def normalizeIpString (s : String) : String :=
  ⟨(s.data.dropWhile isspace).rdropWhile isspace⟩

/-- Key order of `std::set<std::string>` (`std::less<std::string>`):
byte-wise lexicographic comparison. -/
def strLe (a b : String) : Prop := a.data ≤ b.data

instance strLe_decidable : DecidableRel strLe :=
  fun a b => inferInstanceAs (Decidable (a.data ≤ b.data))

instance strLe_isTotal : IsTotal String strLe := ⟨fun a b => le_total a.data b.data⟩

instance strLe_isTrans : IsTrans String strLe :=
  ⟨fun a b c (h1 : a.data ≤ b.data) (h2 : b.data ≤ c.data) => le_trans h1 h2⟩

instance strLe_isAntisymm : IsAntisymm String strLe :=
  ⟨fun a b (h1 : a.data ≤ b.data) (h2 : b.data ≤ a.data) => String.ext (le_antisymm h1 h2)⟩

/-- `std::set<std::string>::insert`: nothing happens when the key is already
present, otherwise the key is placed at its position in ascending order. -/
def setInsert (s : List String) (x : String) : List String :=
  if x ∈ s then s else List.orderedInsert strLe x s

/-- Range constructor `std::set<std::string>(first, last)`: the elements are
inserted one after the other into an empty set. -/
def setOfRange (xs : List String) : List String :=
  xs.foldl setInsert []

/-- Representation invariant of a `std::set<std::string>`: ascending keys, no
key twice. -/
def IsStrSet (s : List String) : Prop :=
  s.Sorted strLe ∧ s.Nodup

/-- Members of `DnsMonitor` that the embedded functions read or write
(`m_pollInterval` and `m_mutex` are left out); of `m_thread` only
`m_thread.joinable()` is kept. -/
structure DnsMonitor where
  m_running : Bool
  m_alerting : Bool
  m_notifyCb : Callback
  m_knownDns : List String
  m_lastObservedDns : List String
  m_lastUnknownDns : List String
  m_knownDnsPath : String
  stopped_ : Bool
  m_thread_joinable : Bool := false
  deriving DecidableEq, Repr

/-- State built by the constructors `DnsMonitor()` and
`DnsMonitor(std::chrono::seconds)`. -/
def DnsMonitor.fresh : DnsMonitor :=
  { m_running := false
    m_alerting := false
    m_notifyCb := Callback.null
    m_knownDns := []
    m_lastObservedDns := []
    m_lastUnknownDns := []
    m_knownDnsPath := ""
    stopped_ := false
    m_thread_joinable := false }

/-- Title of the alert notification of `checkOnce`. -/
def unknownDnsTitle : String := "Unknown DNS"

/-- Title of the all-clear notification of `checkOnce`; the dash of the source
literal is written as its three UTF-8 bytes. -/
def resolvedTitle : String := "DNS Monitor \xe2\x80\x94 Resolved"

/-- Body of the all-clear notification of `checkOnce`. -/
def resolvedBody : String :=
  "Previously detected unknown DNS servers are no longer present."

/-- The vector `unknowns` of `checkOnce` (lines 137-145): the elements of the
set built from the observed list that are not found in the known set, in
iteration order of that set. -/
def computeUnknowns (known current : List String) : List String :=
  (setOfRange current).filter (fun s => decide (s ∉ known))

/-- Body text of the alert notification (lines 158-163): the unknown entries
separated by a comma and a space, after a fixed lead-in. -/
def alertBody (unknowns : List String) : String :=
  "Unrecognized DNS server(s) detected: " ++ ", ".intercalate unknowns

/-- Effects of one call of `checkOnce`: the watcher afterwards, the
`(title, body)` pairs handed to `notify` in order, and whether an exception
left the function (the notification callback threw). -/
structure CheckResult where
  state : DnsMonitor
  notifications : List (String × String)
  threw : Bool
  deriving DecidableEq, Repr

/-- `DnsMonitor::checkOnce`. `current` is what `getSystemDnsServers()` returned
in this cycle. `notify` hands the pair to the callback when one is set and to
the platform mechanism otherwise; only a throwing callback makes it throw.
`Logger::log` is not called on this path. -/
def checkOnce (current : List String) (st : DnsMonitor) : CheckResult :=
  let st1 := { st with m_lastObservedDns := current }
  let unknowns := computeUnknowns st1.m_knownDns current
  let currentUnknowns := setOfRange unknowns
  let notifyChange : Bool := decide (currentUnknowns ≠ st1.m_lastUnknownDns)
  let st2 := if notifyChange then { st1 with m_lastUnknownDns := currentUnknowns } else st1
  if notifyChange = true ∧ currentUnknowns ≠ [] then
    if st2.m_notifyCb = Callback.throwing then
      { state := st2, notifications := [(unknownDnsTitle, alertBody unknowns)], threw := true }
    else
      { state := { st2 with m_alerting := true }
        notifications := [(unknownDnsTitle, alertBody unknowns)]
        threw := false }
  else if currentUnknowns = [] then
    let wasAlerting := st2.m_alerting
    let st3 := { st2 with m_alerting := false }
    if wasAlerting = true then
      { state := st3
        notifications := [(resolvedTitle, resolvedBody)]
        threw := decide (st3.m_notifyCb = Callback.throwing) }
    else
      { state := st3, notifications := [], threw := false }
  else
    { state := st2, notifications := [], threw := false }

/-- Successive `checkOnce` cycles of `workerLoop`, one per observed resolver
list; an exception of a cycle is caught by the loop, which goes on with the
state the cycle left behind. Returns the effects of every cycle in order. -/
def workerLoopCycles : DnsMonitor → List (List String) → List CheckResult
  | _, [] => []
  | st, current :: rest =>
    let r := checkOnce current st
    r :: workerLoopCycles r.state rest

/-- A JSON value as produced by the JSON library (`nlohmann::json`). -/
inductive Json where
  | null
  | boolean (b : Bool)
  | number (n : Int)
  | string (s : String)
  | array (elems : List Json)
  | object (members : List (String × Json))

/-- `nlohmann::json::is_string`. -/
def Json.is_string : Json → Bool
  | Json.string _ => true
  | _ => false

/-- The `for` loop of `loadKnownDnsFromFile` (lines 291-298) over the elements
of the array, with the set `tmp` built so far; `none` when a non-string element
makes the function return `false`. -/
def collectEntries : List Json → List String → Option (List String)
  | [], tmp => some tmp
  | Json.string s :: rest, tmp =>
    let t := normalizeIpString s
    collectEntries rest (if t ≠ "" then setInsert tmp t else tmp)
  | _ :: _, _ => none

/-- `DnsMonitor::loadKnownDnsFromFile`. `openFile path` is the content of the
file when `std::ifstream ifs(path)` opens and `none` otherwise; `parseJson` is
the JSON library reading that content, `none` when it throws (the exception is
caught at line 310). Returns the result and the watcher afterwards. -/
def loadKnownDnsFromFile (openFile : String → Option String)
    (parseJson : String → Option Json) (path : String) (st : DnsMonitor) :
    Bool × DnsMonitor :=
  if path = "" then (false, st)
  else
    match openFile path with
    | none => (false, st)
    | some content =>
      match parseJson content with
      | none => (false, st)
      | some (Json.array elems) =>
        match collectEntries elems [] with
        | none => (false, st)
        | some tmp =>
          if tmp = [] then (false, st)
          else (true, { st with m_knownDns := tmp, m_knownDnsPath := path })
      | some _ => (false, st)

/-- `DnsMonitor::isInitialized`. -/
def DnsMonitor.isInitialized (st : DnsMonitor) : Bool :=
  decide (st.m_knownDns ≠ [])

/-- `DnsMonitor::setNotificationCallback`. -/
def DnsMonitor.setNotificationCallback (cb : Callback) (st : DnsMonitor) : DnsMonitor :=
  { st with m_notifyCb := cb }

/-- `DnsMonitor::setKnownDnsPath`: the result of the load is dropped. -/
def DnsMonitor.setKnownDnsPath (openFile : String → Option String)
    (parseJson : String → Option Json) (path : String) (st : DnsMonitor) : DnsMonitor :=
  (loadKnownDnsFromFile openFile parseJson path st).2

/-- `DnsMonitor::start`. -/
def DnsMonitor.start (st : DnsMonitor) : Called DnsMonitor :=
  if st.m_running = true then
    { state := st, logs := [(LogType.DEFAULT, "DNS monitor enabled")] }
  else
    { state := { st with m_running := true, m_thread_joinable := true }
      logs := [(LogType.DEFAULT, "DNS monitor enabled")]
      launched := true }

/-- `DnsMonitor::stop`. -/
def DnsMonitor.stop (st : DnsMonitor) : Called DnsMonitor :=
  if st.stopped_ = true then { state := st }
  else if st.m_running = true then
    { state := { st with stopped_ := true, m_running := false, m_thread_joinable := false }
      logs := [(LogType.DEFAULT, "DNS monitor stopped")]
      joined := st.m_thread_joinable }
  else
    { state := { st with stopped_ := true }
      logs := [(LogType.DEFAULT, "DNS monitor stopped")] }

/-! ## ICMP monitor (`IcmpMonitor.cpp`) -/

/-- Link-layer type `DLT_NULL` of libpcap (`pcap/dlt.h`). -/
def DLT_NULL : Int := 0

/-- Link-layer type `DLT_EN10MB` (Ethernet) of libpcap. -/
def DLT_EN10MB : Int := 1

/-- Link-layer type `DLT_RAW` (raw IP) of libpcap. -/
def DLT_RAW : Int := 12

/-- Link-layer type `DLT_LOOP` (OpenBSD loopback) of libpcap. -/
def DLT_LOOP : Int := 108

/-- Link-layer type `DLT_LINUX_SLL` (Linux cooked capture) of libpcap. -/
def DLT_LINUX_SLL : Int := 113

/-- Protocol number `IPPROTO_ICMP` of `netinet/in.h`. -/
def IPPROTO_ICMP : Nat := 1

/-- ICMP message type `ICMP_ECHO` (echo request) of `netinet/ip_icmp.h`. -/
def ICMP_ECHO : Nat := 8

/-- `IcmpMonitor::NOTIFY_INTERVAL` (60 seconds) in clock ticks of
`std::chrono::steady_clock` (nanoseconds). -/
def NOTIFY_INTERVAL : Int := 60 * 1000000000

/-- One byte of a captured frame. -/
abbrev Byte := Fin 256

/-- `inet_ntoa`: dotted-decimal text of the four address bytes in network
order. -/
def inet_ntoa (a b c d : Byte) : String :=
  toString a.val ++ "." ++ toString b.val ++ "." ++ toString c.val ++ "." ++ toString d.val

/-- Outcome of looking at one captured frame. -/
inductive FrameVerdict where
  | skipped
  | echoRequest (srcIp : String)
  | readFault
  deriving DecidableEq, Repr

/-- The link-layer adjustment of `workerLoop` (lines 84-87): the number of
bytes added to `ipPacket`, or `none` for the final `else continue`. -/
def linkHeaderLength (linkType : Int) : Option Nat :=
  if linkType = DLT_EN10MB then some 14
  else if linkType = DLT_LINUX_SLL then some 16
  else if linkType = DLT_NULL ∨ linkType = DLT_LOOP then some 4
  else none

/-- Lines 89-94 of `workerLoop` on the bytes that `ipPacket` points at:
`ip_p` is byte 9, `ip_hl` the low four bits of byte 0, `ip_src` bytes 12-15,
and the ICMP type is the byte at `ip_hl * 4`. A read past the captured bytes
has no defined result in C++ and is reported as `readFault`. -/
def parseIpPacket (ipPacket : List Byte) : FrameVerdict :=
  match ipPacket[9]? with
  | none => FrameVerdict.readFault
  | some ip_p =>
    if ip_p.val ≠ IPPROTO_ICMP then FrameVerdict.skipped
    else
      match ipPacket[0]? with
      | none => FrameVerdict.readFault
      | some vhl =>
        match ipPacket[(vhl.val % 16) * 4]? with
        | none => FrameVerdict.readFault
        | some icmpType =>
          if icmpType.val = ICMP_ECHO then
            match ipPacket[12]?, ipPacket[13]?, ipPacket[14]?, ipPacket[15]? with
            | some a, some b, some c, some d => FrameVerdict.echoRequest (inet_ntoa a b c d)
            | _, _, _, _ => FrameVerdict.readFault
          else FrameVerdict.skipped

/-- Lines 80-94 of `workerLoop`: classification of one captured frame from the
link type of the capture and the bytes of the frame. -/
def parseFrame (linkType : Int) (packet : List Byte) : FrameVerdict :=
  match linkHeaderLength linkType with
  | none => FrameVerdict.skipped
  | some offset => parseIpPacket (packet.drop offset)

/-- A sample IPv4 packet of 28 bytes: a 20-byte header (IHL 5, protocol 1,
source 10.0.0.5, destination 10.0.0.1) followed by the 8-byte header of an
ICMP echo request. -/
def sampleEchoPacket : List Byte :=
  [0x45, 0, 0, 28, 0, 0, 0, 0, 64, 1, 0, 0, 10, 0, 0, 5, 10, 0, 0, 1,
   8, 0, 0xf7, 0xff, 0, 0, 0, 0]

/-- The sample packet behind a 14-byte Ethernet header. -/
def sampleEthernetFrame : List Byte :=
  [0, 1, 2, 3, 4, 5, 6, 7, 8, 9, 10, 11, 8, 0] ++ sampleEchoPacket

/-- Members of `IcmpMonitor` that the embedded functions read or write; of
`m_thread` only `m_thread.joinable()` is kept, and `m_handle`, which the worker
thread writes, is an argument of `stop`. -/
structure IcmpMonitor where
  m_running : Bool
  m_callback : Callback
  m_lastNotification : Int
  m_thread_joinable : Bool := false
  deriving DecidableEq, Repr

/-- Effects of handling one frame: the watcher afterwards, the argument of the
callback invocation when there was one, and whether the callback threw (the
loop has no handler, so the exception leaves `workerLoop`). -/
structure FrameEffect where
  state : IcmpMonitor
  notified : Option String
  threw : Bool
  deriving DecidableEq, Repr

/-- Lines 94-100 of `workerLoop`: throttle and callback for a detected echo
request from `srcIp` when `steady_clock::now()` reads `now`. -/
def onEchoRequest (srcIp : String) (now : Int) (st : IcmpMonitor) : FrameEffect :=
  if st.m_callback.isSet = true ∧ now - st.m_lastNotification ≥ NOTIFY_INTERVAL then
    if st.m_callback = Callback.throwing then
      { state := st, notified := some srcIp, threw := true }
    else
      { state := { st with m_lastNotification := now }, notified := some srcIp, threw := false }
  else
    { state := st, notified := none, threw := false }

/-- Lines 79-101 of `workerLoop` for one frame that `pcap_next_ex` delivered;
`none` when the parse reads past the captured bytes. -/
def handlePacket (linkType : Int) (packet : List Byte) (now : Int) (st : IcmpMonitor) :
    Option FrameEffect :=
  match parseFrame linkType packet with
  | FrameVerdict.skipped => some { state := st, notified := none, threw := false }
  | FrameVerdict.echoRequest srcIp => some (onEchoRequest srcIp now st)
  | FrameVerdict.readFault => none

/-- The capture loop over a sequence of detected echo requests, each given by
its source address and the clock reading at that moment; the loop ends with
the first callback that throws. Returns the effects of every echo handled. -/
def workerLoopEchoes : IcmpMonitor → List (String × Int) → List FrameEffect
  | _, [] => []
  | st, (srcIp, now) :: rest =>
    let r := onEchoRequest srcIp now st
    if r.threw = true then [r] else r :: workerLoopEchoes r.state rest

/-- The watcher after the capture loop has handled the given echo requests
(none of whose callbacks threw). -/
def icmpStateAfter : IcmpMonitor → List (String × Int) → IcmpMonitor
  | st, [] => st
  | st, (srcIp, now) :: rest => icmpStateAfter (onEchoRequest srcIp now st).state rest

/-- State built by the constructors of `IcmpMonitor`: not running, no
callback, `m_lastNotification` the epoch of the clock. -/
def IcmpMonitor.fresh : IcmpMonitor :=
  { m_running := false
    m_callback := Callback.null
    m_lastNotification := 0
    m_thread_joinable := false }

/-- `IcmpMonitor::setPingCallback`. -/
def IcmpMonitor.setPingCallback (cb : Callback) (st : IcmpMonitor) : IcmpMonitor :=
  { st with m_callback := cb }

/-- `IcmpMonitor::isInitialized`. -/
def IcmpMonitor.isInitialized (_st : IcmpMonitor) : Bool := true

/-- `IcmpMonitor::start`. -/
def IcmpMonitor.start (st : IcmpMonitor) : Called IcmpMonitor :=
  if st.m_running = true then { state := st }
  else
    { state := { st with m_running := true, m_thread_joinable := true }
      launched := true }

/-- `IcmpMonitor::stop`. `handleOpen` tells whether `m_handle`, which the
worker thread sets, is non-null when `stop` reads it. -/
def IcmpMonitor.stop (handleOpen : Bool) (st : IcmpMonitor) : Called IcmpMonitor :=
  if st.m_running = true then
    { state := { st with m_running := false, m_thread_joinable := false }
      interrupted := handleOpen
      joined := st.m_thread_joinable }
  else { state := st }

/-- One call of the lifecycle interface of a watcher. -/
inductive LifecycleCall where
  | start
  | stop
  deriving DecidableEq, Repr

/-- The ARP watcher after a sequence of `start()` and `stop()` calls, each
taken at the point where `start` has passed its guards. -/
def ArpMonitor.afterCalls : ArpMonitor → List LifecycleCall → ArpMonitor
  | m, [] => m
  | m, LifecycleCall.start :: rest => ArpMonitor.afterCalls m.start.state rest
  | m, LifecycleCall.stop :: rest => ArpMonitor.afterCalls m.stop.state rest

/-- The DNS watcher after a sequence of `start()` and `stop()` calls. -/
def DnsMonitor.afterCalls : DnsMonitor → List LifecycleCall → DnsMonitor
  | st, [] => st
  | st, LifecycleCall.start :: rest => DnsMonitor.afterCalls st.start.state rest
  | st, LifecycleCall.stop :: rest => DnsMonitor.afterCalls st.stop.state rest

/-- The ICMP watcher after a sequence of `start()` and `stop()` calls;
`handleOpen` is what every `stop` finds in `m_handle`. -/
def IcmpMonitor.afterCalls (handleOpen : Bool) : IcmpMonitor → List LifecycleCall → IcmpMonitor
  | st, [] => st
  | st, LifecycleCall.start :: rest => IcmpMonitor.afterCalls handleOpen st.start.state rest
  | st, LifecycleCall.stop :: rest =>
    IcmpMonitor.afterCalls handleOpen (st.stop handleOpen).state rest

/-! ## Orchestrator (`Config.cpp`, `Core.cpp`) -/

/-- Members of `Config`: the path of the INI file and the key/value table
`data_` (an `std::unordered_map`, kept as an association list). -/
structure Config where
  iniPath_ : String
  data_ : List (String × String)
  deriving DecidableEq, Repr

/-- `Config::trim`: leading and trailing whitespace removed. On the empty
string the source moves an iterator before the beginning of the buffer; the
range it then returns is taken to be empty. -/
def Config.trim (s : String) : String :=
  ⟨(s.data.dropWhile isspace).rdropWhile isspace⟩

/-- `Config::toLower`. -/
def Config.toLower (s : String) : String :=
  ⟨s.data.map tolower⟩

/-- `Config::parseBool`. -/
def Config.parseBool (s : String) (defaultValue : Bool) : Bool :=
  if s = "" then defaultValue
  else
    let t := Config.toLower (Config.trim s)
    if t = "1" ∨ t = "true" ∨ t = "yes" ∨ t = "on" then true
    else if t = "0" ∨ t = "false" ∨ t = "no" ∨ t = "off" then false
    else defaultValue

/-- `Config::showNotifications`. -/
def Config.showNotifications (cfg : Config) : Bool :=
  match cfg.data_.lookup "show_notifications" with
  | some v => Config.parseBool v true
  | none => true

/-- `Config::getKnownDNSPath`. -/
def Config.getKnownDNSPath (cfg : Config) : String :=
  match cfg.data_.lookup "known_dns_path" with
  | some v => v
  | none => "/etc/spoofeye/known_dns.json"

/-- `Config::arpMonitorEnabled`. -/
def Config.arpMonitorEnabled (cfg : Config) : Bool :=
  match cfg.data_.lookup "monitors.arp_monitor" with
  | some v => Config.parseBool v true
  | none => false

/-- `Config::dnsMonitorEnabled`. -/
def Config.dnsMonitorEnabled (cfg : Config) : Bool :=
  match cfg.data_.lookup "monitors.dns_monitor" with
  | some v => Config.parseBool v true
  | none => false

/-- `Config::icmpMonitorEnabled`. -/
def Config.icmpMonitorEnabled (cfg : Config) : Bool :=
  match cfg.data_.lookup "monitors.icmp_monitor" with
  | some v => Config.parseBool v true
  | none => false

/-- `SOFTWARE_NAME` of `constants.hpp`. -/
def SOFTWARE_NAME : String := "SpoofEye"

/-- `SOFTWARE_VERSION` of `constants.hpp`. -/
def SOFTWARE_VERSION : String := "1.0.0"

/-- `Core::ICMP_ALERT_INTERVAL` (60 seconds) in clock ticks of
`std::chrono::steady_clock` (nanoseconds). -/
def ICMP_ALERT_INTERVAL : Int := 60 * 1000000000

/-- `Notifier::Level`. -/
inductive NotifierLevel where
  | INFO
  | WARNING
  | CRITICAL
  deriving DecidableEq, Repr

/-- Arguments of one call of `Notifier::send`. -/
structure SendCall where
  title : String
  message : String
  level : NotifierLevel
  icon : String
  deriving DecidableEq, Repr

/-- Members of `Core` (`m_icmpMutex` is left out). -/
structure Core where
  m_pollIntervalSeconds : Int
  m_forcedGateway : String
  m_notificationsEnabled : Bool
  m_arpMonitor : Option ArpMonitor
  m_dnsMonitor : Option DnsMonitor
  m_icmpMonitor : Option IcmpMonitor
  m_lastIcmpAlert : Int
  deriving DecidableEq, Repr

/-- What the constructor of `Core` reads from its surroundings: the result of
`detect_gateway_ip()`, the file system and JSON library used to load the known
resolvers, and the reading of `steady_clock::now()`. -/
structure CoreEnv where
  detectedGateway : String
  openFile : String → Option String
  parseJson : String → Option Json
  now : Int

/-- Constructor `Core::Core` (the `Logger` calls are left out). The callbacks
it installs on the DNS and ICMP watchers return normally. -/
def Core.create (pollIntervalSeconds : Int) (forcedGateway : String) (cfg : Config)
    (env : CoreEnv) : Core :=
  { m_pollIntervalSeconds := pollIntervalSeconds
    m_forcedGateway := forcedGateway
    m_notificationsEnabled := cfg.showNotifications
    m_lastIcmpAlert := env.now - ICMP_ALERT_INTERVAL
    m_arpMonitor :=
      if cfg.arpMonitorEnabled = true then
        if forcedGateway = "" then
          some (ArpMonitor.create env.detectedGateway pollIntervalSeconds)
        else some (ArpMonitor.createFor forcedGateway env.detectedGateway pollIntervalSeconds)
      else none
    m_dnsMonitor :=
      if cfg.dnsMonitorEnabled = true then
        some (DnsMonitor.setNotificationCallback Callback.returning
          (DnsMonitor.setKnownDnsPath env.openFile env.parseJson cfg.getKnownDNSPath
            DnsMonitor.fresh))
      else none
    m_icmpMonitor :=
      if cfg.icmpMonitorEnabled = true then
        some (IcmpMonitor.setPingCallback Callback.returning IcmpMonitor.fresh)
      else none }

/-- A sample configuration that enables the ARP watcher only. -/
def sampleArpOnlyConfig : Config :=
  { iniPath_ := "/etc/spoofeye/spoofeye.ini", data_ := [("monitors.arp_monitor", "true")] }

/-- Sample surroundings in which no default gateway is detected and no file can
be opened; the clock reads 100 s. -/
def sampleNoGatewayEnv : CoreEnv :=
  { detectedGateway := ""
    openFile := fun _ => none
    parseJson := fun _ => none
    now := 100000000000 }

/-- Effects of one invocation of the ping callback that `Core` installs on the
ICMP watcher: `Core` afterwards, the `Logger::log` calls and the
`Notifier::send` calls the callback itself makes. -/
structure PingAlert where
  core : Core
  logs : List (LogType × String)
  sends : List SendCall
  deriving DecidableEq, Repr

/-- The ping callback of `Core::Core` (lines 52-62), invoked for `srcIp` when
`steady_clock::now()` reads `now`. -/
def Core.icmpPingCallback (srcIp : String) (now : Int) (c : Core) : PingAlert :=
  if now - c.m_lastIcmpAlert ≥ ICMP_ALERT_INTERVAL then
    { core := { c with m_lastIcmpAlert := now }
      logs := [(LogType.DEFAULT, "Ping detected from " ++ srcIp)]
      sends := [{ title := "ICMP Ping Alert"
                  message := "Ping detected from " ++ srcIp
                  level := NotifierLevel.INFO
                  icon := "network-transmit-receive" }] }
  else { core := c, logs := [], sends := [] }

/-- Successive invocations of the ping callback (serialised by `m_icmpMutex`),
each given by its source address and clock reading; returns the effects of
every invocation in order. -/
def Core.pingAlerts : Core → List (String × Int) → List PingAlert
  | _, [] => []
  | c, (srcIp, now) :: rest =>
    let r := Core.icmpPingCallback srcIp now c
    r :: Core.pingAlerts r.core rest

/-- `Core` after the given invocations of the ping callback. -/
def Core.afterPings : Core → List (String × Int) → Core
  | c, [] => c
  | c, (srcIp, now) :: rest => Core.afterPings (Core.icmpPingCallback srcIp now c).core rest

/-- The main loop of `Core::run` (lines 111-113) over the successive values
that `keepRunning.load()` yields: the number of 200 ms sleeps made, and whether
the loop has ended (a `false` was read) within these reads. -/
def mainLoop : List Bool → Nat × Bool
  | [] => (0, false)
  | false :: _ => (0, true)
  | true :: rest => ((mainLoop rest).1 + 1, (mainLoop rest).2)

/-- Effects of `Core::run` up to the end of its main loop (lines 66-113): the
`Logger::log` calls of the function itself, whether it left through the
`return` of line 73, which of the threads `tArp`, `tDns`, `tIcmp` it created
(each calls `start` of its watcher), the sleeps of the main loop and whether
that loop ended within the given reads of `keepRunning`. -/
structure RunResult where
  logs : List (LogType × String)
  returnedEarly : Bool
  arpStarted : Bool
  dnsStarted : Bool
  icmpStarted : Bool
  sleeps : Nat
  loopExited : Bool
  deriving DecidableEq, Repr

/-- `Core::run` up to the end of its main loop (lines 66-113); `keepRunning`
lists the values the successive `keepRunning.load()` calls yield. The shutdown
sequence that follows the loop (lines 115-127) is not part of the embedding. -/
def Core.run (c : Core) (keepRunning : List Bool) : RunResult :=
  let arpReady : Bool :=
    match c.m_arpMonitor with
    | some a => a.isInitialized
    | none => false
  let gw : String :=
    match c.m_arpMonitor with
    | some a => a.gateway_ip
    | none => ""
  let dnsReady : Bool :=
    match c.m_dnsMonitor with
    | some d => d.isInitialized
    | none => false
  let icmpReady : Bool :=
    match c.m_icmpMonitor with
    | some i => i.isInitialized
    | none => false
  if arpReady = true ∧ gw = "" then
    { logs := [(LogType.ERROR, "Could not detect gateway IP.")]
      returnedEarly := true
      arpStarted := false, dnsStarted := false, icmpStarted := false
      sleeps := 0, loopExited := false }
  else
    { logs :=
        (if arpReady = true then
          [(LogType.INFO, "Monitoring gateway IP: " ++ gw ++ " (poll interval " ++
            toString c.m_pollIntervalSeconds ++ "s).")]
        else []) ++
        (if dnsReady = true then
          [(LogType.INFO, "Monitoring DNS servers (poll interval " ++
            toString c.m_pollIntervalSeconds ++ "s).")]
        else [])
      returnedEarly := false
      arpStarted := arpReady
      dnsStarted := dnsReady
      icmpStarted := icmpReady
      sleeps := (mainLoop keepRunning).1
      loopExited := (mainLoop keepRunning).2 }

/-! ## Further functions of the watchers -/

/-- Two bytes that are equal or are the same ASCII letter in different case. -/
def sameUpToCase (c d : Char) : Prop :=
  c = d ∨ (65 ≤ c.toNat ∧ c.toNat ≤ 90 ∧ d.toNat = c.toNat + 32) ∨
    (65 ≤ d.toNat ∧ d.toNat ≤ 90 ∧ c.toNat = d.toNat + 32)

/-- In the words of the specification: two strings that differ only in ASCII
letter case and in inserted or removed whitespace. Whitespace may be dropped on
either side; the other characters pair up, equal up to case. -/
inductive CaseSpaceVariant : List Char → List Char → Prop where
  | nil : CaseSpaceVariant [] []
  | spaceLeft (c : Char) (s t : List Char) :
      isspace c = true → CaseSpaceVariant s t → CaseSpaceVariant (c :: s) t
  | spaceRight (c : Char) (s t : List Char) :
      isspace c = true → CaseSpaceVariant s t → CaseSpaceVariant s (c :: t)
  | letter (c d : Char) (s t : List Char) :
      isspace c = false → isspace d = false → sameUpToCase c d →
      CaseSpaceVariant s t → CaseSpaceVariant (c :: s) (d :: t)

/-- `DnsMonitor::isAlerting`. -/
def DnsMonitor.isAlerting (st : DnsMonitor) : Bool := st.m_alerting

/-- `DnsMonitor::getKnownDnsPath`. -/
def DnsMonitor.getKnownDnsPath (st : DnsMonitor) : String := st.m_knownDnsPath

/-- `DnsMonitor::reloadKnownDns`, with the file system and JSON library at the
time of the call. -/
def DnsMonitor.reloadKnownDns (openFile : String → Option String)
    (parseJson : String → Option Json) (st : DnsMonitor) : Bool × DnsMonitor :=
  if st.m_knownDnsPath = "" then (false, st)
  else loadKnownDnsFromFile openFile parseJson st.m_knownDnsPath st

/-- One pass through the body of the `while` loop of `DnsMonitor::workerLoop`:
what `checkOnce` did, whether one of the two handlers caught an exception, and
the `Logger::log` call of that handler. -/
structure WorkerPass where
  result : CheckResult
  caught : Bool
  logs : List (LogType × String)
  deriving DecidableEq, Repr

/-- The `try` block of `DnsMonitor::workerLoop` with its handlers (lines
119-125). `what` describes the object a throwing callback throws: `some w` for
a `std::exception` whose `what()` is `w`, `none` for anything else. -/
def workerLoopPass (what : Option String) (current : List String) (st : DnsMonitor) :
    WorkerPass :=
  let r := checkOnce current st
  if r.threw = true then
    { result := r
      caught := true
      logs :=
        match what with
        | some w => [(LogType.ERROR, "Exception in workerLoop: " ++ w)]
        | none => [(LogType.ERROR, "Unknown exception in worker loop.")] }
  else { result := r, caught := false, logs := [] }

/-- `DnsMonitor::workerLoop` over the successive results of
`getSystemDnsServers`, one per pass: the loop tests `m_running` before every
pass and goes on after a caught exception. -/
def workerLoop (what : Option String) : DnsMonitor → List (List String) → List WorkerPass
  | _, [] => []
  | st, current :: rest =>
    if st.m_running = true then
      workerLoopPass what current st ::
        workerLoop what (workerLoopPass what current st).result.state rest
    else []

/-- `line.erase(pos)` at the first `#` of a line of the resolver
configuration. -/
def stripHash (line : String) : String :=
  ⟨line.data.takeWhile (fun c => decide (c ≠ '#'))⟩

/-- What one line of the resolver configuration adds to `out` (lines
218-226 of `getSystemDnsServers`): the normalized second token when the first
is `nameserver`. -/
def resolvLine (line : String) : Option String :=
  match tokens (stripHash line) with
  | tok :: addr :: _ => if tok = "nameserver" then some (normalizeIpString addr) else none
  | _ => none

/-- `std::unique` followed by `erase`: of every run of equal neighbours only
the first is kept. -/
def uniqueAdjacent : List String → List String
  | [] => []
  | [a] => [a]
  | a :: b :: rest =>
    if a = b then uniqueAdjacent (b :: rest) else a :: uniqueAdjacent (b :: rest)

/-- The non-Windows branch of `DnsMonitor::getSystemDnsServers`. `resolvConf`
is the content of `/etc/resolv.conf`, `none` when it cannot be opened;
`std::sort` yields the ascending arrangement of `out`. -/
def getSystemDnsServers (resolvConf : Option String) : List String :=
  match resolvConf with
  | none => []
  | some text =>
    uniqueAdjacent (List.insertionSort strLe ((getlines text).filterMap resolvLine))

/-- A sample resolver configuration. -/
def sampleResolvConf : String :=
  "# generated\nnameserver 9.9.9.9\nsearch lan\nnameserver 1.1.1.1 # primary\n" ++
  "nameserver\n  nameserver   9.9.9.9  extra\noptions ndots:1\n"

/-! ## Both ICMP throttles, `main` and `Config::loadFromFile` -/

/-- Effects of one detected echo request on `Core` and the ICMP watcher it
owns: `passed` tells whether the throttle of the watcher let the echo through
(the callback was invoked), `forwarded` whether the ping callback of `Core`
then sent the alert. -/
structure EchoThrough where
  core : Core
  passed : Bool
  forwarded : Bool
  deriving DecidableEq, Repr

/-- One detected echo request handled by the ICMP watcher of `Core`
(`onEchoRequest`), whose callback is the ping callback of `Core`; both read the
clock value `now`. -/
def Core.handleEcho (srcIp : String) (now : Int) (c : Core) : EchoThrough :=
  match c.m_icmpMonitor with
  | none => { core := c, passed := false, forwarded := false }
  | some w =>
    match (onEchoRequest srcIp now w).notified with
    | none =>
      { core := { c with m_icmpMonitor := some (onEchoRequest srcIp now w).state }
        passed := false
        forwarded := false }
    | some s =>
      { core := { (Core.icmpPingCallback s now c).core with
                  m_icmpMonitor := some (onEchoRequest srcIp now w).state }
        passed := true
        forwarded := decide ((Core.icmpPingCallback s now c).sends ≠ []) }

/-- Successive detected echo requests handled by the ICMP watcher of `Core`. -/
def Core.echoPipeline : Core → List (String × Int) → List EchoThrough
  | _, [] => []
  | c, (srcIp, now) :: rest =>
    Core.handleEcho srcIp now c :: Core.echoPipeline (Core.handleEcho srcIp now c).core rest

/-- The commands that `main` registers. -/
inductive CliCommand where
  | configPath
  | help
  | printConfig
  | version
  deriving DecidableEq, Repr

/-- The fields of `commands::CommandInfo` that `main` reads. -/
structure CommandInfo where
  impl : CliCommand
  takesArgument : Bool
  exitAfterExecution : Bool
  deriving DecidableEq, Repr

/-- `commands::Init::getCommandInfo` on the table that the four
`registerCommand` calls of `main` build (lines 58-93): names and aliases are
looked up exactly. -/
def getCommandInfo (token : String) : Option CommandInfo :=
  if token = "--config-path" then
    some { impl := CliCommand.configPath, takesArgument := true, exitAfterExecution := false }
  else if token = "--help" ∨ token = "-h" ∨ token = "help" then
    some { impl := CliCommand.help, takesArgument := false, exitAfterExecution := true }
  else if token = "--print-config" ∨ token = "--config" ∨ token = "config" then
    some { impl := CliCommand.printConfig, takesArgument := false, exitAfterExecution := false }
  else if token = "--version" ∨ token = "-v" then
    some { impl := CliCommand.version, takesArgument := false, exitAfterExecution := true }
  else none

/-- The variables of `main` that the argument loops write: `interval`,
`forcedGateway`, `iniPath` and the flag `PrintConfig::print_config`. -/
structure MainState where
  interval : Int
  forcedGateway : String
  iniPath : String
  print_config : Bool
  deriving DecidableEq, Repr

/-- The values `main` starts with (lines 51-53). -/
def MainState.initial : MainState :=
  { interval := 5
    forcedGateway := ""
    iniPath := "/etc/spoofeye/spoofeye.ini"
    print_config := false }

/-- `cmdInfo->impl->execute(arg)`: the `execute` of the four commands;
`Except.error code` when the command calls `std::exit(code)`. -/
def executeCommand (impl : CliCommand) (arg : String) (st : MainState) : Except Int MainState :=
  match impl with
  | CliCommand.configPath =>
    if arg = "" then Except.error 2 else Except.ok { st with iniPath := arg }
  | CliCommand.help => Except.ok st
  | CliCommand.printConfig => Except.ok { st with print_config := true }
  | CliCommand.version => Except.ok st

/-- The command loop of `main` (lines 99-126) over the tokens still to be
read; `Except.error code` when `main` returns `code` or exits in the loop. -/
def commandLoop : List String → MainState → Except Int MainState
  | [], st => Except.ok st
  | token :: rest, st =>
    match getCommandInfo token with
    | none => Except.error 1
    | some info =>
      match info.takesArgument, rest with
      | true, [] => Except.error 2
      | true, arg :: rest2 =>
        match executeCommand info.impl arg st with
        | Except.error code => Except.error code
        | Except.ok st2 =>
          if info.exitAfterExecution = true then Except.error 0 else commandLoop rest2 st2
      | false, rest1 =>
        match executeCommand info.impl "" st with
        | Except.error code => Except.error code
        | Except.ok st2 =>
          if info.exitAfterExecution = true then Except.error 0 else commandLoop rest1 st2

/-- The flag loop of `main` (lines 129-141) over the tokens still to be read.
`stoi` is `std::stoi`, `none` when it throws; the loop stands outside the `try`
block, so the exception ends the program (`none`). -/
def flagLoop (stoi : String → Option Int) : List String → MainState → Option MainState
  | [], st => some st
  | token :: rest, st =>
    match decide (token = "--interval" ∨ token = "-i"), rest with
    | true, arg :: rest2 =>
      match stoi arg with
      | none => none
      | some n => flagLoop stoi rest2 { st with interval := n }
    | _, rest1 =>
      if "--interval=".data.isPrefixOf token.data = true then
        match stoi ⟨token.data.drop 11⟩ with
        | none => none
        | some n => flagLoop stoi rest1 { st with interval := n }
      else
        match decide (token = "--gateway" ∨ token = "-g"), rest1 with
        | true, arg :: rest2 => flagLoop stoi rest2 { st with forcedGateway := arg }
        | _, rest3 =>
          if "--gateway=".data.isPrefixOf token.data = true then
            flagLoop stoi rest3 { st with forcedGateway := ⟨token.data.drop 10⟩ }
          else flagLoop stoi rest3 st

/-- How far `main` gets with its arguments: it returns or exits with a code
before the configuration is loaded, or `std::stoi` throws outside the `try`
block, or it reaches the `try` block (line 146) with the given values, where it
loads `Config` from `iniPath` and, unless `print_config` is set, constructs
`Core(interval, forcedGateway, cfg)`. -/
inductive MainOutcome where
  | exited (code : Int)
  | terminated
  | configured (st : MainState)
  deriving DecidableEq, Repr

/-- Lines 51-141 of `main` on the arguments `argv[1..]`. -/
def mainArgs (stoi : String → Option Int) (args : List String) : MainOutcome :=
  match commandLoop args MainState.initial with
  | Except.error code => MainOutcome.exited code
  | Except.ok st =>
    match flagLoop stoi args st with
    | none => MainOutcome.terminated
    | some st2 => MainOutcome.configured st2

/-- The first statement of the loop body of `Config::loadFromFile`: a trailing
carriage return is removed. -/
def popCarriageReturn (line : String) : String :=
  if line.data.getLast? = some '\r' then ⟨line.data.dropLast⟩ else line

/-- `line.erase(commentPos)` at the first `;` or `#`. -/
def stripIniComment (line : String) : String :=
  ⟨line.data.takeWhile (fun c => decide (c ≠ ';' ∧ c ≠ '#'))⟩

/-- What one line of the INI text amounts to in `Config::loadFromFile`: nothing,
a new current section (trimmed, lowercased), or an assignment of a trimmed
value to a trimmed key. -/
inductive IniLine where
  | skip
  | header (name : String)
  | assign (key value : String)
  deriving DecidableEq, Repr

/-- Lines 101-118 of `Config::loadFromFile` for one line read by
`std::getline`. -/
def Config.parseLine (rawLine : String) : IniLine :=
  let line := Config.trim (stripIniComment (popCarriageReturn rawLine))
  if line = "" then IniLine.skip
  else if 2 ≤ line.data.length ∧ line.data.head? = some '[' ∧ line.data.getLast? = some ']' then
    IniLine.header (Config.toLower (Config.trim ⟨(line.data.drop 1).dropLast⟩))
  else
    match line.data.dropWhile (fun c => decide (c ≠ '=' ∧ c ≠ ':')) with
    | [] => IniLine.skip
    | _ :: after =>
      IniLine.assign
        (Config.trim ⟨line.data.takeWhile (fun c => decide (c ≠ '=' ∧ c ≠ ':'))⟩)
        (Config.trim ⟨after⟩)

/-- `data_[key] = value` on the association list that stands for the
`std::unordered_map`. -/
def Config.assign (data : List (String × String)) (key value : String) :
    List (String × String) :=
  (key, value) :: data.filter (fun kv => decide (kv.1 ≠ key))

/-- The local `currentSection` and the member `data_` while
`Config::loadFromFile` runs. -/
structure IniLoad where
  currentSection : String
  data_ : List (String × String)
  deriving DecidableEq, Repr

/-- The key under which an assignment is stored (lines 119-120): prefixed with
the current section and a dot when there is one, then lowercased. -/
def Config.qualifiedKey (currentSection key : String) : String :=
  Config.toLower (if currentSection ≠ "" then currentSection ++ "." ++ key else key)

/-- The body of the `while` loop of `Config::loadFromFile` for one line. -/
def Config.loadLine (st : IniLoad) (rawLine : String) : IniLoad :=
  match Config.parseLine rawLine with
  | IniLine.skip => st
  | IniLine.header name => { st with currentSection := name }
  | IniLine.assign key value =>
    { st with data_ := Config.assign st.data_ (Config.qualifiedKey st.currentSection key) value }

/-- Constructor `Config::Config(ini_path)` with `loadFromFile`: `content` is
the content of the file, `none` when it cannot be opened; the result is `none`
when the constructor throws. -/
def Config.loadFromFile (iniPath : String) (content : Option String) : Option Config :=
  match content with
  | none => none
  | some text =>
    some { iniPath_ := iniPath
           data_ := ((getlines text).foldl Config.loadLine
                      { currentSection := "", data_ := [] }).data_ }

/-- The assignments that `Config::loadFromFile` makes for the given lines, in
order, each with the key it is stored under; `currentSection` is the section in
force before the first of the lines. -/
def Config.assignments : String → List String → List (String × String)
  | _, [] => []
  | currentSection, rawLine :: rest =>
    match Config.parseLine rawLine with
    | IniLine.skip => Config.assignments currentSection rest
    | IniLine.header name => Config.assignments name rest
    | IniLine.assign key value =>
      (Config.qualifiedKey currentSection key, value) :: Config.assignments currentSection rest

/-- In the words of the specification: the value of the last assignment to a
key in an INI text, if any line assigns it. -/
def lastAssignment (text key : String) : Option String :=
  ((Config.assignments "" (getlines text)).reverse.find?
    (fun kv => decide (kv.1 = key))).map (fun kv => kv.2)

/-- In the words of the specification: a monitor flag is false when no line
assigns its key, and otherwise false exactly when the value of the last
assignment, trimmed and lowercased, is one of `0`, `false`, `no`, `off`. -/
def monitorFlag (last : Option String) : Bool :=
  match last with
  | none => false
  | some v => decide (Config.toLower (Config.trim v) ∉ ["0", "false", "no", "off"])

/-- A sample INI text. -/
def sampleIni : String :=
  "; SpoofEye\nshow_notifications = no\n\n[MONITORS]\r\nARP_Monitor = Yes\n" ++
  "dns_monitor: off   # disabled\nicmp_monitor =\narp_monitor = OFF ; last one wins\n"

/-! ## Lemmas: ARP monitor -/

theorem toNat_ofNat_of_small (n : Nat) (h : n < 55296) : (Char.ofNat n).toNat = n := by
  have hv : n.isValidChar := Or.inl h
  simp only [Char.ofNat, dif_pos hv, Char.ofNatAux, Char.toNat]
  show (BitVec.ofNatLt n _).toNat = n
  simp

theorem tolower_toNat_upper (c : Char) (h : 65 ≤ c.toNat ∧ c.toNat ≤ 90) :
    (tolower c).toNat = c.toNat + 32 := by
  unfold tolower
  rw [if_pos h]
  exact toNat_ofNat_of_small _ (by omega)

theorem tolower_of_not_upper (c : Char) (h : ¬ (65 ≤ c.toNat ∧ c.toNat ≤ 90)) :
    tolower c = c := by
  unfold tolower
  rw [if_neg h]

theorem isspace_tolower (c : Char) (h : isspace c = false) : isspace (tolower c) = false := by
  by_cases hc : 65 ≤ c.toNat ∧ c.toNat ≤ 90
  · have hv := tolower_toNat_upper c hc
    simp only [isspace, hv, Bool.or_eq_false_iff, Bool.and_eq_false_iff, decide_eq_false_iff_not]
    omega
  · rw [tolower_of_not_upper c hc]
    exact h

theorem tolower_tolower (c : Char) : tolower (tolower c) = tolower c := by
  by_cases hc : 65 ≤ c.toNat ∧ c.toNat ≤ 90
  · apply tolower_of_not_upper
    rw [tolower_toNat_upper c hc]
    omega
  · rw [tolower_of_not_upper c hc, tolower_of_not_upper c hc]

theorem normalize_mac_idem (s : String) : normalize_mac (normalize_mac s) = normalize_mac s := by
  unfold normalize_mac
  congr 1
  show List.map tolower (List.filter (fun c => !isspace c)
      (List.map tolower (List.filter (fun c => !isspace c) s.data)))
    = List.map tolower (List.filter (fun c => !isspace c) s.data)
  have hfilter : List.filter (fun c => !isspace c)
      (List.map tolower (List.filter (fun c => !isspace c) s.data))
      = List.map tolower (List.filter (fun c => !isspace c) s.data) := by
    apply List.filter_eq_self.mpr
    intro a ha
    obtain ⟨b, hb, rfl⟩ := List.mem_map.mp ha
    have hb2 := (List.mem_filter.mp hb).2
    simp only [Bool.not_eq_eq_eq_not, Bool.not_true] at hb2
    simp [isspace_tolower b hb2]
  rw [hfilter, List.map_map]
  apply List.map_congr_left
  intro a _
  exact tolower_tolower a

theorem monitor_cycle_last_mac (gateway : String) (cb : Callback) (observed last_mac : String) :
    normalize_mac (monitor_cycle gateway cb observed last_mac).last_mac
      = normalize_mac observed := by
  unfold monitor_cycle
  by_cases h1 : normalize_mac observed = "" ∧ normalize_mac last_mac = ""
  · simp only [if_pos h1]
    rw [h1.1, h1.2]
  · by_cases h2 : normalize_mac observed ≠ normalize_mac last_mac
    · simp only [if_neg h1, if_pos h2]
      exact normalize_mac_idem observed
    · simp only [if_neg h1, if_neg h2]
      exact (not_not.mp h2).symm

theorem monitor_cycle_calls (gateway : String) (cb : Callback) (hcb : cb ≠ Callback.null)
    (observed last_mac : String) :
    (monitor_cycle gateway cb observed last_mac).calls =
      if normalize_mac observed ≠ normalize_mac last_mac then
        [{ old_mac := normalize_mac last_mac, new_mac := normalize_mac observed, ip := gateway }]
      else [] := by
  have hset : cb.isSet = true := by
    cases cb <;> simp_all [Callback.isSet]
  unfold monitor_cycle
  by_cases h1 : normalize_mac observed = "" ∧ normalize_mac last_mac = ""
  · have : ¬ (normalize_mac observed ≠ normalize_mac last_mac) := by
      rw [h1.1, h1.2]; simp
    simp only [if_pos h1, if_neg this]
  · by_cases h2 : normalize_mac observed ≠ normalize_mac last_mac
    · simp only [if_neg h1, if_pos h2, hset, if_true]
    · simp only [if_neg h1, if_neg h2]

theorem last_mac_after_append (gateway : String) (cb : Callback) (last_mac : String)
    (pre : List String) (o : String) :
    last_mac_after gateway cb last_mac (pre ++ [o])
      = (monitor_cycle gateway cb o (last_mac_after gateway cb last_mac pre)).last_mac := by
  induction pre generalizing last_mac with
  | nil => rfl
  | cons p ps ih => exact ih _

theorem last_mac_after_getLast (gateway : String) (cb : Callback) (last_mac : String)
    (pre : List String) (o : String) (h : pre.getLast? = some o) :
    normalize_mac (last_mac_after gateway cb last_mac pre) = normalize_mac o := by
  rcases List.eq_nil_or_concat pre with hnil | ⟨init, b, hb⟩
  · subst hnil
    simp at h
  · subst hb
    rw [List.concat_eq_append] at h ⊢
    rw [List.getLast?_append] at h
    simp at h
    subst h
    rw [last_mac_after_append]
    exact monitor_cycle_last_mac _ _ _ _

theorem monitor_cycle_logs_of_eq (gateway : String) (cb : Callback) (observed last_mac : String)
    (h : normalize_mac observed = normalize_mac last_mac) :
    (monitor_cycle gateway cb observed last_mac).logs = [] := by
  unfold monitor_cycle
  by_cases h1 : normalize_mac observed = "" ∧ normalize_mac last_mac = ""
  · simp only [if_pos h1]
  · simp only [if_neg h1, if_neg (not_not.mpr h)]

theorem monitor_loop_append (gateway : String) (cb : Callback) (last_mac : String)
    (pre : List String) (o : String) :
    monitor_loop gateway cb last_mac (pre ++ [o])
      = monitor_loop gateway cb last_mac pre
        ++ [monitor_cycle gateway cb o (last_mac_after gateway cb last_mac pre)] := by
  induction pre generalizing last_mac with
  | nil => rfl
  | cons p ps ih =>
    show monitor_cycle gateway cb p last_mac ::
        monitor_loop gateway cb (monitor_cycle gateway cb p last_mac).last_mac (ps ++ [o]) = _
    rw [ih]
    rfl

theorem monitor_loop_getLast (gateway : String) (cb : Callback) (last_mac : String)
    (pre : List String) (o : String) :
    (monitor_loop gateway cb last_mac (pre ++ [o])).getLast?
      = some (monitor_cycle gateway cb o (last_mac_after gateway cb last_mac pre)) := by
  rw [monitor_loop_append]
  simp

/-! ## Lemmas: DNS monitor -/

theorem mem_setInsert (s : List String) (x y : String) :
    y ∈ setInsert s x ↔ y = x ∨ y ∈ s := by
  unfold setInsert
  split
  · rename_i h
    constructor
    · intro hy; exact Or.inr hy
    · rintro (rfl | hy)
      · exact h
      · exact hy
  · exact List.mem_orderedInsert strLe

theorem mem_foldl_setInsert (xs acc : List String) (y : String) :
    y ∈ xs.foldl setInsert acc ↔ y ∈ acc ∨ y ∈ xs := by
  induction xs generalizing acc with
  | nil => simp
  | cons x xs ih =>
    rw [List.foldl_cons, ih, mem_setInsert]
    simp only [List.mem_cons]
    tauto

theorem mem_setOfRange (xs : List String) (y : String) : y ∈ setOfRange xs ↔ y ∈ xs := by
  unfold setOfRange
  rw [mem_foldl_setInsert]
  simp

theorem mem_computeUnknowns (known current : List String) (y : String) :
    y ∈ computeUnknowns known current ↔ y ∈ current ∧ y ∉ known := by
  unfold computeUnknowns
  rw [List.mem_filter, mem_setOfRange]
  simp

theorem checkOnce_knownDns (current : List String) (st : DnsMonitor) :
    (checkOnce current st).state.m_knownDns = st.m_knownDns := by
  unfold checkOnce
  simp only []
  split_ifs <;> rfl

theorem checkOnce_lastUnknownDns (current : List String) (st : DnsMonitor) :
    (checkOnce current st).state.m_lastUnknownDns
      = setOfRange (computeUnknowns st.m_knownDns current) := by
  unfold checkOnce
  simp only []
  split_ifs <;> simp_all

theorem checkOnce_notifications (current : List String) (st : DnsMonitor) :
    (checkOnce current st).notifications =
      if setOfRange (computeUnknowns st.m_knownDns current) ≠ st.m_lastUnknownDns ∧
          setOfRange (computeUnknowns st.m_knownDns current) ≠ [] then
        [(unknownDnsTitle, alertBody (computeUnknowns st.m_knownDns current))]
      else if setOfRange (computeUnknowns st.m_knownDns current) = [] ∧ st.m_alerting = true then
        [(resolvedTitle, resolvedBody)]
      else [] := by
  unfold checkOnce
  simp only []
  split_ifs <;> simp_all

theorem workerLoopCycles_unchanged (current : List String) (n : Nat) (st : DnsMonitor)
    (hsame : setOfRange (computeUnknowns st.m_knownDns current) = st.m_lastUnknownDns)
    (hne : st.m_lastUnknownDns ≠ []) :
    (workerLoopCycles st (List.replicate n current)).map (fun r => r.notifications)
      = List.replicate n [] := by
  induction n generalizing st with
  | zero => rfl
  | succ k ih =>
    have hnote : (checkOnce current st).notifications = [] := by
      rw [checkOnce_notifications, if_neg, if_neg]
      · rw [hsame]; exact fun h => hne h.1
      · exact fun h => h.1 hsame
    have hlast := checkOnce_lastUnknownDns current st
    have hknown := checkOnce_knownDns current st
    show (checkOnce current st).notifications ::
        (workerLoopCycles (checkOnce current st).state (List.replicate k current)).map
          (fun r => r.notifications) = [] :: List.replicate k []
    rw [hnote, ih (checkOnce current st).state]
    · rw [hknown, hlast]
    · rw [hlast, hsame]; exact hne

theorem resolvedTitle_ne_unknownDnsTitle : resolvedTitle ≠ unknownDnsTitle := by decide

theorem isStrSet_nil : IsStrSet [] := ⟨List.sorted_nil, List.nodup_nil⟩

theorem isStrSet_setInsert (s : List String) (x : String) (h : IsStrSet s) :
    IsStrSet (setInsert s x) := by
  unfold setInsert
  split
  · exact h
  · rename_i hx
    refine ⟨h.1.orderedInsert x s, ?_⟩
    exact ((List.perm_orderedInsert strLe x s).nodup_iff).mpr (List.nodup_cons.mpr ⟨hx, h.2⟩)

theorem isStrSet_foldl_setInsert (xs acc : List String) (h : IsStrSet acc) :
    IsStrSet (xs.foldl setInsert acc) := by
  induction xs generalizing acc with
  | nil => exact h
  | cons x xs ih => exact ih _ (isStrSet_setInsert acc x h)

theorem isStrSet_setOfRange (xs : List String) : IsStrSet (setOfRange xs) :=
  isStrSet_foldl_setInsert xs [] isStrSet_nil

theorem collectEntries_eq_none (elems : List Json) (tmp : List String) :
    collectEntries elems tmp = none ↔ ∃ e ∈ elems, e.is_string = false := by
  induction elems generalizing tmp with
  | nil => simp [collectEntries]
  | cons e es ih =>
    cases e <;> simp [collectEntries, Json.is_string, ih]

theorem collectEntries_mem (elems : List Json) (tmp res : List String)
    (h : collectEntries elems tmp = some res) (y : String) :
    y ∈ res ↔ y ∈ tmp ∨ (y ≠ "" ∧ ∃ s, Json.string s ∈ elems ∧ normalizeIpString s = y) := by
  induction elems generalizing tmp with
  | nil =>
    simp only [collectEntries, Option.some.injEq] at h
    subst h
    simp
  | cons e es ih =>
    cases e with
    | string s =>
      simp only [collectEntries] at h
      rw [ih _ h]
      by_cases hs : normalizeIpString s = ""
      · simp only [hs, ne_eq, not_true_eq_false, if_false, List.mem_cons, Json.string.injEq]
        constructor
        · rintro (h1 | ⟨h1, s2, h2, h3⟩)
          · exact Or.inl h1
          · exact Or.inr ⟨h1, s2, Or.inr h2, h3⟩
        · rintro (h1 | ⟨h1, s2, h2 | h2, h3⟩)
          · exact Or.inl h1
          · subst h2; exact absurd (h3.symm.trans hs) h1
          · exact Or.inr ⟨h1, s2, h2, h3⟩
      · simp only [ne_eq, hs, not_false_eq_true, if_true, mem_setInsert, List.mem_cons,
          Json.string.injEq]
        constructor
        · rintro ((h1 | h1) | ⟨h1, s2, h2, h3⟩)
          · exact Or.inr ⟨by rw [h1]; exact hs, s, Or.inl rfl, h1.symm⟩
          · exact Or.inl h1
          · exact Or.inr ⟨h1, s2, Or.inr h2, h3⟩
        · rintro (h1 | ⟨h1, s2, h2 | h2, h3⟩)
          · exact Or.inl (Or.inr h1)
          · subst h2; exact Or.inl (Or.inl h3.symm)
          · exact Or.inr ⟨h1, s2, h2, h3⟩
    | null => simp [collectEntries] at h
    | boolean b => simp [collectEntries] at h
    | number n => simp [collectEntries] at h
    | array a => simp [collectEntries] at h
    | object o => simp [collectEntries] at h

theorem collectEntries_isStrSet (elems : List Json) (tmp res : List String)
    (h : collectEntries elems tmp = some res) (htmp : IsStrSet tmp) : IsStrSet res := by
  induction elems generalizing tmp with
  | nil =>
    simp only [collectEntries, Option.some.injEq] at h
    subst h
    exact htmp
  | cons e es ih =>
    cases e with
    | string s =>
      simp only [collectEntries] at h
      apply ih _ h
      split
      · exact isStrSet_setInsert tmp _ htmp
      · exact htmp
    | null => simp [collectEntries] at h
    | boolean b => simp [collectEntries] at h
    | number n => simp [collectEntries] at h
    | array a => simp [collectEntries] at h
    | object o => simp [collectEntries] at h

/-- The successful path of `loadKnownDnsFromFile`, spelled out. -/
theorem loadKnownDnsFromFile_true (openFile : String → Option String)
    (parseJson : String → Option Json) (path : String) (st : DnsMonitor)
    (h : (loadKnownDnsFromFile openFile parseJson path st).1 = true) :
    path ≠ "" ∧ ∃ content elems tmp, openFile path = some content ∧
      parseJson content = some (Json.array elems) ∧ collectEntries elems [] = some tmp ∧
      tmp ≠ [] ∧
      (loadKnownDnsFromFile openFile parseJson path st).2
        = { st with m_knownDns := tmp, m_knownDnsPath := path } := by
  unfold loadKnownDnsFromFile at h ⊢
  by_cases hp : path = ""
  · simp [hp] at h
  · simp only [if_neg hp] at h ⊢
    refine ⟨hp, ?_⟩
    cases hopen : openFile path with
    | none => simp [hopen] at h
    | some content =>
      simp only [hopen] at h ⊢
      cases hparse : parseJson content with
      | none => simp [hparse] at h
      | some j =>
        cases j with
        | array elems =>
          simp only [hparse] at h ⊢
          cases hcol : collectEntries elems [] with
          | none => simp [hcol] at h
          | some tmp =>
            simp only [hcol] at h ⊢
            by_cases ht : tmp = []
            · simp [ht] at h
            · simp only [if_neg ht]
              exact ⟨content, elems, tmp, rfl, hparse, hcol, ht, rfl⟩
        | null => simp [hparse] at h
        | boolean b => simp [hparse] at h
        | number n => simp [hparse] at h
        | string s => simp [hparse] at h
        | object o => simp [hparse] at h

theorem loadKnownDnsFromFile_false (openFile : String → Option String)
    (parseJson : String → Option Json) (path : String) (st : DnsMonitor)
    (h : (loadKnownDnsFromFile openFile parseJson path st).1 = false) :
    (loadKnownDnsFromFile openFile parseJson path st).2 = st := by
  unfold loadKnownDnsFromFile at h ⊢
  by_cases hp : path = ""
  · simp [hp]
  · simp only [if_neg hp] at h ⊢
    cases hopen : openFile path with
    | none => rfl
    | some content =>
      simp only [hopen] at h ⊢
      cases hparse : parseJson content with
      | none => rfl
      | some j =>
        cases j with
        | array elems =>
          simp only [hparse] at h ⊢
          cases hcol : collectEntries elems [] with
          | none => rfl
          | some tmp =>
            simp only [hcol] at h ⊢
            by_cases ht : tmp = []
            · simp [ht]
            · simp [if_neg ht] at h
        | null => rfl
        | boolean b => rfl
        | number n => rfl
        | string s => rfl
        | object o => rfl

theorem loadKnownDnsFromFile_of_valid (openFile : String → Option String)
    (parseJson : String → Option Json) (path : String) (st : DnsMonitor)
    (content : String) (elems : List Json) (hp : path ≠ "")
    (hopen : openFile path = some content) (hparse : parseJson content = some (Json.array elems))
    (hstr : ∀ e ∈ elems, e.is_string = true)
    (hone : ∃ s, Json.string s ∈ elems ∧ normalizeIpString s ≠ "") :
    (loadKnownDnsFromFile openFile parseJson path st).1 = true := by
  cases hcol : collectEntries elems [] with
  | none =>
    obtain ⟨e, he, hes⟩ := (collectEntries_eq_none elems []).mp hcol
    rw [hstr e he] at hes
    exact absurd hes (by decide)
  | some tmp =>
    obtain ⟨s, hs, hsne⟩ := hone
    have hmem : normalizeIpString s ∈ tmp :=
      (collectEntries_mem elems [] tmp hcol _).mpr (Or.inr ⟨hsne, s, hs, rfl⟩)
    have hne : tmp ≠ [] := List.ne_nil_of_mem hmem
    unfold loadKnownDnsFromFile
    simp only [if_neg hp, hopen, hparse, hcol, if_neg hne]

/-! ## Lemmas: ICMP monitor -/

theorem onEchoRequest_returning (srcIp : String) (now : Int) (st : IcmpMonitor)
    (hcb : st.m_callback = Callback.returning) :
    onEchoRequest srcIp now st =
      if now - st.m_lastNotification ≥ NOTIFY_INTERVAL then
        { state := { st with m_lastNotification := now }, notified := some srcIp, threw := false }
      else { state := st, notified := none, threw := false } := by
  unfold onEchoRequest
  by_cases h : now - st.m_lastNotification ≥ NOTIFY_INTERVAL
  · simp [hcb, h, Callback.isSet]
  · simp [hcb, h, Callback.isSet]

theorem onEchoRequest_callback (srcIp : String) (now : Int) (st : IcmpMonitor) :
    (onEchoRequest srcIp now st).state.m_callback = st.m_callback := by
  unfold onEchoRequest
  split_ifs <;> rfl

theorem icmpStateAfter_callback (es : List (String × Int)) (st : IcmpMonitor) :
    (icmpStateAfter st es).m_callback = st.m_callback := by
  induction es generalizing st with
  | nil => rfl
  | cons e es ih =>
    obtain ⟨a, t⟩ := e
    show (icmpStateAfter (onEchoRequest a t st).state es).m_callback = _
    rw [ih, onEchoRequest_callback]

theorem onEchoRequest_last_ge (srcIp : String) (now bound : Int) (st : IcmpMonitor)
    (hst : bound ≤ st.m_lastNotification) (hnow : bound ≤ now) :
    bound ≤ (onEchoRequest srcIp now st).state.m_lastNotification := by
  unfold onEchoRequest
  split_ifs <;> assumption

theorem icmpStateAfter_last_ge (es : List (String × Int)) (bound : Int) (st : IcmpMonitor)
    (hst : bound ≤ st.m_lastNotification) (hes : ∀ e ∈ es, bound ≤ e.2) :
    bound ≤ (icmpStateAfter st es).m_lastNotification := by
  induction es generalizing st with
  | nil => exact hst
  | cons e es ih =>
    obtain ⟨a, t⟩ := e
    apply ih
    · exact onEchoRequest_last_ge a t bound st hst (hes (a, t) (List.mem_cons_self _ _))
    · intro e he
      exact hes e (List.mem_cons_of_mem _ he)

theorem workerLoopEchoes_append (a b : List (String × Int)) (st : IcmpMonitor)
    (hcb : st.m_callback = Callback.returning) :
    workerLoopEchoes st (a ++ b)
      = workerLoopEchoes st a ++ workerLoopEchoes (icmpStateAfter st a) b := by
  induction a generalizing st with
  | nil => rfl
  | cons e es ih =>
    obtain ⟨src, t⟩ := e
    have hthrew : (onEchoRequest src t st).threw = false := by
      rw [onEchoRequest_returning src t st hcb]
      split_ifs <;> rfl
    have hcb2 : (onEchoRequest src t st).state.m_callback = Callback.returning := by
      rw [onEchoRequest_callback]; exact hcb
    show (if (onEchoRequest src t st).threw = true then [onEchoRequest src t st]
        else onEchoRequest src t st :: workerLoopEchoes (onEchoRequest src t st).state (es ++ b))
      = (if (onEchoRequest src t st).threw = true then [onEchoRequest src t st]
        else onEchoRequest src t st :: workerLoopEchoes (onEchoRequest src t st).state es)
        ++ workerLoopEchoes (icmpStateAfter (onEchoRequest src t st).state es) b
    rw [hthrew]
    simp only [Bool.false_eq_true, if_false, List.cons_append]
    rw [ih _ hcb2]

theorem icmpStateAfter_of_silent (es : List (String × Int)) (st : IcmpMonitor)
    (hcb : st.m_callback = Callback.returning)
    (hsilent : ∀ r ∈ workerLoopEchoes st es, r.notified = none) :
    icmpStateAfter st es = st := by
  induction es generalizing st with
  | nil => rfl
  | cons e es ih =>
    obtain ⟨src, t⟩ := e
    have hstep := onEchoRequest_returning src t st hcb
    have hmem : onEchoRequest src t st ∈ workerLoopEchoes st ((src, t) :: es) := by
      show onEchoRequest src t st ∈ (if (onEchoRequest src t st).threw = true then
          [onEchoRequest src t st]
        else onEchoRequest src t st :: workerLoopEchoes (onEchoRequest src t st).state es)
      split_ifs <;> simp
    have hnone := hsilent _ hmem
    have hsame : onEchoRequest src t st = { state := st, notified := none, threw := false } := by
      by_cases h : t - st.m_lastNotification ≥ NOTIFY_INTERVAL
      · rw [hstep, if_pos h] at hnone
        simp at hnone
      · rw [hstep, if_neg h]
    show icmpStateAfter (onEchoRequest src t st).state es = st
    rw [hsame]
    apply ih st hcb
    intro r hr
    apply hsilent
    show r ∈ (if (onEchoRequest src t st).threw = true then [onEchoRequest src t st]
        else onEchoRequest src t st :: workerLoopEchoes (onEchoRequest src t st).state es)
    rw [hsame]
    simp [hr]

theorem onEchoRequest_source_irrelevant (a b : String) (now : Int) (st : IcmpMonitor) :
    (onEchoRequest a now st).state = (onEchoRequest b now st).state ∧
    (onEchoRequest a now st).threw = (onEchoRequest b now st).threw ∧
    (onEchoRequest a now st).notified.isSome = (onEchoRequest b now st).notified.isSome := by
  unfold onEchoRequest
  split_ifs <;> exact ⟨rfl, rfl, rfl⟩

theorem onEchoRequest_suppressed (srcIp : String) (now : Int) (st : IcmpMonitor)
    (h : now - st.m_lastNotification < NOTIFY_INTERVAL) :
    (onEchoRequest srcIp now st).notified = none := by
  unfold onEchoRequest
  rw [if_neg]
  intro hc
  exact absurd hc.2 (not_le.mpr h)

theorem getElem?_eq_some_getD (l : List Byte) (i : Nat) (h : i < l.length) :
    l[i]? = some (l.getD i 0) := by
  rw [List.getD_eq_getElem?_getD, List.getElem?_eq_getElem h]
  rfl

theorem getElem?_drop_eq (packet : List Byte) (offset i : Nat)
    (h : offset + i < packet.length) :
    (packet.drop offset)[i]? = some (packet.getD (offset + i) 0) := by
  rw [List.getElem?_drop]
  exact getElem?_eq_some_getD packet _ h

/-- The parse of a frame whose captured bytes hold the fixed part of the IP
header and the ICMP type byte. -/
theorem parseIpPacket_drop (packet : List Byte) (offset : Nat)
    (hip : offset + 20 ≤ packet.length)
    (hicmp : offset + (packet.getD offset 0).val % 16 * 4 < packet.length) :
    parseIpPacket (packet.drop offset) =
      if (packet.getD (offset + 9) 0).val = IPPROTO_ICMP ∧
          (packet.getD (offset + (packet.getD offset 0).val % 16 * 4) 0).val = ICMP_ECHO then
        FrameVerdict.echoRequest (inet_ntoa (packet.getD (offset + 12) 0)
          (packet.getD (offset + 13) 0) (packet.getD (offset + 14) 0)
          (packet.getD (offset + 15) 0))
      else FrameVerdict.skipped := by
  have h9 := getElem?_drop_eq packet offset 9 (by omega)
  have h0 := getElem?_drop_eq packet offset 0 (by omega)
  have h12 := getElem?_drop_eq packet offset 12 (by omega)
  have h13 := getElem?_drop_eq packet offset 13 (by omega)
  have h14 := getElem?_drop_eq packet offset 14 (by omega)
  have h15 := getElem?_drop_eq packet offset 15 (by omega)
  have hty := getElem?_drop_eq packet offset ((packet.getD offset 0).val % 16 * 4) hicmp
  rw [Nat.add_zero] at h0
  unfold parseIpPacket
  simp only [h9, h0, h12, h13, h14, h15, hty]
  split_ifs <;> first | rfl | (exfalso; tauto)

/-! ## Lemmas: ARP table, lifecycle and orchestrator -/

theorem mem_monitor_loop (gateway : String) (cb : Callback) (last_mac : String)
    (observations : List String) (cycle : ArpCycle)
    (h : cycle ∈ monitor_loop gateway cb last_mac observations) :
    ∃ observed stored, cycle = monitor_cycle gateway cb observed stored := by
  induction observations generalizing last_mac with
  | nil => simp [monitor_loop] at h
  | cons o os ih =>
    have h2 : cycle = monitor_cycle gateway cb o last_mac ∨
        cycle ∈ monitor_loop gateway cb (monitor_cycle gateway cb o last_mac).last_mac os := by
      simpa [monitor_loop] using h
    rcases h2 with h2 | h2
    · exact ⟨o, last_mac, h2⟩
    · exact ih _ h2

theorem monitor_cycle_call (gateway : String) (cb : Callback) (observed last_mac : String)
    (call : ChangeCall) (h : call ∈ (monitor_cycle gateway cb observed last_mac).calls) :
    call = { old_mac := normalize_mac last_mac, new_mac := normalize_mac observed, ip := gateway } ∧
    normalize_mac observed ≠ normalize_mac last_mac := by
  unfold monitor_cycle at h
  by_cases h1 : normalize_mac observed = "" ∧ normalize_mac last_mac = ""
  · simp [if_pos h1] at h
  · by_cases h2 : normalize_mac observed ≠ normalize_mac last_mac
    · simp only [if_neg h1, if_pos h2] at h
      split_ifs at h
      · simp only [List.mem_singleton] at h
        exact ⟨h, h2⟩
      · simp at h
    · simp [if_neg h1, if_neg h2] at h

theorem monitor_cycle_logs_of_ne (gateway : String) (cb : Callback) (observed last_mac : String)
    (h : normalize_mac observed ≠ normalize_mac last_mac) :
    (monitor_cycle gateway cb observed last_mac).logs =
      [if normalize_mac last_mac = "" then
        (LogType.INFO,
          "ARP entry appeared for gateway " ++ gateway ++ " : " ++ normalize_mac observed)
      else if normalize_mac observed = "" then
        (LogType.CRITICAL,
          "ARP entry for gateway " ++ gateway ++ " disappeared (was " ++
            normalize_mac last_mac ++ ")")
      else
        (LogType.CRITICAL,
          "MAC change for gateway " ++ gateway ++ " : " ++ normalize_mac last_mac ++ " -> " ++
            normalize_mac observed)] := by
  unfold monitor_cycle
  have h1 : ¬ (normalize_mac observed = "" ∧ normalize_mac last_mac = "") := by
    intro hc
    exact h (hc.1.trans hc.2.symm)
  simp only [if_neg h1, if_pos h]

theorem scanArpRows_cons (ip line : String) (rest : List String) :
    scanArpRows ip (line :: rest) =
      if 6 ≤ (tokens line).length then
        if (tokens line).head? = some ip then
          if (tokens line)[3]? = some "00:00:00:00:00:00" then ""
          else ⟨(((tokens line)[3]?).getD "").data.map tolower⟩
        else scanArpRows ip rest
      else scanArpRows ip rest := by
  rw [scanArpRows]
  rcases htok : tokens line with _ | ⟨a, _ | ⟨b, _ | ⟨c, _ | ⟨d, _ | ⟨e, _ | ⟨f, r⟩⟩⟩⟩⟩⟩ <;>
    simp

theorem scanArpRows_find (ip : String) (ls : List String) :
    (((ls.map tokens).filter (fun row => decide (6 ≤ row.length))).find?
        (fun row => decide (row.head? = some ip)) = none → scanArpRows ip ls = "") ∧
    (∀ row, ((ls.map tokens).filter (fun row => decide (6 ≤ row.length))).find?
        (fun row => decide (row.head? = some ip)) = some row →
      6 ≤ row.length ∧ row.head? = some ip ∧
      scanArpRows ip ls =
        if row[3]? = some "00:00:00:00:00:00" then ""
        else ⟨((row[3]?).getD "").data.map tolower⟩) := by
  induction ls with
  | nil =>
    constructor
    · intro _; rfl
    · intro row h; simp at h
  | cons line rest ih =>
    rw [scanArpRows_cons]
    by_cases h6 : 6 ≤ (tokens line).length
    · by_cases hip : (tokens line).head? = some ip
      · simp only [List.map_cons, List.filter_cons, h6, decide_True, if_true, List.find?_cons,
          hip]
        constructor
        · intro h; simp at h
        · intro row h
          simp only [Option.some.injEq] at h
          subst h
          exact ⟨h6, hip, rfl⟩
      · simp only [List.map_cons, List.filter_cons, h6, decide_True, if_true, List.find?_cons,
          hip, decide_False, if_false]
        exact ih
    · simp only [List.map_cons, List.filter_cons, h6, decide_False, if_false]
      simpa using ih

theorem read_mac_of_row (text ip : String) (row : List String)
    (h : arpRowFor text ip = some row) :
    6 ≤ row.length ∧ row.head? = some ip ∧
    read_mac_from_proc_arp (some text) ip =
      if row[3]? = some "00:00:00:00:00:00" then ""
      else ⟨((row[3]?).getD "").data.map tolower⟩ :=
  (scanArpRows_find ip (getlines text).tail).2 row h

theorem read_mac_of_zero_row (text ip : String) (row : List String)
    (h : arpRowFor text ip = some row) (hz : row[3]? = some "00:00:00:00:00:00") :
    read_mac_from_proc_arp (some text) ip = "" := by
  rw [(read_mac_of_row text ip row h).2.2, if_pos hz]

theorem normalize_mac_empty : normalize_mac "" = "" := by decide

theorem isStrSet_filter (s : List String) (p : String → Bool) (h : IsStrSet s) :
    IsStrSet (s.filter p) :=
  ⟨h.1.sublist (List.filter_sublist s), h.2.sublist (List.filter_sublist s)⟩

theorem isStrSet_ext (s t : List String) (hs : IsStrSet s) (ht : IsStrSet t)
    (h : ∀ x, x ∈ s ↔ x ∈ t) : s = t :=
  List.eq_of_perm_of_sorted ((List.perm_ext_iff_of_nodup hs.2 ht.2).mpr h) hs.1 ht.1

theorem setOfRange_of_isStrSet (s : List String) (h : IsStrSet s) : setOfRange s = s :=
  isStrSet_ext _ _ (isStrSet_setOfRange s) h (fun x => mem_setOfRange s x)

theorem isStrSet_strict (s : List String) (h : IsStrSet s) :
    s.Pairwise (fun a b => a.data < b.data) := by
  have hboth : s.Pairwise (fun a b => strLe a b ∧ a ≠ b) := h.1.and h.2
  refine hboth.imp ?_
  intro a b hab
  have hle : a.data ≤ b.data := hab.1
  exact lt_of_le_of_ne hle (fun hd => hab.2 (String.ext hd))

theorem resolvedBody_ne_alertBody (unknowns : List String) :
    resolvedBody ≠ alertBody unknowns := by
  intro h
  have h1 : resolvedBody.data.head? = some 'P' := by decide
  have h2 : (alertBody unknowns).data.head? = some 'U' := by
    unfold alertBody
    rw [String.data_append]
    rfl
  rw [h, h2] at h1
  exact absurd h1 (by decide)

theorem arp_stop_of_not_stopped (m : ArpMonitor) (h : m.stopped_ = false) :
    m.stop.state.running = false := by
  unfold ArpMonitor.stop
  cases hr : m.running <;> simp [h, hr]

theorem dns_stop_of_not_stopped (st : DnsMonitor) (h : st.stopped_ = false) :
    st.stop.state.m_running = false := by
  unfold DnsMonitor.stop
  cases hr : st.m_running <;> simp [h, hr]

theorem icmp_stop_running (handleOpen : Bool) (st : IcmpMonitor) :
    (st.stop handleOpen).state.m_running = false := by
  unfold IcmpMonitor.stop
  cases hr : st.m_running <;> simp [hr]

theorem arp_stop_of_stopped (m : ArpMonitor) (h : m.stopped_ = true) :
    m.stop = { state := m } := by
  unfold ArpMonitor.stop
  rw [if_pos h]

theorem dns_stop_of_stopped (st : DnsMonitor) (h : st.stopped_ = true) :
    st.stop = { state := st } := by
  unfold DnsMonitor.stop
  rw [if_pos h]

theorem icmp_stop_of_not_running (handleOpen : Bool) (st : IcmpMonitor)
    (h : st.m_running = false) : st.stop handleOpen = { state := st } := by
  unfold IcmpMonitor.stop
  simp [h]

theorem arp_start_gateway (m : ArpMonitor) : m.start.state.gateway = m.gateway := by
  unfold ArpMonitor.start
  split_ifs <;> rfl

theorem arp_stop_gateway (m : ArpMonitor) : m.stop.state.gateway = m.gateway := by
  unfold ArpMonitor.stop
  split_ifs <;> rfl

theorem arp_start_running_gateway (m : ArpMonitor)
    (h : m.running = true → m.gateway ≠ "") :
    m.start.state.running = true → m.start.state.gateway ≠ "" := by
  unfold ArpMonitor.start
  split_ifs with h1 h2
  · exact h
  · exact h
  · intro _
    exact h1

theorem arp_stop_running_gateway (m : ArpMonitor)
    (h : m.running = true → m.gateway ≠ "") :
    m.stop.state.running = true → m.stop.state.gateway ≠ "" := by
  unfold ArpMonitor.stop
  split_ifs with h1 h2
  · exact h
  · intro hc; simp at hc
  · intro hc
    simp only at hc
    exact h hc

theorem arp_afterCalls_running_gateway (calls : List LifecycleCall) (m : ArpMonitor)
    (h : m.running = true → m.gateway ≠ "") :
    (m.afterCalls calls).running = true → (m.afterCalls calls).gateway ≠ "" := by
  induction calls generalizing m with
  | nil => exact h
  | cons c cs ih =>
    cases c with
    | start => exact ih m.start.state (arp_start_running_gateway m h)
    | stop => exact ih m.stop.state (arp_stop_running_gateway m h)

theorem core_icmpPingCallback_last_ge (srcIp : String) (now bound : Int) (c : Core)
    (hc : bound ≤ c.m_lastIcmpAlert) (hnow : bound ≤ now) :
    bound ≤ (Core.icmpPingCallback srcIp now c).core.m_lastIcmpAlert := by
  unfold Core.icmpPingCallback
  split_ifs <;> assumption

theorem core_afterPings_last_ge (es : List (String × Int)) (bound : Int) (c : Core)
    (hc : bound ≤ c.m_lastIcmpAlert) (hes : ∀ e ∈ es, bound ≤ e.2) :
    bound ≤ (c.afterPings es).m_lastIcmpAlert := by
  induction es generalizing c with
  | nil => exact hc
  | cons e es ih =>
    obtain ⟨a, t⟩ := e
    apply ih
    · exact core_icmpPingCallback_last_ge a t bound c hc (hes (a, t) (List.mem_cons_self _ _))
    · intro e he
      exact hes e (List.mem_cons_of_mem _ he)

theorem core_pingAlerts_append (a b : List (String × Int)) (c : Core) :
    c.pingAlerts (a ++ b) = c.pingAlerts a ++ (c.afterPings a).pingAlerts b := by
  induction a generalizing c with
  | nil => rfl
  | cons e es ih =>
    obtain ⟨src, t⟩ := e
    show Core.icmpPingCallback src t c :: (Core.icmpPingCallback src t c).core.pingAlerts (es ++ b)
      = Core.icmpPingCallback src t c :: (Core.icmpPingCallback src t c).core.pingAlerts es
        ++ ((Core.icmpPingCallback src t c).core.afterPings es).pingAlerts b
    rw [ih]
    rfl

theorem core_run_not_early (c : Core) (keepRunning : List Bool) :
    c.run keepRunning =
      { logs :=
          (if (match c.m_arpMonitor with
                | some a => a.isInitialized
                | none => false) = true then
            [(LogType.INFO, "Monitoring gateway IP: " ++
              (match c.m_arpMonitor with
                | some a => a.gateway_ip
                | none => "") ++ " (poll interval " ++
              toString c.m_pollIntervalSeconds ++ "s).")]
          else []) ++
          (if (match c.m_dnsMonitor with
                | some d => d.isInitialized
                | none => false) = true then
            [(LogType.INFO, "Monitoring DNS servers (poll interval " ++
              toString c.m_pollIntervalSeconds ++ "s).")]
          else [])
        returnedEarly := false
        arpStarted := (match c.m_arpMonitor with
                | some a => a.isInitialized
                | none => false)
        dnsStarted := (match c.m_dnsMonitor with
                | some d => d.isInitialized
                | none => false)
        icmpStarted := (match c.m_icmpMonitor with
                | some i => i.isInitialized
                | none => false)
        sleeps := (mainLoop keepRunning).1
        loopExited := (mainLoop keepRunning).2 } := by
  unfold Core.run
  simp only []
  rw [if_neg]
  intro h
  cases harp : c.m_arpMonitor with
  | none => simp [harp] at h
  | some a =>
    simp only [harp, ArpMonitor.isInitialized, decide_eq_true_eq] at h
    exact h.1 h.2

theorem core_run_logs_no_error (c : Core) (keepRunning : List Bool) :
    ∀ e ∈ (c.run keepRunning).logs, e.1 = LogType.INFO := by
  rw [core_run_not_early]
  intro e he
  simp only [List.mem_append] at he
  rcases he with he | he
  · split_ifs at he
    · simp only [List.mem_singleton] at he
      rw [he]
    · simp at he
  · split_ifs at he
    · simp only [List.mem_singleton] at he
      rw [he]
    · simp at he

theorem mainLoop_exited (keepRunning : List Bool) :
    (mainLoop keepRunning).2 = true ↔ false ∈ keepRunning := by
  induction keepRunning with
  | nil => simp [mainLoop]
  | cons b bs ih =>
    cases b with
    | false => simp [mainLoop]
    | true => simp [mainLoop, ih]

theorem mainLoop_sleeps (keepRunning : List Bool) :
    (mainLoop keepRunning).1 = (keepRunning.takeWhile (fun b => b)).length := by
  induction keepRunning with
  | nil => rfl
  | cons b bs ih =>
    cases b with
    | false => simp [mainLoop]
    | true => simp [mainLoop, ih]

/-! ## Lemmas: throwing callbacks, resolver file, `main` and configuration -/

theorem monitor_cycle_throwing (gateway observed stored : String) :
    monitor_cycle gateway Callback.throwing observed stored
      = monitor_cycle gateway Callback.returning observed stored := by
  unfold monitor_cycle
  rfl

theorem monitor_loop_throwing (gateway : String) (last_mac : String)
    (observations : List String) :
    monitor_loop gateway Callback.throwing last_mac observations
      = monitor_loop gateway Callback.returning last_mac observations := by
  induction observations generalizing last_mac with
  | nil => rfl
  | cons o os ih =>
    show monitor_cycle gateway Callback.throwing o last_mac ::
        monitor_loop gateway Callback.throwing
          (monitor_cycle gateway Callback.throwing o last_mac).last_mac os
      = monitor_cycle gateway Callback.returning o last_mac ::
        monitor_loop gateway Callback.returning
          (monitor_cycle gateway Callback.returning o last_mac).last_mac os
    rw [monitor_cycle_throwing, ih]

theorem monitor_loop_length (gateway : String) (cb : Callback) (last_mac : String)
    (observations : List String) :
    (monitor_loop gateway cb last_mac observations).length = observations.length := by
  induction observations generalizing last_mac with
  | nil => rfl
  | cons o os ih =>
    show (monitor_loop gateway cb (monitor_cycle gateway cb o last_mac).last_mac os).length + 1
      = os.length + 1
    rw [ih]

theorem checkOnce_running (current : List String) (st : DnsMonitor) :
    (checkOnce current st).state.m_running = st.m_running := by
  unfold checkOnce
  simp only []
  split_ifs <;> rfl

theorem workerLoopPass_result (what : Option String) (current : List String)
    (st : DnsMonitor) : (workerLoopPass what current st).result = checkOnce current st := by
  unfold workerLoopPass
  simp only []
  split_ifs <;> rfl

theorem workerLoop_running (what : Option String) (currents : List (List String))
    (st : DnsMonitor) (hrun : st.m_running = true) :
    (workerLoop what st currents).length = currents.length ∧
    ∀ p ∈ workerLoop what st currents, p.result.state.m_running = true := by
  induction currents generalizing st with
  | nil => exact ⟨rfl, fun p hp => by simp [workerLoop] at hp⟩
  | cons c cs ih =>
    have hnext : (workerLoopPass what c st).result.state.m_running = true := by
      rw [workerLoopPass_result, checkOnce_running]; exact hrun
    have hunfold : workerLoop what st (c :: cs) = workerLoopPass what c st ::
        workerLoop what (workerLoopPass what c st).result.state cs := by
      rw [workerLoop, if_pos hrun]
    obtain ⟨hlen, hall⟩ := ih (workerLoopPass what c st).result.state hnext
    rw [hunfold]
    constructor
    · simp [hlen]
    · intro p hp
      rcases List.mem_cons.mp hp with rfl | hp
      · exact hnext
      · exact hall p hp

theorem workerLoopPass_caught (what : Option String) (current : List String)
    (st : DnsMonitor) :
    (workerLoopPass what current st).caught = (checkOnce current st).threw ∧
    ((checkOnce current st).threw = true → (workerLoopPass what current st).logs.length = 1) := by
  unfold workerLoopPass
  simp only []
  split_ifs with h
  · refine ⟨h.symm, fun _ => ?_⟩
    cases what <;> rfl
  · exact ⟨by simpa using h, fun hc => absurd hc h⟩

theorem mem_workerLoop (what : Option String) (currents : List (List String))
    (st : DnsMonitor) (p : WorkerPass) (hp : p ∈ workerLoop what st currents) :
    ∃ current s, p = workerLoopPass what current s := by
  induction currents generalizing st with
  | nil => simp [workerLoop] at hp
  | cons c cs ih =>
    rw [workerLoop] at hp
    split_ifs at hp with hrun
    · rcases List.mem_cons.mp hp with rfl | hp
      · exact ⟨c, st, rfl⟩
      · exact ih _ hp
    · simp at hp

theorem dropWhile_of_none (p : Char → Bool) (l : List Char) (h : ∀ c ∈ l, p c = false) :
    l.dropWhile p = l := by
  cases l with
  | nil => rfl
  | cons a as => simp [List.dropWhile, h a (List.mem_cons_self a as)]

theorem rdropWhile_of_none (p : Char → Bool) (l : List Char) (h : ∀ c ∈ l, p c = false) :
    l.rdropWhile p = l := by
  unfold List.rdropWhile
  rw [dropWhile_of_none p l.reverse (fun c hc => h c (List.mem_reverse.mp hc)), List.reverse_reverse]

theorem normalizeIpString_of_no_space (s : String) (h : ∀ c ∈ s.data, isspace c = false) :
    normalizeIpString s = s := by
  unfold normalizeIpString
  rw [dropWhile_of_none isspace s.data h, rdropWhile_of_none isspace s.data h]

theorem tokensAux_no_space (cs cur : List Char) (hcur : ∀ c ∈ cur, isspace c = false) :
    ∀ t ∈ tokensAux cs cur, ∀ c ∈ t.data, isspace c = false := by
  induction cs generalizing cur with
  | nil =>
    intro t ht
    unfold tokensAux at ht
    split_ifs at ht
    · simp at ht
    · simp only [List.mem_singleton] at ht
      subst ht
      exact hcur
  | cons a as ih =>
    intro t ht
    unfold tokensAux at ht
    by_cases ha : isspace a = true
    · simp only [ha, if_true] at ht
      split_ifs at ht
      · exact ih [] (by simp) t ht
      · rcases List.mem_cons.mp ht with rfl | ht
        · exact hcur
        · exact ih [] (by simp) t ht
    · simp only [ha] at ht
      apply ih (cur ++ [a]) _ t ht
      intro c hc
      rcases List.mem_append.mp hc with hc | hc
      · exact hcur c hc
      · simp only [List.mem_singleton] at hc
        subst hc
        simpa using ha

theorem tokens_no_space (line t : String) (ht : t ∈ tokens line) :
    ∀ c ∈ t.data, isspace c = false :=
  tokensAux_no_space line.data [] (by simp) t ht

theorem resolvLine_eq_some (line x : String) :
    resolvLine line = some x ↔ ∃ rest, tokens (stripHash line) = "nameserver" :: x :: rest := by
  unfold resolvLine
  rcases htok : tokens (stripHash line) with _ | ⟨tok, _ | ⟨addr, rest⟩⟩
  · simp
  · simp
  · have hmem : addr ∈ tokens (stripHash line) := by rw [htok]; simp
    have hnorm : normalizeIpString addr = addr :=
      normalizeIpString_of_no_space addr (tokens_no_space _ addr hmem)
    simp only [hnorm]
    by_cases h : tok = "nameserver"
    · simp [h]
    · simp [h]

theorem mem_uniqueAdjacent (l : List String) (x : String) : x ∈ uniqueAdjacent l ↔ x ∈ l := by
  induction l using uniqueAdjacent.induct with
  | case1 => simp [uniqueAdjacent]
  | case2 a => simp [uniqueAdjacent]
  | case3 a rest ih =>
    rw [uniqueAdjacent, if_pos rfl, ih]
    simp
  | case4 a b rest h ih =>
    rw [uniqueAdjacent, if_neg h, List.mem_cons, ih]
    exact (List.mem_cons (a := x) (b := a) (l := b :: rest)).symm

theorem uniqueAdjacent_strict (l : List String) (h : l.Sorted strLe) :
    (uniqueAdjacent l).Pairwise (fun a b => a.data < b.data) := by
  induction l using uniqueAdjacent.induct with
  | case1 => simp [uniqueAdjacent]
  | case2 a => simp [uniqueAdjacent]
  | case3 a rest ih =>
    rw [uniqueAdjacent, if_pos rfl]
    exact ih (List.Sorted.of_cons h)
  | case4 a b rest hab ih =>
    rw [uniqueAdjacent, if_neg hab]
    refine List.pairwise_cons.mpr ⟨?_, ih (List.Sorted.of_cons h)⟩
    intro x hx
    have hx2 : x ∈ b :: rest := (mem_uniqueAdjacent _ x).mp hx
    have hle : ∀ y ∈ b :: rest, strLe a y := List.rel_of_sorted_cons h
    have hab2 : a.data ≤ b.data := hle b (List.mem_cons_self b rest)
    have hab3 : a.data < b.data := lt_of_le_of_ne hab2 (fun hd => hab (String.ext hd))
    rcases List.mem_cons.mp hx2 with rfl | hx3
    · exact hab3
    · have hbx : strLe b x := List.rel_of_sorted_cons (List.Sorted.of_cons h) x hx3
      exact lt_of_lt_of_le hab3 hbx

theorem tolower_not_upper (c : Char) : ¬ (65 ≤ (tolower c).toNat ∧ (tolower c).toNat ≤ 90) := by
  by_cases hc : 65 ≤ c.toNat ∧ c.toNat ≤ 90
  · rw [tolower_toNat_upper c hc]
    omega
  · rw [tolower_of_not_upper c hc]
    exact hc

theorem char_eq_of_toNat (c d : Char) (h : c.toNat = d.toNat) : c = d := by
  rw [← Char.ofNat_toNat c, ← Char.ofNat_toNat d, h]

theorem tolower_of_shift (c d : Char) (hc : 65 ≤ c.toNat ∧ c.toNat ≤ 90)
    (hd : d.toNat = c.toNat + 32) : tolower c = tolower d := by
  have h1 : tolower c = d :=
    char_eq_of_toNat _ _ ((tolower_toNat_upper c hc).trans hd.symm)
  have h2 : tolower d = d := tolower_of_not_upper d (by omega)
  rw [h1, h2]

theorem tolower_of_sameUpToCase (c d : Char) (h : sameUpToCase c d) :
    tolower c = tolower d := by
  rcases h with h | ⟨h1, h2, h3⟩ | ⟨h1, h2, h3⟩
  · rw [h]
  · exact tolower_of_shift c d ⟨h1, h2⟩ h3
  · exact (tolower_of_shift d c ⟨h1, h2⟩ h3).symm

theorem normalize_of_variant (s t : List Char) (h : CaseSpaceVariant s t) :
    (s.filter (fun c => !isspace c)).map tolower
      = (t.filter (fun c => !isspace c)).map tolower := by
  induction h with
  | nil => rfl
  | spaceLeft c s t hc _ ih => simpa [List.filter_cons, hc] using ih
  | spaceRight c s t hc _ ih => simpa [List.filter_cons, hc] using ih
  | letter c d s t hc hd hcd _ ih =>
    simp only [List.filter_cons, hc, hd, Bool.not_false, if_true, List.map_cons, ih,
      tolower_of_sameUpToCase c d hcd]

theorem checkOnce_notifyCb (current : List String) (st : DnsMonitor) :
    (checkOnce current st).state.m_notifyCb = st.m_notifyCb := by
  unfold checkOnce
  simp only []
  split_ifs <;> rfl

theorem checkOnce_alerting_inv (current : List String) (st : DnsMonitor)
    (hcb : st.m_notifyCb ≠ Callback.throwing)
    (hinv : st.m_alerting = true ↔ st.m_lastUnknownDns ≠ []) :
    ((checkOnce current st).state.m_alerting = true ↔
      (checkOnce current st).state.m_lastUnknownDns ≠ []) ∧
    (checkOnce current st).threw = false := by
  unfold checkOnce
  simp only []
  split_ifs <;> simp_all

theorem workerLoopCycles_alerting_inv (currents : List (List String)) (st : DnsMonitor)
    (hcb : st.m_notifyCb ≠ Callback.throwing)
    (hinv : st.m_alerting = true ↔ st.m_lastUnknownDns ≠ []) :
    ∀ r ∈ workerLoopCycles st currents,
      (r.state.m_alerting = true ↔ r.state.m_lastUnknownDns ≠ []) ∧ r.threw = false := by
  induction currents generalizing st with
  | nil => intro r hr; simp [workerLoopCycles] at hr
  | cons c cs ih =>
    intro r hr
    have hr2 : r = checkOnce c st ∨ r ∈ workerLoopCycles (checkOnce c st).state cs := by
      simpa [workerLoopCycles] using hr
    have hstep := checkOnce_alerting_inv c st hcb hinv
    rcases hr2 with rfl | hr2
    · exact hstep
    · exact ih (checkOnce c st).state (by rw [checkOnce_notifyCb]; exact hcb) hstep.1 r hr2

theorem core_handleEcho_step (t0 : Int) (srcIp : String) (now : Int) (c : Core) (w : IcmpMonitor)
    (hw : c.m_icmpMonitor = some w) (hcb : w.m_callback = Callback.returning)
    (hinv : c.m_lastIcmpAlert = w.m_lastNotification ∨
      c.m_lastIcmpAlert ≤ t0 - ICMP_ALERT_INTERVAL)
    (ht : t0 ≤ now) :
    (Core.handleEcho srcIp now c).forwarded = (Core.handleEcho srcIp now c).passed ∧
    (Core.handleEcho srcIp now c).passed = (onEchoRequest srcIp now w).notified.isSome ∧
    (Core.handleEcho srcIp now c).core.m_icmpMonitor = some (onEchoRequest srcIp now w).state ∧
    (onEchoRequest srcIp now w).state.m_callback = Callback.returning ∧
    (onEchoRequest srcIp now w).threw = false ∧
    ((Core.handleEcho srcIp now c).core.m_lastIcmpAlert =
        (onEchoRequest srcIp now w).state.m_lastNotification ∨
      (Core.handleEcho srcIp now c).core.m_lastIcmpAlert ≤ t0 - ICMP_ALERT_INTERVAL) := by
  by_cases hpass : now - w.m_lastNotification ≥ NOTIFY_INTERVAL
  · have hon : onEchoRequest srcIp now w =
        { state := { w with m_lastNotification := now }, notified := some srcIp, threw := false } := by
      unfold onEchoRequest
      rw [if_pos ⟨by rw [hcb]; rfl, hpass⟩, if_neg (by rw [hcb]; decide)]
    have hfw : now - c.m_lastIcmpAlert ≥ ICMP_ALERT_INTERVAL := by
      have hI : NOTIFY_INTERVAL = ICMP_ALERT_INTERVAL := rfl
      rcases hinv with h | h
      · rw [h, ← hI]; exact hpass
      · omega
    have hcbk : Core.icmpPingCallback srcIp now c =
        { core := { c with m_lastIcmpAlert := now }
          logs := [(LogType.DEFAULT, "Ping detected from " ++ srcIp)]
          sends := [{ title := "ICMP Ping Alert"
                      message := "Ping detected from " ++ srcIp
                      level := NotifierLevel.INFO
                      icon := "network-transmit-receive" }] } := by
      unfold Core.icmpPingCallback
      rw [if_pos hfw]
    have hh : Core.handleEcho srcIp now c =
        { core := { c with m_lastIcmpAlert := now,
                           m_icmpMonitor := some { w with m_lastNotification := now } }
          passed := true
          forwarded := true } := by
      unfold Core.handleEcho
      rw [hw]
      simp only [hon, hcbk]
      simp
    rw [hh, hon]
    refine ⟨rfl, rfl, rfl, hcb, rfl, Or.inl rfl⟩
  · have hon : onEchoRequest srcIp now w = { state := w, notified := none, threw := false } := by
      unfold onEchoRequest
      rw [if_neg (fun h => hpass h.2)]
    have hh : Core.handleEcho srcIp now c =
        { core := { c with m_icmpMonitor := some w }, passed := false, forwarded := false } := by
      unfold Core.handleEcho
      rw [hw]
      simp only [hon]
    rw [hh, hon]
    exact ⟨rfl, rfl, rfl, hcb, rfl, hinv⟩

theorem core_echoPipeline_inv (t0 : Int) (echoes : List (String × Int)) :
    ∀ (c : Core) (w : IcmpMonitor), c.m_icmpMonitor = some w →
      w.m_callback = Callback.returning →
      (c.m_lastIcmpAlert = w.m_lastNotification ∨
        c.m_lastIcmpAlert ≤ t0 - ICMP_ALERT_INTERVAL) →
      (∀ e ∈ echoes, t0 ≤ e.2) →
      (∀ r ∈ c.echoPipeline echoes, r.forwarded = r.passed) ∧
      (c.echoPipeline echoes).map (fun r => r.passed) =
        (workerLoopEchoes w echoes).map (fun r => r.notified.isSome) := by
  induction echoes with
  | nil => intro c w _ _ _ _; simp [Core.echoPipeline, workerLoopEchoes]
  | cons e rest ih =>
    intro c w hw hcb hinv ht
    obtain ⟨srcIp, now⟩ := e
    obtain ⟨h1, h2, h3, h4, h5, h6⟩ :=
      core_handleEcho_step t0 srcIp now c w hw hcb hinv (ht (srcIp, now) (List.mem_cons_self _ _))
    obtain ⟨ih1, ih2⟩ := ih (Core.handleEcho srcIp now c).core (onEchoRequest srcIp now w).state
      h3 h4 h6 (fun e he => ht e (List.mem_cons_of_mem _ he))
    constructor
    · intro r hr
      rw [Core.echoPipeline, List.mem_cons] at hr
      rcases hr with rfl | hr
      · exact h1
      · exact ih1 r hr
    · rw [Core.echoPipeline, workerLoopEchoes]
      simp only [h5, Bool.false_eq_true, if_false, List.map_cons, ih2, h2]

theorem getCommandInfo_of_interval_or_gateway (token : String)
    (h : token.data.take 3 = ['-', '-', 'i'] ∨ token.data.take 3 = ['-', '-', 'g'] ∨
      token = "-i" ∨ token = "-g") :
    getCommandInfo token = none := by
  have hne : ∀ name : String,
      (name.data.take 3 ≠ ['-', '-', 'i'] ∧ name.data.take 3 ≠ ['-', '-', 'g'] ∧
        name ≠ "-i" ∧ name ≠ "-g") → token ≠ name := by
    intro name hn heq
    subst heq
    rcases h with h | h | h | h
    · exact hn.1 h
    · exact hn.2.1 h
    · exact hn.2.2.1 h
    · exact hn.2.2.2 h
  unfold getCommandInfo
  rw [if_neg (hne _ (by decide))]
  rw [if_neg (by
    rintro (h1 | h1 | h1)
    · exact hne _ (by decide) h1
    · exact hne _ (by decide) h1
    · exact hne _ (by decide) h1)]
  rw [if_neg (by
    rintro (h1 | h1 | h1)
    · exact hne _ (by decide) h1
    · exact hne _ (by decide) h1
    · exact hne _ (by decide) h1)]
  rw [if_neg (by
    rintro (h1 | h1)
    · exact hne _ (by decide) h1
    · exact hne _ (by decide) h1)]

theorem mainArgs_of_unknown_first (stoi : String → Option Int) (token : String)
    (rest : List String) (h : getCommandInfo token = none) :
    mainArgs stoi (token :: rest) = MainOutcome.exited 1 := by
  unfold mainArgs
  rw [commandLoop, h]

theorem config_lookup_filter (data : List (String × String)) (key k : String) (h : k ≠ key) :
    (data.filter (fun kv => decide (kv.1 ≠ key))).lookup k = data.lookup k := by
  induction data with
  | nil => rfl
  | cons kv rest ih =>
    obtain ⟨a, b⟩ := kv
    by_cases ha : a = key
    · have hka : (k == a) = false := by
        rw [ha]
        simpa using h
      rw [List.filter_cons_of_neg (by simpa using ha), List.lookup_cons, hka]
      exact ih
    · rw [List.filter_cons_of_pos (by simpa using ha), List.lookup_cons, List.lookup_cons, ih]

theorem config_lookup_assign (data : List (String × String)) (key value k : String) :
    (Config.assign data key value).lookup k = if k = key then some value else data.lookup k := by
  unfold Config.assign
  by_cases h : k = key
  · subst h
    simp [List.lookup]
  · have hk : (k == key) = false := by simpa using h
    rw [if_neg h, List.lookup, hk]
    exact config_lookup_filter data key k h

theorem config_foldl_lookup (k : String) (lines : List String) :
    ∀ st : IniLoad,
      ((lines.foldl Config.loadLine st).data_).lookup k =
        match (Config.assignments st.currentSection lines).reverse.find?
            (fun kv => decide (kv.1 = k)) with
        | some kv => some kv.2
        | none => st.data_.lookup k := by
  induction lines with
  | nil => intro st; simp [Config.assignments]
  | cons rawLine rest ih =>
    intro st
    rw [List.foldl_cons, ih, Config.assignments]
    cases hp : Config.parseLine rawLine with
    | skip => simp [Config.loadLine, hp]
    | header name => simp [Config.loadLine, hp]
    | assign key value =>
      simp only [Config.loadLine, hp, List.reverse_cons, List.find?_append]
      cases hf : (Config.assignments st.currentSection rest).reverse.find?
          (fun kv => decide (kv.1 = k)) with
      | some kv => simp
      | none =>
        simp only [Option.none_or, config_lookup_assign, List.find?]
        by_cases hk : k = Config.qualifiedKey st.currentSection key
        · subst hk
          simp
        · have hk2 : ¬ Config.qualifiedKey st.currentSection key = k := fun h => hk h.symm
          simp [hk, hk2]

theorem config_parseBool_true (v : String) :
    Config.parseBool v true =
      decide (Config.toLower (Config.trim v) ∉ ["0", "false", "no", "off"]) := by
  unfold Config.parseBool
  by_cases hv : v = ""
  · subst hv
    decide
  · rw [if_neg hv]
    by_cases h1 : Config.toLower (Config.trim v) = "1" ∨ Config.toLower (Config.trim v) = "true" ∨
        Config.toLower (Config.trim v) = "yes" ∨ Config.toLower (Config.trim v) = "on"
    · simp only [h1, if_true]
      rcases h1 with h | h | h | h <;> rw [h] <;> decide
    · simp only [h1, if_false]
      by_cases h0 : Config.toLower (Config.trim v) = "0" ∨
          Config.toLower (Config.trim v) = "false" ∨
          Config.toLower (Config.trim v) = "no" ∨ Config.toLower (Config.trim v) = "off"
      · simp only [h0, if_true]
        rcases h0 with h | h | h | h <;> rw [h] <;> decide
      · simp only [h0, if_false]
        symm
        rw [decide_eq_true_iff]
        intro hm
        apply h0
        simpa using hm

theorem config_load_lookup (iniPath text key : String) :
    (Config.loadFromFile iniPath (some text)).map (fun cfg => cfg.data_.lookup key) =
      some (lastAssignment text key) := by
  unfold Config.loadFromFile lastAssignment
  simp only [Option.map_some']
  rw [config_foldl_lookup]
  cases (Config.assignments "" (getlines text)).reverse.find? (fun kv => decide (kv.1 = key)) with
  | some kv => rfl
  | none => rfl

theorem takeWhile_append_stop (p : Char → Bool) (c : Char) (hc : p c = false)
    (body extra : List Char) :
    (body ++ c :: extra).takeWhile p = body.takeWhile p := by
  induction body with
  | nil => simp [List.takeWhile, hc]
  | cons b rest ih =>
    simp only [List.cons_append, List.takeWhile]
    cases p b with
    | true => simp [ih]
    | false => rfl

theorem stripIniComment_popCarriageReturn (c : Char) (hc : c = ';' ∨ c = '#')
    (body extra : List Char) :
    stripIniComment (popCarriageReturn ⟨body ++ c :: extra⟩) =
      ⟨body.takeWhile (fun c => decide (c ≠ ';' ∧ c ≠ '#'))⟩ := by
  have hp : (fun c => decide (c ≠ ';' ∧ c ≠ '#')) c = false := by
    rcases hc with rfl | rfl <;> decide
  unfold popCarriageReturn
  split_ifs with hlast
  · have hex : extra ≠ [] := by
      intro he
      subst he
      simp at hlast
      rcases hc with rfl | rfl <;> exact absurd hlast (by decide)
    unfold stripIniComment
    simp only [List.dropLast_append_of_ne_nil body (List.cons_ne_nil c extra),
      List.dropLast_cons_of_ne_nil hex]
    rw [takeWhile_append_stop _ c hp]
  · unfold stripIniComment
    simp only
    rw [takeWhile_append_stop _ c hp]

theorem config_parseLine_comment (c : Char) (hc : c = ';' ∨ c = '#')
    (body extra extra2 : List Char) :
    Config.parseLine ⟨body ++ c :: extra⟩ = Config.parseLine ⟨body ++ c :: extra2⟩ := by
  unfold Config.parseLine
  rw [stripIniComment_popCarriageReturn c hc, stripIniComment_popCarriageReturn c hc]

theorem config_qualifiedKey_lower (currentSection key : String) :
    Config.qualifiedKey currentSection key =
      if currentSection = "" then Config.toLower key
      else Config.toLower currentSection ++ "." ++ Config.toLower key := by
  unfold Config.qualifiedKey
  by_cases h : currentSection = ""
  · simp [h]
  · simp only [h, ne_eq, not_false_eq_true, if_true, if_false]
    apply String.ext
    simp [Config.toLower, String.data_append]
    decide

/-- What `reloadKnownDns()` reads after a `setKnownDnsPath(p)`: a call that
fails leaves the watcher unchanged, so `reloadKnownDns()` behaves as it did
before the call, and on a watcher whose stored path is empty it returns false
without reading a file; a call that succeeds stores `p`, and
`reloadKnownDns()` is then a load of the file at `p`. -/
theorem reload_reads_last_loaded_path (openFile openFile2 : String → Option String)
    (parseJson parseJson2 : String → Option Json) (p : String) (st : DnsMonitor) :
    ((loadKnownDnsFromFile openFile parseJson p st).1 = false →
      DnsMonitor.setKnownDnsPath openFile parseJson p st = st ∧
      (st.m_knownDnsPath = "" →
        DnsMonitor.reloadKnownDns openFile2 parseJson2
          (DnsMonitor.setKnownDnsPath openFile parseJson p st) = (false, st)) ∧
      DnsMonitor.reloadKnownDns openFile2 parseJson2
          (DnsMonitor.setKnownDnsPath openFile parseJson p st)
        = DnsMonitor.reloadKnownDns openFile2 parseJson2 st) ∧
    ((loadKnownDnsFromFile openFile parseJson p st).1 = true →
      (DnsMonitor.setKnownDnsPath openFile parseJson p st).m_knownDnsPath = p ∧
      DnsMonitor.reloadKnownDns openFile2 parseJson2
          (DnsMonitor.setKnownDnsPath openFile parseJson p st)
        = loadKnownDnsFromFile openFile2 parseJson2 p
            (DnsMonitor.setKnownDnsPath openFile parseJson p st)) := by
  constructor
  · intro hfail
    have hst : DnsMonitor.setKnownDnsPath openFile parseJson p st = st :=
      loadKnownDnsFromFile_false openFile parseJson p st hfail
    rw [hst]
    refine ⟨rfl, ?_, rfl⟩
    intro hempty
    unfold DnsMonitor.reloadKnownDns
    rw [if_pos hempty]
  · intro hok
    obtain ⟨hp, _, _, tmp, _, _, _, _, hst⟩ :=
      loadKnownDnsFromFile_true openFile parseJson p st hok
    have hpath : (DnsMonitor.setKnownDnsPath openFile parseJson p st).m_knownDnsPath = p := by
      unfold DnsMonitor.setKnownDnsPath
      rw [hst]
    refine ⟨hpath, ?_⟩
    unfold DnsMonitor.reloadKnownDns
    rw [hpath, if_neg hp]

/-- The lemma `reload_reads_last_loaded_path` at `known.json`, loaded with
{1.1.1.1}, then rewritten to {8.8.8.8} and reloaded. -/
theorem reload_reads_last_loaded_path_witness :
    (loadKnownDnsFromFile (fun _ => some "[\"1.1.1.1\"]")
      (fun _ => some (Json.array [Json.string "1.1.1.1"])) "known.json"
      DnsMonitor.fresh).1 = true ∧
    DnsMonitor.reloadKnownDns (fun _ => some "[\"8.8.8.8\"]")
        (fun _ => some (Json.array [Json.string "8.8.8.8"]))
        (DnsMonitor.setKnownDnsPath (fun _ => some "[\"1.1.1.1\"]")
          (fun _ => some (Json.array [Json.string "1.1.1.1"])) "known.json" DnsMonitor.fresh)
      = (true, { DnsMonitor.fresh with m_knownDns := ["8.8.8.8"],
                                       m_knownDnsPath := "known.json" }) ∧
    DnsMonitor.reloadKnownDns (fun _ => some "[\"8.8.8.8\"]")
        (fun _ => some (Json.array [Json.string "8.8.8.8"]))
        (DnsMonitor.setKnownDnsPath (fun _ => some "[\"1.1.1.1\"]")
          (fun _ => some (Json.array [Json.string "1.1.1.1"])) "known.json" DnsMonitor.fresh)
      = loadKnownDnsFromFile (fun _ => some "[\"8.8.8.8\"]")
          (fun _ => some (Json.array [Json.string "8.8.8.8"])) "known.json"
          (DnsMonitor.setKnownDnsPath (fun _ => some "[\"1.1.1.1\"]")
            (fun _ => some (Json.array [Json.string "1.1.1.1"])) "known.json"
            DnsMonitor.fresh) :=
  ⟨by decide, by decide,
   ((reload_reads_last_loaded_path (fun _ => some "[\"1.1.1.1\"]")
      (fun _ => some "[\"8.8.8.8\"]") (fun _ => some (Json.array [Json.string "1.1.1.1"]))
      (fun _ => some (Json.array [Json.string "8.8.8.8"])) "known.json" DnsMonitor.fresh).2
      (by decide)).2⟩

/-! ## Verified claims -/

/-- C1: with a change callback supplied, in every poll cycle of the ARP loop
(reached from any initial last-known MAC `last_mac` after any finite sequence
`pre` of earlier observations) the callback is invoked exactly once when
`normalize_mac` of the observed MAC differs from `normalize_mac` of the stored
last-known MAC and is not invoked when they are equal; the stored MAC is
`normalize_mac`-equal to the previous observation, so an observation that
differs from the previous one only in letter case or whitespace produces no
event (no callback invocation and no log line). -/
theorem arp_cycle_event_iff_transition (gateway : String) (cb : Callback)
    (hcb : cb ≠ Callback.null) (last_mac : String) (pre : List String) (observed : String) :
    let stored := last_mac_after gateway cb last_mac pre
    let cycle := monitor_cycle gateway cb observed stored
    (normalize_mac observed ≠ normalize_mac stored → cycle.calls.length = 1) ∧
    (normalize_mac observed = normalize_mac stored → cycle.calls = []) ∧
    (monitor_loop gateway cb last_mac (pre ++ [observed])).getLast? = some cycle ∧
    (∀ previous, pre.getLast? = some previous →
      normalize_mac stored = normalize_mac previous ∧
      (normalize_mac observed = normalize_mac previous →
        cycle.calls = [] ∧ cycle.logs = [])) := by
  intro stored cycle
  have hcalls := monitor_cycle_calls gateway cb hcb observed stored
  refine ⟨?_, ?_, ?_, ?_⟩
  · intro hne
    show (monitor_cycle gateway cb observed stored).calls.length = 1
    rw [hcalls, if_pos hne]
    rfl
  · intro heq
    show (monitor_cycle gateway cb observed stored).calls = []
    rw [hcalls, if_neg (not_not.mpr heq)]
  · exact monitor_loop_getLast gateway cb last_mac pre observed
  · intro previous hprev
    have hst : normalize_mac stored = normalize_mac previous :=
      last_mac_after_getLast gateway cb last_mac pre previous hprev
    refine ⟨hst, ?_⟩
    intro heq
    have heq2 : normalize_mac observed = normalize_mac stored := heq.trans hst.symm
    refine ⟨?_, ?_⟩
    · show (monitor_cycle gateway cb observed stored).calls = []
      rw [hcalls, if_neg (not_not.mpr heq2)]
    · exact monitor_cycle_logs_of_eq gateway cb observed stored heq2

/-- Witness for C1: gateway 192.168.1.1 with stored MAC `aa:bb:cc:dd:ee:ff`,
one earlier observation in upper case, then a genuinely different MAC. -/
theorem arp_cycle_event_iff_transition_witness :
    Callback.returning ≠ Callback.null ∧
    (monitor_cycle "192.168.1.1" Callback.returning "AA:BB:CC:DD:EE:FF " "aa:bb:cc:dd:ee:ff").calls
      = [] ∧
    (monitor_cycle "192.168.1.1" Callback.returning "11:22:33:44:55:66"
        (last_mac_after "192.168.1.1" Callback.returning "aa:bb:cc:dd:ee:ff"
          ["AA:BB:CC:DD:EE:FF "])).calls.length = 1 :=
  ⟨by decide, by decide,
   (arp_cycle_event_iff_transition "192.168.1.1" Callback.returning (by decide)
      "aa:bb:cc:dd:ee:ff" ["AA:BB:CC:DD:EE:FF "] "11:22:33:44:55:66").1 (by decide)⟩

/-- C2: for every watcher state and every observed resolver list, one
`checkOnce` cycle emits an "Unknown DNS" notification if and only if the unknown
set of the cycle is non-empty and differs from the stored unknown set of the
previous cycle, and then it emits exactly that one notification; hence, from a
watcher whose stored unknown set is empty (a fresh watcher), any number `n + 1`
of consecutive cycles with the same observed list containing a resolver that is
not in the known set emit the alert in the first cycle and nothing afterwards.
With known set {1.1.1.1, 8.8.8.8} and observed list {1.1.1.1, 9.9.9.9} the
first cycle alerts for 9.9.9.9 and the second emits nothing. -/
theorem dns_alert_iff_unknown_set_changed (current : List String) (st : DnsMonitor) :
    let unknownSet := setOfRange (computeUnknowns st.m_knownDns current)
    ((∃ body, (unknownDnsTitle, body) ∈ (checkOnce current st).notifications) ↔
        unknownSet ≠ [] ∧ unknownSet ≠ st.m_lastUnknownDns) ∧
    (unknownSet ≠ [] → unknownSet ≠ st.m_lastUnknownDns →
      (checkOnce current st).notifications
        = [(unknownDnsTitle, alertBody (computeUnknowns st.m_knownDns current))]) ∧
    (∀ (n : Nat) (x : String), st.m_lastUnknownDns = [] → x ∈ current → x ∉ st.m_knownDns →
      (workerLoopCycles st (List.replicate (n + 1) current)).map (fun r => r.notifications)
        = [(unknownDnsTitle, alertBody (computeUnknowns st.m_knownDns current))]
            :: List.replicate n []) ∧
    (workerLoopCycles { DnsMonitor.fresh with m_knownDns := ["1.1.1.1", "8.8.8.8"] }
        [["1.1.1.1", "9.9.9.9"], ["1.1.1.1", "9.9.9.9"]]).map (fun r => r.notifications)
      = [[("Unknown DNS", "Unrecognized DNS server(s) detected: 9.9.9.9")], []] := by
  intro unknownSet
  have hnote := checkOnce_notifications current st
  refine ⟨?_, ?_, ?_, by decide⟩
  · constructor
    · rintro ⟨body, hmem⟩
      rw [hnote] at hmem
      split_ifs at hmem with h1 h2
      · exact ⟨h1.2, h1.1⟩
      · simp only [List.mem_singleton, Prod.mk.injEq] at hmem
        exact absurd hmem.1.symm resolvedTitle_ne_unknownDnsTitle
      · simp at hmem
    · intro h
      refine ⟨alertBody (computeUnknowns st.m_knownDns current), ?_⟩
      rw [hnote, if_pos ⟨h.2, h.1⟩]
      simp
  · intro h1 h2
    rw [hnote, if_pos ⟨h2, h1⟩]
  · intro n x hfresh hx hxk
    have hmem : x ∈ unknownSet :=
      (mem_setOfRange _ x).mpr ((mem_computeUnknowns _ _ x).mpr ⟨hx, hxk⟩)
    have hne : unknownSet ≠ [] := List.ne_nil_of_mem hmem
    have hfirst : (checkOnce current st).notifications
        = [(unknownDnsTitle, alertBody (computeUnknowns st.m_knownDns current))] := by
      rw [hnote, if_pos ⟨by rw [hfresh]; exact hne, hne⟩]
    have hlast := checkOnce_lastUnknownDns current st
    have hknown := checkOnce_knownDns current st
    show (checkOnce current st).notifications ::
        (workerLoopCycles (checkOnce current st).state (List.replicate n current)).map
          (fun r => r.notifications) = _
    rw [hfirst, workerLoopCycles_unchanged current n (checkOnce current st).state]
    · rw [hknown, hlast]
    · rw [hlast]; exact hne

/-- Witness for C2: known set {1.1.1.1, 8.8.8.8}, observed list
{1.1.1.1, 9.9.9.9}, three consecutive cycles. -/
theorem dns_alert_iff_unknown_set_changed_witness :
    ({ DnsMonitor.fresh with m_knownDns := ["1.1.1.1", "8.8.8.8"] } : DnsMonitor).m_lastUnknownDns
      = [] ∧
    "9.9.9.9" ∈ ["1.1.1.1", "9.9.9.9"] ∧
    "9.9.9.9" ∉ ({ DnsMonitor.fresh with m_knownDns := ["1.1.1.1", "8.8.8.8"] } :
      DnsMonitor).m_knownDns ∧
    (workerLoopCycles { DnsMonitor.fresh with m_knownDns := ["1.1.1.1", "8.8.8.8"] }
        (List.replicate 3 ["1.1.1.1", "9.9.9.9"])).map (fun r => r.notifications)
      = [[("Unknown DNS", "Unrecognized DNS server(s) detected: 9.9.9.9")], [], []] :=
  ⟨by decide, by decide, by decide,
   (dns_alert_iff_unknown_set_changed ["1.1.1.1", "9.9.9.9"]
      { DnsMonitor.fresh with m_knownDns := ["1.1.1.1", "8.8.8.8"] }).2.2.1 2 "9.9.9.9"
      (by decide) (by decide) (by decide)⟩

/-- C4: for every watcher state, every path and every file content (whatever
opening the file and parsing it yield), if `loadKnownDnsFromFile` returns
`false` then the known-resolver set and the stored known-resolver path are
exactly what they were before the call; indeed the whole watcher is
unchanged. -/
theorem load_failure_keeps_known_set (openFile : String → Option String)
    (parseJson : String → Option Json) (path : String) (st : DnsMonitor)
    (h : (loadKnownDnsFromFile openFile parseJson path st).1 = false) :
    (loadKnownDnsFromFile openFile parseJson path st).2.m_knownDns = st.m_knownDns ∧
    (loadKnownDnsFromFile openFile parseJson path st).2.m_knownDnsPath = st.m_knownDnsPath ∧
    (loadKnownDnsFromFile openFile parseJson path st).2 = st := by
  have hst := loadKnownDnsFromFile_false openFile parseJson path st h
  rw [hst]
  exact ⟨rfl, rfl, rfl⟩

/-- Witness for C4: a watcher that loaded {1.1.1.1} from `old.json` is asked to
load `new.json`, whose array holds one blank string. -/
theorem load_failure_keeps_known_set_witness :
    (loadKnownDnsFromFile (fun _ => some "[\" \"]")
        (fun _ => some (Json.array [Json.string " "])) "new.json"
        { DnsMonitor.fresh with m_knownDns := ["1.1.1.1"], m_knownDnsPath := "old.json" }).1
      = false ∧
    (loadKnownDnsFromFile (fun _ => some "[\" \"]")
        (fun _ => some (Json.array [Json.string " "])) "new.json"
        { DnsMonitor.fresh with m_knownDns := ["1.1.1.1"], m_knownDnsPath := "old.json" }).2
      = { DnsMonitor.fresh with m_knownDns := ["1.1.1.1"], m_knownDnsPath := "old.json" } :=
  ⟨by decide,
   (load_failure_keeps_known_set (fun _ => some "[\" \"]")
      (fun _ => some (Json.array [Json.string " "])) "new.json"
      { DnsMonitor.fresh with m_knownDns := ["1.1.1.1"], m_knownDnsPath := "old.json" }
      (by decide)).2.2⟩

/-- C5: `loadKnownDnsFromFile` returns `true` if and only if the path is
non-empty, the file opens, its content parses as a JSON array, every element of
the array is a string, and at least one element is non-empty after whitespace
trimming. In particular one non-string element makes the load fail whatever the
other elements are, and an array all of whose elements are blank strings (the
empty array included) fails. -/
theorem load_succeeds_iff_valid_file (openFile : String → Option String)
    (parseJson : String → Option Json) (path : String) (st : DnsMonitor) :
    ((loadKnownDnsFromFile openFile parseJson path st).1 = true ↔
      path ≠ "" ∧ ∃ content elems, openFile path = some content ∧
        parseJson content = some (Json.array elems) ∧
        (∀ e ∈ elems, e.is_string = true) ∧
        ∃ s, Json.string s ∈ elems ∧ normalizeIpString s ≠ "") ∧
    (∀ content elems, openFile path = some content →
      parseJson content = some (Json.array elems) →
      (∃ e ∈ elems, e.is_string = false) →
      (loadKnownDnsFromFile openFile parseJson path st).1 = false) ∧
    (∀ content elems, openFile path = some content →
      parseJson content = some (Json.array elems) →
      (∀ e ∈ elems, ∃ s, e = Json.string s ∧ normalizeIpString s = "") →
      (loadKnownDnsFromFile openFile parseJson path st).1 = false) := by
  have hiff : (loadKnownDnsFromFile openFile parseJson path st).1 = true ↔
      path ≠ "" ∧ ∃ content elems, openFile path = some content ∧
        parseJson content = some (Json.array elems) ∧
        (∀ e ∈ elems, e.is_string = true) ∧
        ∃ s, Json.string s ∈ elems ∧ normalizeIpString s ≠ "" := by
    constructor
    · intro h
      obtain ⟨hp, content, elems, tmp, hopen, hparse, hcol, hne, _⟩ :=
        loadKnownDnsFromFile_true openFile parseJson path st h
      refine ⟨hp, content, elems, hopen, hparse, ?_, ?_⟩
      · intro e he
        by_contra hes
        have hnone := (collectEntries_eq_none elems []).mpr ⟨e, he, by simpa using hes⟩
        rw [hcol] at hnone
        exact absurd hnone (by simp)
      · obtain ⟨y, hy⟩ := List.exists_mem_of_ne_nil tmp hne
        rcases (collectEntries_mem elems [] tmp hcol y).mp hy with h1 | ⟨h1, s, h2, h3⟩
        · simp at h1
        · exact ⟨s, h2, by rw [h3]; exact h1⟩
    · rintro ⟨hp, content, elems, hopen, hparse, hstr, hone⟩
      exact loadKnownDnsFromFile_of_valid openFile parseJson path st content elems hp hopen
        hparse hstr hone
  refine ⟨hiff, ?_, ?_⟩
  · intro content elems hopen hparse ⟨e, he, hes⟩
    by_contra hres
    obtain ⟨_, content2, elems2, hopen2, hparse2, hstr, _⟩ :=
      hiff.mp (by simpa using hres)
    rw [hopen] at hopen2
    cases hopen2
    rw [hparse] at hparse2
    cases hparse2
    rw [hstr e he] at hes
    exact absurd hes (by decide)
  · intro content elems hopen hparse hblank
    by_contra hres
    obtain ⟨_, content2, elems2, hopen2, hparse2, _, s, hs, hsne⟩ :=
      hiff.mp (by simpa using hres)
    rw [hopen] at hopen2
    cases hopen2
    rw [hparse] at hparse2
    cases hparse2
    obtain ⟨s2, hs2, hblank2⟩ := hblank _ hs
    cases hs2
    exact hsne hblank2

/-- Witness for C5: the array `["8.8.8.8", 3]` has a non-string element. -/
theorem load_succeeds_iff_valid_file_witness :
    (∃ e ∈ [Json.string "8.8.8.8", Json.number 3], e.is_string = false) ∧
    (loadKnownDnsFromFile (fun _ => some "[\"8.8.8.8\", 3]")
        (fun _ => some (Json.array [Json.string "8.8.8.8", Json.number 3])) "known.json"
        DnsMonitor.fresh).1 = false :=
  ⟨⟨Json.number 3, by simp, rfl⟩,
   (load_succeeds_iff_valid_file (fun _ => some "[\"8.8.8.8\", 3]")
      (fun _ => some (Json.array [Json.string "8.8.8.8", Json.number 3])) "known.json"
      DnsMonitor.fresh).2.1 "[\"8.8.8.8\", 3]" [Json.string "8.8.8.8", Json.number 3] rfl rfl
      ⟨Json.number 3, by simp, rfl⟩⟩

/-- C6: whenever `loadKnownDnsFromFile` returns `true`, the file opened and
parsed as an array, and afterwards the known set holds exactly the
whitespace-trimmed, non-empty strings of that array (as a well-formed set:
ascending, no duplicates), the stored path is the path just loaded, the new
known set does not depend on the watcher state before the call (no previous
entry survives unless the file has it), and the next `checkOnce` cycle stores
as unknown exactly the observed addresses that are not in this new set. -/
theorem load_success_replaces_known_set (openFile : String → Option String)
    (parseJson : String → Option Json) (path : String) (st : DnsMonitor)
    (h : (loadKnownDnsFromFile openFile parseJson path st).1 = true) :
    ∃ content elems, openFile path = some content ∧
      parseJson content = some (Json.array elems) ∧
      (∀ x, x ∈ (loadKnownDnsFromFile openFile parseJson path st).2.m_knownDns ↔
        x ≠ "" ∧ ∃ s, Json.string s ∈ elems ∧ normalizeIpString s = x) ∧
      IsStrSet (loadKnownDnsFromFile openFile parseJson path st).2.m_knownDns ∧
      (loadKnownDnsFromFile openFile parseJson path st).2.m_knownDnsPath = path ∧
      (∀ other : DnsMonitor,
        (loadKnownDnsFromFile openFile parseJson path other).2.m_knownDns
          = (loadKnownDnsFromFile openFile parseJson path st).2.m_knownDns) ∧
      (∀ (current : List String) (y : String),
        y ∈ (checkOnce current
              (loadKnownDnsFromFile openFile parseJson path st).2).state.m_lastUnknownDns ↔
          y ∈ current ∧ ¬ (y ≠ "" ∧ ∃ s, Json.string s ∈ elems ∧ normalizeIpString s = y)) := by
  obtain ⟨hp, content, elems, tmp, hopen, hparse, hcol, hne, hst⟩ :=
    loadKnownDnsFromFile_true openFile parseJson path st h
  have hmem : ∀ x, x ∈ tmp ↔ x ≠ "" ∧ ∃ s, Json.string s ∈ elems ∧ normalizeIpString s = x := by
    intro x
    rw [collectEntries_mem elems [] tmp hcol x]
    simp
  refine ⟨content, elems, hopen, hparse, ?_, ?_, ?_, ?_, ?_⟩
  · rw [hst]; exact hmem
  · rw [hst]; exact collectEntries_isStrSet elems [] tmp hcol isStrSet_nil
  · rw [hst]
  · intro other
    have hother : (loadKnownDnsFromFile openFile parseJson path other).1 = true := by
      unfold loadKnownDnsFromFile
      simp only [if_neg hp, hopen, hparse, hcol, if_neg hne]
    obtain ⟨_, content2, elems2, tmp2, hopen2, hparse2, hcol2, _, hst2⟩ :=
      loadKnownDnsFromFile_true openFile parseJson path other hother
    rw [hopen] at hopen2
    cases hopen2
    rw [hparse] at hparse2
    cases hparse2
    rw [hcol] at hcol2
    cases hcol2
    rw [hst, hst2]
  · intro current y
    rw [checkOnce_lastUnknownDns, mem_setOfRange, mem_computeUnknowns, hst]
    show y ∈ current ∧ y ∉ tmp ↔ _
    rw [hmem y]

/-- Witness for C6: a watcher that loaded {1.1.1.1} from `old.json` loads
`new.json` holding `[" 9.9.9.9 ", "8.8.8.8", ""]`. -/
theorem load_success_replaces_known_set_witness :
    (loadKnownDnsFromFile (fun _ => some "[\" 9.9.9.9 \", \"8.8.8.8\", \"\"]")
        (fun _ => some (Json.array [Json.string " 9.9.9.9 ", Json.string "8.8.8.8",
          Json.string ""])) "new.json"
        { DnsMonitor.fresh with m_knownDns := ["1.1.1.1"], m_knownDnsPath := "old.json" }).1
      = true ∧
    (loadKnownDnsFromFile (fun _ => some "[\" 9.9.9.9 \", \"8.8.8.8\", \"\"]")
        (fun _ => some (Json.array [Json.string " 9.9.9.9 ", Json.string "8.8.8.8",
          Json.string ""])) "new.json"
        { DnsMonitor.fresh with m_knownDns := ["1.1.1.1"], m_knownDnsPath := "old.json" }).2
      = { DnsMonitor.fresh with m_knownDns := ["8.8.8.8", "9.9.9.9"],
                                m_knownDnsPath := "new.json" } ∧
    ∃ content elems, (fun _ : String => some "[\" 9.9.9.9 \", \"8.8.8.8\", \"\"]") "new.json"
        = some content ∧
      (fun _ : String => some (Json.array [Json.string " 9.9.9.9 ", Json.string "8.8.8.8",
          Json.string ""])) content = some (Json.array elems) :=
  ⟨by decide, by decide,
   (load_success_replaces_known_set (fun _ => some "[\" 9.9.9.9 \", \"8.8.8.8\", \"\"]")
      (fun _ => some (Json.array [Json.string " 9.9.9.9 ", Json.string "8.8.8.8",
        Json.string ""])) "new.json"
      { DnsMonitor.fresh with m_knownDns := ["1.1.1.1"], m_knownDnsPath := "old.json" }
      (by decide)).imp (fun _ hc => hc.imp (fun _ he => ⟨he.1, he.2.1⟩))⟩

/-- C7: with a callback set (one that returns), for every sequence of echo
requests with non-decreasing clock readings, split as `pre`, `e1`, `mid`, `e2`:
the capture loop handles them one after the other; the echo `e1` invokes the
callback if and only if its time minus the stored last-notification time is at
least 60 s (`NOTIFY_INTERVAL`), and the last-notification time becomes the time
of `e1` exactly when the callback is invoked. Hence a later echo `e2` less than
60 s after the notified `e1` is not notified, an echo `e2` at least 60 s after
the notified `e1` with no notification in between is notified, and any two
notifications are at least 60 s apart. -/
theorem icmp_throttle_sixty_seconds (st : IcmpMonitor) (hcb : st.m_callback = Callback.returning)
    (pre mid : List (String × Int)) (e1 e2 : String × Int)
    (hmono : List.Sorted (· ≤ ·) ((pre ++ e1 :: (mid ++ [e2])).map Prod.snd)) :
    let s1 := icmpStateAfter st pre
    let r1 := onEchoRequest e1.1 e1.2 s1
    let s2 := icmpStateAfter r1.state mid
    let r2 := onEchoRequest e2.1 e2.2 s2
    workerLoopEchoes st (pre ++ e1 :: (mid ++ [e2]))
      = workerLoopEchoes st pre ++ r1 :: (workerLoopEchoes r1.state mid ++ [r2]) ∧
    (r1.notified = some e1.1 ↔ e1.2 - s1.m_lastNotification ≥ NOTIFY_INTERVAL) ∧
    (r1.notified = none ↔ e1.2 - s1.m_lastNotification < NOTIFY_INTERVAL) ∧
    r1.state.m_lastNotification
      = (if r1.notified.isSome then e1.2 else s1.m_lastNotification) ∧
    (r1.notified.isSome → e2.2 - e1.2 < NOTIFY_INTERVAL → r2.notified = none) ∧
    (r1.notified.isSome → (∀ r ∈ workerLoopEchoes r1.state mid, r.notified = none) →
      e2.2 - e1.2 ≥ NOTIFY_INTERVAL → r2.notified = some e2.1) ∧
    (r1.notified.isSome → r2.notified.isSome → e2.2 - e1.2 ≥ NOTIFY_INTERVAL) := by
  intro s1 r1 s2 r2
  have hcb1 : s1.m_callback = Callback.returning := by
    show (icmpStateAfter st pre).m_callback = _
    rw [icmpStateAfter_callback]; exact hcb
  have hr1 : r1 = _ := onEchoRequest_returning e1.1 e1.2 s1 hcb1
  have hcbr1 : r1.state.m_callback = Callback.returning := by
    show (onEchoRequest e1.1 e1.2 s1).state.m_callback = _
    rw [onEchoRequest_callback]; exact hcb1
  have hcb2 : s2.m_callback = Callback.returning := by
    show (icmpStateAfter r1.state mid).m_callback = _
    rw [icmpStateAfter_callback]; exact hcbr1
  have hr2 : r2 = _ := onEchoRequest_returning e2.1 e2.2 s2 hcb2
  -- timestamps of `mid` and of `e2` are not before `e1`
  have hsorted : List.Sorted (· ≤ ·) ((e1 :: (mid ++ [e2])).map Prod.snd) := by
    rw [List.map_append] at hmono
    exact (List.pairwise_append.mp hmono).2.1
  have hafter : ∀ e ∈ mid ++ [e2], e1.2 ≤ e.2 := by
    intro e he
    rw [List.map_cons] at hsorted
    exact List.rel_of_sorted_cons hsorted e.2 (List.mem_map_of_mem Prod.snd he)
  have hlast1 : r1.notified.isSome → r1.state.m_lastNotification = e1.2 := by
    intro h
    rw [hr1] at h ⊢
    split_ifs at h ⊢ with hc
    · rfl
    · simp at h
  have hge : r1.notified.isSome → e1.2 ≤ s2.m_lastNotification := by
    intro h
    apply icmpStateAfter_last_ge mid e1.2 r1.state (le_of_eq (hlast1 h).symm)
    intro e he
    exact hafter e (List.mem_append_left _ he)
  refine ⟨?_, ?_, ?_, ?_, ?_, ?_, ?_⟩
  · rw [workerLoopEchoes_append pre _ st hcb]
    congr 1
    show workerLoopEchoes s1 ((e1.1, e1.2) :: (mid ++ [e2])) = _
    have hthrew : (onEchoRequest e1.1 e1.2 s1).threw = false := by
      rw [onEchoRequest_returning e1.1 e1.2 s1 hcb1]
      split_ifs <;> rfl
    show (if (onEchoRequest e1.1 e1.2 s1).threw = true then [onEchoRequest e1.1 e1.2 s1]
        else onEchoRequest e1.1 e1.2 s1 ::
          workerLoopEchoes (onEchoRequest e1.1 e1.2 s1).state (mid ++ [e2])) = _
    rw [hthrew]
    simp only [Bool.false_eq_true, if_false]
    congr 1
    rw [workerLoopEchoes_append mid _ _ hcbr1]
    congr 1
    show workerLoopEchoes s2 [(e2.1, e2.2)] = [r2]
    have hthrew2 : (onEchoRequest e2.1 e2.2 s2).threw = false := by
      rw [onEchoRequest_returning e2.1 e2.2 s2 hcb2]
      split_ifs <;> rfl
    show (if (onEchoRequest e2.1 e2.2 s2).threw = true then [onEchoRequest e2.1 e2.2 s2]
        else onEchoRequest e2.1 e2.2 s2 ::
          workerLoopEchoes (onEchoRequest e2.1 e2.2 s2).state []) = _
    rw [hthrew2]
    rfl
  · rw [hr1]
    split_ifs with hc
    · simp [hc]
    · simp [hc]
  · rw [hr1]
    split_ifs with hc
    · simp only [reduceCtorEq, false_iff, not_lt]
      exact hc
    · simp only [true_iff]
      exact lt_of_not_ge hc
  · rw [hr1]
    split_ifs <;> simp_all
  · intro h1 hlt
    have := hge h1
    rw [hr2, if_neg]
    intro hc
    have : e2.2 - s2.m_lastNotification ≤ e2.2 - e1.2 := by omega
    omega
  · intro h1 hsilent hfar
    have hs2 : s2 = r1.state := icmpStateAfter_of_silent mid r1.state hcbr1 hsilent
    have hl := hlast1 h1
    rw [hr2, if_pos]
    rw [hs2, hl]
    exact hfar
  · intro h1 h2
    have := hge h1
    rw [hr2] at h2
    split_ifs at h2 with hc
    · omega
    · simp at h2

/-- Witness for C7: echoes at 100 s, 130 s and 160 s on a watcher whose last
notification time is 0; the first and the third are notified. -/
theorem icmp_throttle_sixty_seconds_witness :
    ({ m_running := true, m_callback := Callback.returning, m_lastNotification := 0 } :
      IcmpMonitor).m_callback = Callback.returning ∧
    List.Sorted (· ≤ ·) ((([] : List (String × Int)) ++ ("10.0.0.1", 100000000000) ::
      ([("10.0.0.2", 130000000000)] ++ [("10.0.0.3", 160000000000)])).map Prod.snd) ∧
    (onEchoRequest "10.0.0.1" 100000000000
      { m_running := true, m_callback := Callback.returning, m_lastNotification := 0 }).notified
      = some "10.0.0.1" ∧
    (onEchoRequest "10.0.0.3" 160000000000
      (icmpStateAfter (onEchoRequest "10.0.0.1" 100000000000
        { m_running := true, m_callback := Callback.returning, m_lastNotification := 0 }).state
        [("10.0.0.2", 130000000000)])).notified = some "10.0.0.3" :=
  ⟨rfl, by decide, by decide,
   (icmp_throttle_sixty_seconds
      { m_running := true, m_callback := Callback.returning, m_lastNotification := 0 } rfl
      [] [("10.0.0.2", 130000000000)] ("10.0.0.1", 100000000000) ("10.0.0.3", 160000000000)
      (by decide)).2.2.2.2.2.1 (by decide) (by decide) (by decide)⟩

/-- C8: the throttle does not look at source addresses: two sequences of echo
requests with the same clock readings and arbitrary source addresses make the
capture loop invoke the callback at exactly the same positions; in particular,
after a notification for source `a` at time `t1`, an echo from any source `b`
at a time `t2` less than 60 s later is suppressed. -/
theorem icmp_throttle_ignores_source (st : IcmpMonitor) (es es' : List (String × Int))
    (htimes : es.map Prod.snd = es'.map Prod.snd) :
    (workerLoopEchoes st es).map (fun r => r.notified.isSome)
      = (workerLoopEchoes st es').map (fun r => r.notified.isSome) ∧
    (∀ (a b : String) (t1 t2 : Int),
      (onEchoRequest a t1 st).notified = some a → (onEchoRequest a t1 st).threw = false →
      t2 - t1 < NOTIFY_INTERVAL →
      (onEchoRequest b t2 (onEchoRequest a t1 st).state).notified = none) := by
  constructor
  · induction es generalizing es' st with
    | nil =>
      cases es' with
      | nil => rfl
      | cons e es2 => simp at htimes
    | cons e es ih =>
      cases es' with
      | nil => simp at htimes
      | cons e2 es2 =>
        obtain ⟨a, t⟩ := e
        obtain ⟨b, t2⟩ := e2
        simp only [List.map_cons, List.cons.injEq] at htimes
        obtain ⟨ht, hrest⟩ := htimes
        subst ht
        obtain ⟨hstate, hthrew, hnot⟩ := onEchoRequest_source_irrelevant a b t st
        show List.map (fun r => r.notified.isSome)
            (if (onEchoRequest a t st).threw = true then [onEchoRequest a t st]
              else onEchoRequest a t st :: workerLoopEchoes (onEchoRequest a t st).state es)
          = List.map (fun r => r.notified.isSome)
            (if (onEchoRequest b t st).threw = true then [onEchoRequest b t st]
              else onEchoRequest b t st :: workerLoopEchoes (onEchoRequest b t st).state es2)
        rw [← hthrew, ← hstate]
        split_ifs
        · simp only [List.map_cons, List.map_nil, hnot]
        · simp only [List.map_cons, hnot]
          rw [ih (onEchoRequest a t st).state es2 hrest]
  · intro a b t1 t2 hnot hthrew hlt
    have hlast : (onEchoRequest a t1 st).state.m_lastNotification = t1 := by
      unfold onEchoRequest at hnot hthrew ⊢
      split_ifs at hnot hthrew ⊢
      simp_all
    apply onEchoRequest_suppressed
    rw [hlast]
    exact hlt

/-- Witness for C8: the same two clock readings with different sources. -/
theorem icmp_throttle_ignores_source_witness :
    [("10.0.0.1", (61000000000 : Int)), ("10.0.0.1", 100000000000)].map Prod.snd
      = [("10.0.0.7", (61000000000 : Int)), ("192.168.1.9", 100000000000)].map Prod.snd ∧
    (workerLoopEchoes
        { m_running := true, m_callback := Callback.returning, m_lastNotification := 0 }
        [("10.0.0.7", 61000000000), ("192.168.1.9", 100000000000)]).map
      (fun r => r.notified.isSome) = [true, false] ∧
    (workerLoopEchoes
        { m_running := true, m_callback := Callback.returning, m_lastNotification := 0 }
        [("10.0.0.1", 61000000000), ("10.0.0.1", 100000000000)]).map
      (fun r => r.notified.isSome)
      = (workerLoopEchoes
        { m_running := true, m_callback := Callback.returning, m_lastNotification := 0 }
        [("10.0.0.7", 61000000000), ("192.168.1.9", 100000000000)]).map
      (fun r => r.notified.isSome) :=
  ⟨by decide, by decide,
   (icmp_throttle_ignores_source
      { m_running := true, m_callback := Callback.returning, m_lastNotification := 0 }
      [("10.0.0.1", 61000000000), ("10.0.0.1", 100000000000)]
      [("10.0.0.7", 61000000000), ("192.168.1.9", 100000000000)] (by decide)).1⟩

/-- C9: for every link type and every frame long enough to hold the headers
(the 20 fixed bytes of the IP header after the link-layer header, and the ICMP
type byte at IHL*4 past the start of the IP header), the frame is classified as
an echo request from `srcIp` if and only if the link type is a supported one
with link-layer header length `offset` (14 for Ethernet, 4 for null and
loopback), the protocol byte of the IP header is 1, the byte at `IHL*4` past
the start of the IP header is 8, and `srcIp` is the dotted-decimal text of the
four source-address bytes. Every other frame (unsupported link type, other
protocol, other ICMP type) is skipped: no callback, watcher unchanged. A frame
classified as an echo request goes to the throttle and callback. -/
theorem frame_is_echo_request_iff (linkType : Int) (packet : List Byte)
    (hlong : ∀ offset, linkHeaderLength linkType = some offset →
      offset + 20 ≤ packet.length ∧
      offset + (packet.getD offset 0).val % 16 * 4 < packet.length) :
    (linkHeaderLength DLT_EN10MB = some 14 ∧ linkHeaderLength DLT_NULL = some 4 ∧
      linkHeaderLength DLT_LOOP = some 4) ∧
    (∀ srcIp, parseFrame linkType packet = FrameVerdict.echoRequest srcIp ↔
      ∃ offset, linkHeaderLength linkType = some offset ∧
        (packet.getD (offset + 9) 0).val = 1 ∧
        (packet.getD (offset + (packet.getD offset 0).val % 16 * 4) 0).val = 8 ∧
        srcIp = toString (packet.getD (offset + 12) 0).val ++ "." ++
          toString (packet.getD (offset + 13) 0).val ++ "." ++
          toString (packet.getD (offset + 14) 0).val ++ "." ++
          toString (packet.getD (offset + 15) 0).val) ∧
    ((¬ ∃ offset, linkHeaderLength linkType = some offset ∧
        (packet.getD (offset + 9) 0).val = 1 ∧
        (packet.getD (offset + (packet.getD offset 0).val % 16 * 4) 0).val = 8) →
      parseFrame linkType packet = FrameVerdict.skipped ∧
      ∀ now st, handlePacket linkType packet now st
        = some { state := st, notified := none, threw := false }) ∧
    (∀ srcIp now st, parseFrame linkType packet = FrameVerdict.echoRequest srcIp →
      handlePacket linkType packet now st = some (onEchoRequest srcIp now st)) := by
  have hparse : ∀ offset, linkHeaderLength linkType = some offset →
      parseFrame linkType packet =
        if (packet.getD (offset + 9) 0).val = IPPROTO_ICMP ∧
            (packet.getD (offset + (packet.getD offset 0).val % 16 * 4) 0).val = ICMP_ECHO then
          FrameVerdict.echoRequest (inet_ntoa (packet.getD (offset + 12) 0)
            (packet.getD (offset + 13) 0) (packet.getD (offset + 14) 0)
            (packet.getD (offset + 15) 0))
        else FrameVerdict.skipped := by
    intro offset hoff
    unfold parseFrame
    rw [hoff]
    exact parseIpPacket_drop packet offset (hlong offset hoff).1 (hlong offset hoff).2
  refine ⟨⟨by decide, by decide, by decide⟩, ?_, ?_, ?_⟩
  · intro srcIp
    cases hoff : linkHeaderLength linkType with
    | none =>
      have : parseFrame linkType packet = FrameVerdict.skipped := by
        unfold parseFrame; rw [hoff]
      rw [this]
      simp
    | some offset =>
      rw [hparse offset hoff]
      constructor
      · intro h
        split_ifs at h with hc
        · refine ⟨offset, rfl, hc.1, hc.2, ?_⟩
          simp only [FrameVerdict.echoRequest.injEq] at h
          rw [← h]
          rfl
      · rintro ⟨offset2, hoff2, hp, ht, hsrc⟩
        simp only [Option.some.injEq] at hoff2
        subst hoff2
        rw [if_pos ⟨hp, ht⟩, hsrc]
        rfl
  · intro hnot
    have hskip : parseFrame linkType packet = FrameVerdict.skipped := by
      cases hoff : linkHeaderLength linkType with
      | none => unfold parseFrame; rw [hoff]
      | some offset =>
        rw [hparse offset hoff, if_neg]
        intro hc
        exact hnot ⟨offset, hoff, hc.1, hc.2⟩
    refine ⟨hskip, ?_⟩
    intro now st
    unfold handlePacket
    rw [hskip]
  · intro srcIp now st h
    unfold handlePacket
    rw [h]

/-- Witness for C9: the sample echo request behind an Ethernet header. -/
theorem frame_is_echo_request_iff_witness :
    (∀ offset, linkHeaderLength DLT_EN10MB = some offset →
      offset + 20 ≤ sampleEthernetFrame.length ∧
      offset + (sampleEthernetFrame.getD offset 0).val % 16 * 4 < sampleEthernetFrame.length) ∧
    parseFrame DLT_EN10MB sampleEthernetFrame = FrameVerdict.echoRequest "10.0.0.5" :=
  have hlong : ∀ offset, linkHeaderLength DLT_EN10MB = some offset →
      offset + 20 ≤ sampleEthernetFrame.length ∧
      offset + (sampleEthernetFrame.getD offset 0).val % 16 * 4 < sampleEthernetFrame.length := by
    intro offset h
    have h14 : offset = 14 := by
      have h2 : linkHeaderLength DLT_EN10MB = some 14 := by decide
      rw [h2] at h
      exact (Option.some.inj h).symm
    subst h14
    decide
  ⟨hlong, ((frame_is_echo_request_iff DLT_EN10MB sampleEthernetFrame hlong).2.1 "10.0.0.5").mpr
    ⟨14, by decide, by decide, by decide, by decide⟩⟩

/-- Counterexample for C10: the sample packet is an ICMP echo request from
10.0.0.5 when its IP header is read at offset 0, yet as a frame of a raw-IP
capture (`DLT_RAW`) it is skipped, not parsed at offset 0, and the callback is
not invoked. -/
theorem raw_ip_echo_request_not_detected :
    parseIpPacket (sampleEchoPacket.drop 0) = FrameVerdict.echoRequest "10.0.0.5" ∧
    parseFrame DLT_RAW sampleEchoPacket = FrameVerdict.skipped ∧
    parseFrame DLT_RAW sampleEchoPacket ≠ parseIpPacket (sampleEchoPacket.drop 0) ∧
    handlePacket DLT_RAW sampleEchoPacket 61000000000
        { m_running := true, m_callback := Callback.returning, m_lastNotification := 0 }
      = some { state := { m_running := true, m_callback := Callback.returning,
                          m_lastNotification := 0 },
               notified := none, threw := false } := by
  decide

/-- C10 (amended): the link types whose frames the ICMP watcher parses are
Ethernet, Linux cooked capture and null/loopback, with the IP header taken at
offset 14, 16 and 4 of the frame; frames of every other link type, raw IP
included, are skipped without parsing and never reach the callback. -/
theorem parsed_link_types (linkType : Int) :
    (∀ offset, linkHeaderLength linkType = some offset ↔
      (linkType = DLT_EN10MB ∧ offset = 14) ∨ (linkType = DLT_LINUX_SLL ∧ offset = 16) ∨
      ((linkType = DLT_NULL ∨ linkType = DLT_LOOP) ∧ offset = 4)) ∧
    (∀ offset packet, linkHeaderLength linkType = some offset →
      parseFrame linkType packet = parseIpPacket (packet.drop offset)) ∧
    (linkType ≠ DLT_EN10MB → linkType ≠ DLT_LINUX_SLL → linkType ≠ DLT_NULL →
      linkType ≠ DLT_LOOP →
      ∀ packet, parseFrame linkType packet = FrameVerdict.skipped ∧
        ∀ now st, handlePacket linkType packet now st
          = some { state := st, notified := none, threw := false }) ∧
    (∀ packet, parseFrame DLT_RAW packet = FrameVerdict.skipped) := by
  refine ⟨?_, ?_, ?_, ?_⟩
  · intro offset
    unfold linkHeaderLength
    by_cases h1 : linkType = DLT_EN10MB
    · subst h1
      simp [DLT_EN10MB, DLT_LINUX_SLL, DLT_NULL, DLT_LOOP, eq_comm]
    · by_cases h2 : linkType = DLT_LINUX_SLL
      · subst h2
        simp [DLT_EN10MB, DLT_LINUX_SLL, DLT_NULL, DLT_LOOP, eq_comm]
      · by_cases h3 : linkType = DLT_NULL ∨ linkType = DLT_LOOP
        · simp [h1, h2, h3, eq_comm]
        · simp [h1, h2, h3]
  · intro offset packet h
    unfold parseFrame
    rw [h]
  · intro h1 h2 h3 h4 packet
    have hnone : linkHeaderLength linkType = none := by
      unfold linkHeaderLength
      simp [h1, h2, h3, h4]
    have hskip : parseFrame linkType packet = FrameVerdict.skipped := by
      unfold parseFrame
      rw [hnone]
    refine ⟨hskip, ?_⟩
    intro now st
    unfold handlePacket
    rw [hskip]
  · intro packet
    have hnone : linkHeaderLength DLT_RAW = none := by decide
    unfold parseFrame
    rw [hnone]

/-- Witness for C10 (amended): raw IP is none of the four parsed link types. -/
theorem parsed_link_types_witness :
    DLT_RAW ≠ DLT_EN10MB ∧ DLT_RAW ≠ DLT_LINUX_SLL ∧ DLT_RAW ≠ DLT_NULL ∧ DLT_RAW ≠ DLT_LOOP ∧
    linkHeaderLength DLT_LINUX_SLL = some 16 ∧
    parseFrame DLT_LINUX_SLL ([0, 0, 0, 1, 0, 6, 0, 1, 2, 3, 4, 5, 0, 0, 8, 0] ++ sampleEchoPacket)
      = FrameVerdict.echoRequest "10.0.0.5" ∧
    parseFrame DLT_RAW sampleEchoPacket = FrameVerdict.skipped :=
  ⟨by decide, by decide, by decide, by decide, by decide, by decide,
   ((parsed_link_types DLT_RAW).2.2.1 (by decide) (by decide) (by decide) (by decide)
      sampleEchoPacket).1⟩

/-- C11: in every cycle of the monitor loop of an ARP watcher that invokes
the callback, the arguments are the normalized previous MAC, the normalized
current MAC and the gateway the watcher monitors (`gateway_ip()`); the two MACs
differ; the first argument is empty exactly when the entry appeared (no entry
before, one now), the second is empty exactly when the entry disappeared (one
before, none now), and both are non-empty and different when the MAC changed.
The log line of the cycle names the same case. -/
theorem arp_callback_arguments (m : ArpMonitor) (cb : Callback) (initial : String)
    (observations : List String) (cycle : ArpCycle) (call : ChangeCall)
    (hcycle : cycle ∈ m.loopCycles cb initial observations) (hcall : call ∈ cycle.calls) :
    ∃ observed stored, cycle = monitor_cycle m.gateway cb observed stored ∧
      call.old_mac = normalize_mac stored ∧ call.new_mac = normalize_mac observed ∧
      call.ip = m.gateway_ip ∧
      call.old_mac ≠ call.new_mac ∧
      (call.old_mac = "" ↔ normalize_mac stored = "" ∧ normalize_mac observed ≠ "") ∧
      (call.new_mac = "" ↔ normalize_mac stored ≠ "" ∧ normalize_mac observed = "") ∧
      (normalize_mac stored ≠ "" ∧ normalize_mac observed ≠ "" →
        call.old_mac ≠ "" ∧ call.new_mac ≠ "" ∧ call.old_mac ≠ call.new_mac) ∧
      (call.old_mac = "" → cycle.logs = [(LogType.INFO,
        "ARP entry appeared for gateway " ++ m.gateway_ip ++ " : " ++ call.new_mac)]) ∧
      (call.new_mac = "" → cycle.logs = [(LogType.CRITICAL,
        "ARP entry for gateway " ++ m.gateway_ip ++ " disappeared (was " ++
          call.old_mac ++ ")")]) ∧
      (call.old_mac ≠ "" → call.new_mac ≠ "" → cycle.logs = [(LogType.CRITICAL,
        "MAC change for gateway " ++ m.gateway_ip ++ " : " ++ call.old_mac ++ " -> " ++
          call.new_mac)]) := by
  obtain ⟨observed, stored, hc⟩ := mem_monitor_loop m.gateway cb initial observations cycle hcycle
  subst hc
  obtain ⟨heq, hne⟩ := monitor_cycle_call m.gateway cb observed stored call hcall
  have hlogs := monitor_cycle_logs_of_ne m.gateway cb observed stored hne
  subst heq
  refine ⟨observed, stored, rfl, rfl, rfl, rfl, fun h => hne h.symm, ?_, ?_, ?_, ?_, ?_, ?_⟩
  · show normalize_mac stored = "" ↔ _
    constructor
    · intro h
      exact ⟨h, fun h2 => hne (h2.trans h.symm)⟩
    · exact fun h => h.1
  · show normalize_mac observed = "" ↔ _
    constructor
    · intro h
      exact ⟨fun h2 => hne (h.trans h2.symm), h⟩
    · exact fun h => h.2
  · intro h
    exact ⟨h.1, h.2, fun h2 => hne h2.symm⟩
  · intro h
    rw [hlogs, if_pos h]
    rfl
  · intro h
    have hs : normalize_mac stored ≠ "" := fun h2 => hne (h.trans h2.symm)
    rw [hlogs, if_neg hs, if_pos h]
    rfl
  · intro h1 h2
    rw [hlogs, if_neg h1, if_neg h2]
    rfl

/-- Witness for C11: gateway 192.168.1.1 without an entry, then with
`AA:BB:CC:DD:EE:FF`. -/
theorem arp_callback_arguments_witness :
    monitor_cycle "192.168.1.1" Callback.returning "AA:BB:CC:DD:EE:FF" ""
      ∈ (ArpMonitor.create "192.168.1.1" 5).loopCycles Callback.returning ""
          ["", "AA:BB:CC:DD:EE:FF"] ∧
    ({ old_mac := "", new_mac := "aa:bb:cc:dd:ee:ff", ip := "192.168.1.1" } : ChangeCall)
      ∈ (monitor_cycle "192.168.1.1" Callback.returning "AA:BB:CC:DD:EE:FF" "").calls ∧
    ∃ observed stored,
      monitor_cycle "192.168.1.1" Callback.returning "AA:BB:CC:DD:EE:FF" ""
        = monitor_cycle "192.168.1.1" Callback.returning observed stored :=
  ⟨by decide, by decide,
   (arp_callback_arguments (ArpMonitor.create "192.168.1.1" 5) Callback.returning ""
      ["", "AA:BB:CC:DD:EE:FF"]
      (monitor_cycle "192.168.1.1" Callback.returning "AA:BB:CC:DD:EE:FF" "")
      { old_mac := "", new_mac := "aa:bb:cc:dd:ee:ff", ip := "192.168.1.1" }
      (by decide) (by decide)).imp (fun _ h => h.imp (fun _ h2 => h2.1))⟩

/-- C12: for every ARP table text and IP, `read_mac_from_proc_arp` returns the
empty string when the table has no row for the IP; when it has one, the result
is the empty string if the row carries hardware address 00:00:00:00:00:00 and
the lowercased hardware address of the row otherwise. Hence a gateway whose
entry is all-zero in two consecutive cycles produces no event in the second,
and, with a callback supplied, a cycle that finds an all-zero entry after a
real MAC invokes the callback with an empty new MAC and logs the
disappearance. -/
theorem read_mac_zero_is_no_entry (text ip : String) :
    (arpRowFor text ip = none → read_mac_from_proc_arp (some text) ip = "") ∧
    (∀ row, arpRowFor text ip = some row →
      row.head? = some ip ∧ ∃ hwaddr, row[3]? = some hwaddr ∧
        (hwaddr = "00:00:00:00:00:00" → read_mac_from_proc_arp (some text) ip = "") ∧
        (hwaddr ≠ "00:00:00:00:00:00" →
          read_mac_from_proc_arp (some text) ip = ⟨hwaddr.data.map tolower⟩)) ∧
    (∀ (cb : Callback) (last_mac text2 : String) (row row2 : List String),
      arpRowFor text ip = some row → row[3]? = some "00:00:00:00:00:00" →
      arpRowFor text2 ip = some row2 → row2[3]? = some "00:00:00:00:00:00" →
      (monitor_cycle ip cb (read_mac_from_proc_arp (some text2) ip)
        (monitor_cycle ip cb (read_mac_from_proc_arp (some text) ip) last_mac).last_mac).calls
        = [] ∧
      (monitor_cycle ip cb (read_mac_from_proc_arp (some text2) ip)
        (monitor_cycle ip cb (read_mac_from_proc_arp (some text) ip) last_mac).last_mac).logs
        = []) ∧
    (∀ (cb : Callback) (last_mac : String) (row : List String),
      cb ≠ Callback.null → normalize_mac last_mac ≠ "" →
      arpRowFor text ip = some row → row[3]? = some "00:00:00:00:00:00" →
      (monitor_cycle ip cb (read_mac_from_proc_arp (some text) ip) last_mac).calls
        = [{ old_mac := normalize_mac last_mac, new_mac := "", ip := ip }] ∧
      (monitor_cycle ip cb (read_mac_from_proc_arp (some text) ip) last_mac).logs
        = [(LogType.CRITICAL, "ARP entry for gateway " ++ ip ++ " disappeared (was " ++
            normalize_mac last_mac ++ ")")] ∧
      (monitor_cycle ip cb (read_mac_from_proc_arp (some text) ip) last_mac).last_mac = "") := by
  refine ⟨?_, ?_, ?_, ?_⟩
  · intro h
    exact (scanArpRows_find ip (getlines text).tail).1 h
  · intro row h
    obtain ⟨h6, hhead, hread⟩ := read_mac_of_row text ip row h
    have hlt : 3 < row.length := by omega
    refine ⟨hhead, row[3], List.getElem?_eq_getElem hlt, ?_, ?_⟩
    · intro hz
      rw [hread, List.getElem?_eq_getElem hlt, hz, if_pos rfl]
    · intro hnz
      rw [hread, List.getElem?_eq_getElem hlt, if_neg]
      · rfl
      · intro hc
        exact hnz (Option.some.inj hc)
  · intro cb last_mac text2 row row2 h1 hz1 h2 hz2
    rw [read_mac_of_zero_row text ip row h1 hz1, read_mac_of_zero_row text2 ip row2 h2 hz2]
    have hprev : normalize_mac (monitor_cycle ip cb "" last_mac).last_mac = normalize_mac "" :=
      monitor_cycle_last_mac ip cb "" last_mac
    have hcur : normalize_mac "" = "" := normalize_mac_empty
    constructor
    · unfold monitor_cycle
      rw [if_pos ⟨hcur, hprev.trans hcur⟩]
    · unfold monitor_cycle
      rw [if_pos ⟨hcur, hprev.trans hcur⟩]
  · intro cb last_mac row hcb hreal h hz
    rw [read_mac_of_zero_row text ip row h hz]
    have hne : normalize_mac "" ≠ normalize_mac last_mac := by
      rw [normalize_mac_empty]
      exact fun hc => hreal hc.symm
    refine ⟨?_, ?_, ?_⟩
    · rw [monitor_cycle_calls ip cb hcb "" last_mac, if_pos hne, normalize_mac_empty]
    · rw [monitor_cycle_logs_of_ne ip cb "" last_mac hne, if_neg hreal,
        if_pos normalize_mac_empty]
    · unfold monitor_cycle
      have h1 : ¬ (normalize_mac "" = "" ∧ normalize_mac last_mac = "") := fun hc => hreal hc.2
      simp only [if_neg h1, if_pos hne]
      exact normalize_mac_empty

/-- Witness for C12: the sample table, whose row for 192.168.1.7 is
all-zero, read after the MAC `aa:bb:cc:dd:ee:ff` was stored. -/
theorem read_mac_zero_is_no_entry_witness :
    Callback.returning ≠ Callback.null ∧
    normalize_mac "aa:bb:cc:dd:ee:ff" ≠ "" ∧
    arpRowFor sampleArpTable "192.168.1.7"
      = some ["192.168.1.7", "0x1", "0x0", "00:00:00:00:00:00", "*", "eth0"] ∧
    read_mac_from_proc_arp (some sampleArpTable) "192.168.1.1" = "aa:bb:cc:dd:ee:ff" ∧
    (monitor_cycle "192.168.1.7" Callback.returning
        (read_mac_from_proc_arp (some sampleArpTable) "192.168.1.7")
        "aa:bb:cc:dd:ee:ff").calls
      = [{ old_mac := "aa:bb:cc:dd:ee:ff", new_mac := "", ip := "192.168.1.7" }] :=
  ⟨by decide, by decide, by decide, by decide,
   ((read_mac_zero_is_no_entry sampleArpTable "192.168.1.7").2.2.2 Callback.returning
      "aa:bb:cc:dd:ee:ff" ["192.168.1.7", "0x1", "0x0", "00:00:00:00:00:00", "*", "eth0"]
      (by decide) (by decide) (by decide) (by decide)).1⟩

/-- C13: for every known set and every observed resolver list, the unknown
set that `checkOnce` computes and stores in `m_lastUnknownDns` is the set
difference of the observed addresses and the known set: an address is in it
exactly when it is observed and not known; it is listed in strictly ascending
order, hence without duplicates. -/
theorem dns_unknown_set_is_difference (current : List String) (st : DnsMonitor) :
    (checkOnce current st).state.m_lastUnknownDns
      = setOfRange (computeUnknowns st.m_knownDns current) ∧
    (checkOnce current st).state.m_lastUnknownDns = computeUnknowns st.m_knownDns current ∧
    (∀ x, x ∈ (checkOnce current st).state.m_lastUnknownDns ↔
      x ∈ current ∧ x ∉ st.m_knownDns) ∧
    (checkOnce current st).state.m_lastUnknownDns.Pairwise (fun a b => a.data < b.data) ∧
    (checkOnce current st).state.m_lastUnknownDns.Nodup := by
  have hstored := checkOnce_lastUnknownDns current st
  have hset : IsStrSet (computeUnknowns st.m_knownDns current) :=
    isStrSet_filter _ _ (isStrSet_setOfRange current)
  have hsame := setOfRange_of_isStrSet _ hset
  refine ⟨hstored, hstored.trans hsame, ?_, ?_, ?_⟩
  · intro x
    rw [hstored, mem_setOfRange, mem_computeUnknowns]
  · rw [hstored, hsame]
    exact isStrSet_strict _ hset
  · rw [hstored, hsame]
    exact hset.2

/-- Counterexample for C14: with known set {1.1.1.1, 8.8.8.8} and observed
list {1.1.1.1, 9.9.9.9} the only unknown entry is 9.9.9.9, and the body of the
alert is "Unrecognized DNS server(s) detected: 9.9.9.9", not the bare entry
list "9.9.9.9"; with two unknown entries they are separated by a comma and a
space. -/
theorem dns_alert_body_is_not_bare_list :
    (checkOnce ["1.1.1.1", "9.9.9.9"]
        { DnsMonitor.fresh with m_knownDns := ["1.1.1.1", "8.8.8.8"] }).notifications
      = [("Unknown DNS", "Unrecognized DNS server(s) detected: 9.9.9.9")] ∧
    computeUnknowns ["1.1.1.1", "8.8.8.8"] ["1.1.1.1", "9.9.9.9"] = ["9.9.9.9"] ∧
    (checkOnce ["1.1.1.1", "9.9.9.9"]
        { DnsMonitor.fresh with m_knownDns := ["1.1.1.1", "8.8.8.8"] }).notifications
      ≠ [("Unknown DNS",
          ",".intercalate (computeUnknowns ["1.1.1.1", "8.8.8.8"] ["1.1.1.1", "9.9.9.9"]))] ∧
    (checkOnce ["9.9.9.9", "7.7.7.7"]
        { DnsMonitor.fresh with m_knownDns := ["1.1.1.1", "8.8.8.8"] }).notifications
      = [("Unknown DNS", "Unrecognized DNS server(s) detected: 7.7.7.7, 9.9.9.9")] := by
  decide

/-- C14 (amended): in every cycle whose unknown set is non-empty, a
notification that is emitted has title "Unknown DNS" and a body made of the
fixed text "Unrecognized DNS server(s) detected: " followed by the unknown
entries, in ascending order, joined by a comma and a space; in every cycle
whose unknown set is empty, a notification that is emitted is the resolved
notification, whose title differs from "Unknown DNS" and whose body differs
from every alert body. -/
theorem dns_notification_texts (current : List String) (st : DnsMonitor) :
    (∀ p ∈ (checkOnce current st).notifications,
      setOfRange (computeUnknowns st.m_knownDns current) ≠ [] →
      p = ("Unknown DNS", "Unrecognized DNS server(s) detected: " ++
            ", ".intercalate (computeUnknowns st.m_knownDns current))) ∧
    (∀ p ∈ (checkOnce current st).notifications,
      setOfRange (computeUnknowns st.m_knownDns current) = [] →
      p = (resolvedTitle, resolvedBody) ∧ p.1 ≠ "Unknown DNS" ∧
      ∀ unknowns : List String,
        p.2 ≠ "Unrecognized DNS server(s) detected: " ++ ", ".intercalate unknowns) ∧
    (computeUnknowns st.m_knownDns current).Pairwise (fun a b => a.data < b.data) := by
  have hnote := checkOnce_notifications current st
  refine ⟨?_, ?_, ?_⟩
  · intro p hp hne
    rw [hnote] at hp
    split_ifs at hp with h1 h2
    · simpa using hp
    · exact absurd h2.1 hne
    · simp at hp
  · intro p hp hempty
    rw [hnote] at hp
    split_ifs at hp with h1 h2
    · exact absurd hempty h1.2
    · have hp2 : p = (resolvedTitle, resolvedBody) := by simpa using hp
      subst hp2
      exact ⟨rfl, resolvedTitle_ne_unknownDnsTitle, fun u => resolvedBody_ne_alertBody u⟩
    · simp at hp
  · exact isStrSet_strict _ (isStrSet_filter _ _ (isStrSet_setOfRange current))

/-- Witness for C14 (amended): two unknown resolvers observed in descending
order. -/
theorem dns_notification_texts_witness :
    (("Unknown DNS", "Unrecognized DNS server(s) detected: 7.7.7.7, 9.9.9.9") :
        String × String)
      ∈ (checkOnce ["9.9.9.9", "7.7.7.7"]
          { DnsMonitor.fresh with m_knownDns := ["1.1.1.1", "8.8.8.8"] }).notifications ∧
    setOfRange (computeUnknowns ["1.1.1.1", "8.8.8.8"] ["9.9.9.9", "7.7.7.7"]) ≠ [] ∧
    (("Unknown DNS", "Unrecognized DNS server(s) detected: 7.7.7.7, 9.9.9.9") :
        String × String)
      = ("Unknown DNS", "Unrecognized DNS server(s) detected: " ++
          ", ".intercalate (computeUnknowns ["1.1.1.1", "8.8.8.8"] ["9.9.9.9", "7.7.7.7"])) :=
  ⟨by decide, by decide,
   (dns_notification_texts ["9.9.9.9", "7.7.7.7"]
      { DnsMonitor.fresh with m_knownDns := ["1.1.1.1", "8.8.8.8"] }).1
      ("Unknown DNS", "Unrecognized DNS server(s) detected: 7.7.7.7, 9.9.9.9")
      (by decide) (by decide)⟩

/-- C15 (the code at the failing input): on an ARP watcher with a gateway and on
a DNS watcher, after the calls `stop()`, `start()`, `stop()` the running flag is
`true`: the second `stop()` returns at the `stopped_` guard and changes
nothing (for DNS the worker thread stays joinable). The ICMP watcher, whose
`stop()` has no such guard, ends the same sequence with the flag `false`. -/
theorem stop_after_restart_leaves_running :
    (ArpMonitor.afterCalls (ArpMonitor.create "192.168.1.1" 5)
      [LifecycleCall.stop, LifecycleCall.start, LifecycleCall.stop]).running = true ∧
    (ArpMonitor.create "192.168.1.1" 5).stop.state.start.state.stop
      = { state := { gateway := "192.168.1.1", interval_seconds := 5, running := true,
                     stopped_ := true } } ∧
    (DnsMonitor.afterCalls DnsMonitor.fresh
      [LifecycleCall.stop, LifecycleCall.start, LifecycleCall.stop]).m_running = true ∧
    (DnsMonitor.afterCalls DnsMonitor.fresh
      [LifecycleCall.stop, LifecycleCall.start, LifecycleCall.stop]).m_thread_joinable = true ∧
    (IcmpMonitor.afterCalls true IcmpMonitor.fresh
      [LifecycleCall.stop, LifecycleCall.start, LifecycleCall.stop]).m_running = false := by
  decide

/-- C16: for each of the three watchers, `stop()` on a watcher whose running
flag is `false` (never started) leaves the flag `false`, does not sleep and
joins no thread; and a `stop()` that follows another `stop()` changes nothing
at all: same watcher, no sleep, no join, no log. The three freshly constructed
watchers are evaluated as well. -/
theorem stop_is_noop_when_not_running (a : ArpMonitor) (d : DnsMonitor) (i : IcmpMonitor)
    (handleOpen : Bool) :
    (a.running = false →
      a.stop.state.running = false ∧ a.stop.slept = false ∧ a.stop.joined = false) ∧
    (d.m_running = false →
      d.stop.state.m_running = false ∧ d.stop.slept = false ∧ d.stop.joined = false) ∧
    (i.m_running = false →
      (i.stop handleOpen).state = i ∧ (i.stop handleOpen).slept = false ∧
      (i.stop handleOpen).joined = false ∧ (i.stop handleOpen).interrupted = false) ∧
    (a.stop.state.stop = { state := a.stop.state }) ∧
    (d.stop.state.stop = { state := d.stop.state }) ∧
    ((i.stop handleOpen).state.stop handleOpen = { state := (i.stop handleOpen).state }) ∧
    (ArpMonitor.create "192.168.1.1" 5).stop
      = { state := { gateway := "192.168.1.1", interval_seconds := 5, running := false,
                     stopped_ := true }
          logs := [(LogType.DEFAULT, "ARP monitor stopped")] } ∧
    DnsMonitor.fresh.stop
      = { state := { DnsMonitor.fresh with stopped_ := true }
          logs := [(LogType.DEFAULT, "DNS monitor stopped")] } ∧
    IcmpMonitor.fresh.stop handleOpen = { state := IcmpMonitor.fresh } := by
  refine ⟨?_, ?_, ?_, ?_, ?_, ?_, by decide, by decide, ?_⟩
  · intro h
    unfold ArpMonitor.stop
    cases hs : a.stopped_ <;> simp [h, hs]
  · intro h
    unfold DnsMonitor.stop
    cases hs : d.stopped_ <;> simp [h, hs]
  · intro h
    unfold IcmpMonitor.stop
    simp [h]
  · have hs : a.stop.state.stopped_ = true := by
      unfold ArpMonitor.stop
      cases h1 : a.stopped_ <;> cases h2 : a.running <;> simp [h1, h2]
    exact arp_stop_of_stopped _ hs
  · have hs : d.stop.state.stopped_ = true := by
      unfold DnsMonitor.stop
      cases h1 : d.stopped_ <;> cases h2 : d.m_running <;> simp [h1, h2]
    exact dns_stop_of_stopped _ hs
  · have hs : (i.stop handleOpen).state.m_running = false := icmp_stop_running handleOpen i
    exact icmp_stop_of_not_running handleOpen _ hs
  · cases handleOpen <;> decide

/-- Witness for C16: a freshly constructed ARP watcher. -/
theorem stop_is_noop_when_not_running_witness :
    (ArpMonitor.create "192.168.1.1" 5).running = false ∧
    (ArpMonitor.create "192.168.1.1" 5).stop.state.running = false ∧
    (ArpMonitor.create "192.168.1.1" 5).stop.slept = false ∧
    (ArpMonitor.create "192.168.1.1" 5).stop.joined = false :=
  ⟨by decide,
   (stop_is_noop_when_not_running (ArpMonitor.create "192.168.1.1" 5) DnsMonitor.fresh
      IcmpMonitor.fresh false).1 (by decide)⟩

/-- C17: for each watcher, `start()` called while the running flag is `true`
returns without entering the monitor loop (ARP) or creating a worker thread
(DNS, ICMP) and leaves the whole watcher unchanged. The ARP watcher logs the
warning "Monitor already running." (its gateway is non-empty in every state
with the flag set that calls from a non-running watcher can reach); the DNS
watcher logs only its start line and the ICMP watcher nothing; none raises an
error. -/
theorem start_rejected_when_running (a : ArpMonitor) (d : DnsMonitor) (i : IcmpMonitor) :
    (a.running = true →
      a.start.state = a ∧ a.start.launched = false ∧
      (a.gateway ≠ "" →
        a.start.logs = [(LogType.DEFAULT, "ARP monitor enabled"),
                        (LogType.WARNING, "Monitor already running.")])) ∧
    (∀ (a0 : ArpMonitor) (calls : List LifecycleCall), a0.running = false →
      (a0.afterCalls calls).running = true → (a0.afterCalls calls).gateway ≠ "") ∧
    (d.m_running = true →
      d.start.state = d ∧ d.start.launched = false ∧
      d.start.logs = [(LogType.DEFAULT, "DNS monitor enabled")]) ∧
    (i.m_running = true →
      i.start.state = i ∧ i.start.launched = false ∧ i.start.logs = []) := by
  refine ⟨?_, ?_, ?_, ?_⟩
  · intro h
    unfold ArpMonitor.start
    by_cases hg : a.gateway = ""
    · simp [hg]
    · simp [hg, h]
  · intro a0 calls h0
    apply arp_afterCalls_running_gateway
    intro hc
    rw [h0] at hc
    exact absurd hc (by decide)
  · intro h
    unfold DnsMonitor.start
    simp [h]
  · intro h
    unfold IcmpMonitor.start
    simp [h]

/-- Witness for C17: an ARP watcher for 192.168.1.1 that has been started. -/
theorem start_rejected_when_running_witness :
    (ArpMonitor.create "192.168.1.1" 5).start.state.running = true ∧
    (ArpMonitor.create "192.168.1.1" 5).start.state.start.state
      = (ArpMonitor.create "192.168.1.1" 5).start.state ∧
    (ArpMonitor.create "192.168.1.1" 5).start.state.start.launched = false :=
  ⟨by decide,
   ((start_rejected_when_running (ArpMonitor.create "192.168.1.1" 5).start.state
      DnsMonitor.fresh IcmpMonitor.fresh).1 (by decide)).1,
   by decide⟩

/-- C18: for every sequence of invocations of the ping callback of `Core` with
non-decreasing clock readings, split as `pre`, `e1`, `mid`, `e2`: the invocation
`e1` logs "Ping detected from ..." and sends the "ICMP Ping Alert" if and only
if its time minus `m_lastIcmpAlert` is at least 60 s (`ICMP_ALERT_INTERVAL`),
and then sets `m_lastIcmpAlert` to its time; a suppressed invocation logs and
sends nothing and leaves `Core` unchanged; hence any two forwarded alerts are
at least 60 s apart. -/
theorem core_icmp_throttle_sixty_seconds (c : Core) (pre mid : List (String × Int))
    (e1 e2 : String × Int)
    (hmono : List.Sorted (· ≤ ·) ((pre ++ e1 :: (mid ++ [e2])).map Prod.snd)) :
    let c1 := c.afterPings pre
    let r1 := Core.icmpPingCallback e1.1 e1.2 c1
    let c2 := r1.core.afterPings mid
    let r2 := Core.icmpPingCallback e2.1 e2.2 c2
    c.pingAlerts (pre ++ e1 :: (mid ++ [e2]))
      = c.pingAlerts pre ++ r1 :: (r1.core.pingAlerts mid ++ [r2]) ∧
    (r1.sends ≠ [] ↔ e1.2 - c1.m_lastIcmpAlert ≥ ICMP_ALERT_INTERVAL) ∧
    (e1.2 - c1.m_lastIcmpAlert ≥ ICMP_ALERT_INTERVAL →
      r1.logs = [(LogType.DEFAULT, "Ping detected from " ++ e1.1)] ∧
      r1.sends = [{ title := "ICMP Ping Alert", message := "Ping detected from " ++ e1.1,
                    level := NotifierLevel.INFO, icon := "network-transmit-receive" }] ∧
      r1.core.m_lastIcmpAlert = e1.2) ∧
    (e1.2 - c1.m_lastIcmpAlert < ICMP_ALERT_INTERVAL →
      r1.logs = [] ∧ r1.sends = [] ∧ r1.core = c1) ∧
    (r1.sends ≠ [] → r2.sends ≠ [] → e2.2 - e1.2 ≥ ICMP_ALERT_INTERVAL) ∧
    ICMP_ALERT_INTERVAL = 60 * 1000000000 := by
  intro c1 r1 c2 r2
  have hsorted : List.Sorted (· ≤ ·) ((e1 :: (mid ++ [e2])).map Prod.snd) := by
    rw [List.map_append] at hmono
    exact (List.pairwise_append.mp hmono).2.1
  have hafter : ∀ e ∈ mid ++ [e2], e1.2 ≤ e.2 := by
    intro e he
    rw [List.map_cons] at hsorted
    exact List.rel_of_sorted_cons hsorted e.2 (List.mem_map_of_mem Prod.snd he)
  have hpos : e1.2 - c1.m_lastIcmpAlert ≥ ICMP_ALERT_INTERVAL →
      r1 = { core := { c1 with m_lastIcmpAlert := e1.2 }
             logs := [(LogType.DEFAULT, "Ping detected from " ++ e1.1)]
             sends := [{ title := "ICMP Ping Alert", message := "Ping detected from " ++ e1.1,
                         level := NotifierLevel.INFO, icon := "network-transmit-receive" }] } := by
    intro h
    show Core.icmpPingCallback e1.1 e1.2 c1 = _
    unfold Core.icmpPingCallback
    rw [if_pos h]
  have hneg : e1.2 - c1.m_lastIcmpAlert < ICMP_ALERT_INTERVAL →
      r1 = { core := c1, logs := [], sends := [] } := by
    intro h
    show Core.icmpPingCallback e1.1 e1.2 c1 = _
    unfold Core.icmpPingCallback
    rw [if_neg (not_le.mpr h)]
  have hiff : r1.sends ≠ [] ↔ e1.2 - c1.m_lastIcmpAlert ≥ ICMP_ALERT_INTERVAL := by
    constructor
    · intro h
      by_contra hc
      rw [hneg (lt_of_not_ge hc)] at h
      exact h rfl
    · intro h
      rw [hpos h]
      simp
  refine ⟨?_, hiff, ?_, ?_, ?_, rfl⟩
  · rw [core_pingAlerts_append pre _ c]
    congr 1
    show r1 :: r1.core.pingAlerts (mid ++ [e2]) = _
    rw [core_pingAlerts_append mid _ r1.core]
    rfl
  · intro h
    rw [hpos h]
    exact ⟨rfl, rfl, rfl⟩
  · intro h
    rw [hneg h]
    exact ⟨rfl, rfl, rfl⟩
  · intro h1 h2
    have hlast : r1.core.m_lastIcmpAlert = e1.2 := by
      rw [hpos (hiff.mp h1)]
    have hge : e1.2 ≤ c2.m_lastIcmpAlert := by
      apply core_afterPings_last_ge mid e1.2 r1.core (le_of_eq hlast.symm)
      intro e he
      exact hafter e (List.mem_append_left _ he)
    have h2c : e2.2 - c2.m_lastIcmpAlert ≥ ICMP_ALERT_INTERVAL := by
      by_contra hc
      have : r2 = { core := c2, logs := [], sends := [] } := by
        show Core.icmpPingCallback e2.1 e2.2 c2 = _
        unfold Core.icmpPingCallback
        rw [if_neg hc]
      rw [this] at h2
      exact h2 rfl
    omega

/-- Witness for C18: pings at 100 s, 130 s and 160 s on a `Core` built when the
clock read 100 s; the first and the third are forwarded. -/
theorem core_icmp_throttle_sixty_seconds_witness :
    List.Sorted (· ≤ ·) ((([] : List (String × Int)) ++ ("10.0.0.1", 100000000000) ::
      ([("10.0.0.2", 130000000000)] ++ [("10.0.0.3", 160000000000)])).map Prod.snd) ∧
    (100000000000 : Int)
        - ((Core.create 5 "" sampleArpOnlyConfig sampleNoGatewayEnv).afterPings []).m_lastIcmpAlert
      ≥ ICMP_ALERT_INTERVAL ∧
    (Core.icmpPingCallback "10.0.0.1" 100000000000
        (Core.create 5 "" sampleArpOnlyConfig sampleNoGatewayEnv)).core.m_lastIcmpAlert
      = 100000000000 ∧
    ((Core.create 5 "" sampleArpOnlyConfig sampleNoGatewayEnv).pingAlerts
        [("10.0.0.1", 100000000000), ("10.0.0.2", 130000000000),
         ("10.0.0.3", 160000000000)]).map (fun r => r.sends.length) = [1, 0, 1] :=
  ⟨by decide, by decide,
   ((core_icmp_throttle_sixty_seconds (Core.create 5 "" sampleArpOnlyConfig sampleNoGatewayEnv)
      [] [("10.0.0.2", 130000000000)] ("10.0.0.1", 100000000000) ("10.0.0.3", 160000000000)
      (by decide)).2.2.1 (by decide)).2.2,
   by decide⟩

/-- C19 (the code at the failing input): with the ARP watcher enabled, no
forced gateway and no gateway detected, `Core` holds an ARP watcher with an
empty gateway, and `Core::run` makes no `Logger::log` call at all before its
main loop ends (in particular none of error level), does not take the
`return` of its gateway check, and does not create the ARP thread, so the
monitor loop is never entered. -/
theorem core_run_silent_on_missing_gateway :
    sampleArpOnlyConfig.arpMonitorEnabled = true ∧
    (Core.create 5 "" sampleArpOnlyConfig sampleNoGatewayEnv).m_arpMonitor
      = some { gateway := "", interval_seconds := 5, running := false, stopped_ := false } ∧
    (Core.create 5 "" sampleArpOnlyConfig sampleNoGatewayEnv).run [true, true, false]
      = { logs := [], returnedEarly := false, arpStarted := false, dnsStarted := false,
          icmpStarted := false, sleeps := 2, loopExited := true } ∧
    (ArpMonitor.create "" 5).start.launched = false := by
  decide

/-- C20: for every configuration that enables the ARP watcher, with no forced
gateway and none detected, `Core` holds an uninitialized ARP watcher, and
`Core::run` does not leave early and does not start the ARP thread; it starts
the DNS watcher when that is enabled and initialized (and the `start()` call
creates its worker thread) and the ICMP watcher when that is enabled; its main
loop ends exactly when a read of the keep-running flag yields `false`, after
one sleep for every `true` read before. -/
theorem core_run_continues_without_gateway (pollIntervalSeconds : Int) (cfg : Config)
    (env : CoreEnv) (keepRunning : List Bool)
    (harp : cfg.arpMonitorEnabled = true) (hgw : env.detectedGateway = "") :
    let c := Core.create pollIntervalSeconds "" cfg env
    let r := c.run keepRunning
    (∃ a, c.m_arpMonitor = some a ∧ a.gateway_ip = "" ∧ a.isInitialized = false) ∧
    r.returnedEarly = false ∧ r.arpStarted = false ∧
    (cfg.dnsMonitorEnabled = true →
      ∃ d, c.m_dnsMonitor = some d ∧
        (d.isInitialized = true → r.dnsStarted = true ∧ d.start.launched = true)) ∧
    (cfg.icmpMonitorEnabled = true →
      r.icmpStarted = true ∧ ∃ i, c.m_icmpMonitor = some i ∧ i.start.launched = true) ∧
    (r.loopExited = true ↔ false ∈ keepRunning) ∧
    r.sleeps = (keepRunning.takeWhile (fun b => b)).length := by
  intro c r
  have hrun : r = _ := core_run_not_early c keepRunning
  have harpm : c.m_arpMonitor = some (ArpMonitor.create "" pollIntervalSeconds) := by
    show (Core.create pollIntervalSeconds "" cfg env).m_arpMonitor = _
    unfold Core.create
    simp [harp, hgw]
  refine ⟨⟨_, harpm, rfl, rfl⟩, ?_, ?_, ?_, ?_, ?_, ?_⟩
  · rw [hrun]
  · rw [hrun]
    simp only [harpm]
    rfl
  · intro hdns
    have hd : c.m_dnsMonitor = some (DnsMonitor.setNotificationCallback Callback.returning
        (DnsMonitor.setKnownDnsPath env.openFile env.parseJson cfg.getKnownDNSPath
          DnsMonitor.fresh)) := by
      show (Core.create pollIntervalSeconds "" cfg env).m_dnsMonitor = _
      unfold Core.create
      simp [hdns]
    refine ⟨_, hd, ?_⟩
    intro hinit
    constructor
    · rw [hrun]
      simp only [hd]
      exact hinit
    · have hrunning : (DnsMonitor.setNotificationCallback Callback.returning
          (DnsMonitor.setKnownDnsPath env.openFile env.parseJson cfg.getKnownDNSPath
            DnsMonitor.fresh)).m_running = false := by
        unfold DnsMonitor.setNotificationCallback DnsMonitor.setKnownDnsPath
        by_cases hl : (loadKnownDnsFromFile env.openFile env.parseJson cfg.getKnownDNSPath
            DnsMonitor.fresh).1 = true
        · obtain ⟨_, _, _, _, _, _, _, _, hst⟩ :=
            loadKnownDnsFromFile_true env.openFile env.parseJson cfg.getKnownDNSPath
              DnsMonitor.fresh hl
          rw [hst]
          rfl
        · rw [loadKnownDnsFromFile_false env.openFile env.parseJson cfg.getKnownDNSPath
            DnsMonitor.fresh (by simpa using hl)]
          rfl
      unfold DnsMonitor.start
      simp [hrunning]
  · intro hicmp
    have hi : c.m_icmpMonitor
        = some (IcmpMonitor.setPingCallback Callback.returning IcmpMonitor.fresh) := by
      show (Core.create pollIntervalSeconds "" cfg env).m_icmpMonitor = _
      unfold Core.create
      simp [hicmp]
    constructor
    · rw [hrun]
      simp only [hi]
      rfl
    · exact ⟨_, hi, by decide⟩
  · rw [hrun]
    exact mainLoop_exited keepRunning
  · rw [hrun]
    exact mainLoop_sleeps keepRunning

/-- Witness for C20: ARP and ICMP enabled, no gateway detected. -/
theorem core_run_continues_without_gateway_witness :
    ({ iniPath_ := "spoofeye.ini"
       data_ := [("monitors.arp_monitor", "true"), ("monitors.icmp_monitor", "on")] } :
        Config).arpMonitorEnabled = true ∧
    sampleNoGatewayEnv.detectedGateway = "" ∧
    ((Core.create 5 ""
        { iniPath_ := "spoofeye.ini"
          data_ := [("monitors.arp_monitor", "true"), ("monitors.icmp_monitor", "on")] }
        sampleNoGatewayEnv).run [true, false]).icmpStarted = true :=
  ⟨by decide, by decide,
   ((core_run_continues_without_gateway 5
      { iniPath_ := "spoofeye.ini"
        data_ := [("monitors.arp_monitor", "true"), ("monitors.icmp_monitor", "on")] }
      sampleNoGatewayEnv [true, false] (by decide) (by decide)).2.2.2.2.1 (by decide)).1⟩

/-- C21: a callback that throws stops neither the ARP loop nor the DNS worker
loop. ARP: a cycle of the monitor loop whose change callback throws has the
same effects as the cycle with a returning callback; in a cycle that detects a
change the callback is invoked once and the observed MAC, normalized, is
recorded as last-known; over any observations the loop runs every cycle, with
the results of a returning callback. DNS: from a running watcher the worker
loop makes one pass for every observed list; after every pass `m_running` is
still true, and a pass whose notification callback threw has caught the
exception and logged one error line; after any pass the loop goes on with the
next list. -/
theorem raising_callback_does_not_stop_loops (gateway last_mac : String)
    (observations : List String) (what : Option String) (st : DnsMonitor)
    (currents : List (List String)) (hrun : st.m_running = true) :
    (∀ observed stored,
      monitor_cycle gateway Callback.throwing observed stored
        = monitor_cycle gateway Callback.returning observed stored) ∧
    (∀ observed stored, normalize_mac observed ≠ normalize_mac stored →
      (monitor_cycle gateway Callback.throwing observed stored).calls
        = [{ old_mac := normalize_mac stored, new_mac := normalize_mac observed, ip := gateway }] ∧
      (monitor_cycle gateway Callback.throwing observed stored).last_mac
        = normalize_mac observed) ∧
    monitor_loop gateway Callback.throwing last_mac observations
      = monitor_loop gateway Callback.returning last_mac observations ∧
    (monitor_loop gateway Callback.throwing last_mac observations).length
      = observations.length ∧
    (workerLoop what st currents).length = currents.length ∧
    (∀ p ∈ workerLoop what st currents,
      p.result.state.m_running = true ∧
      (p.result.threw = true → p.caught = true ∧ p.logs.length = 1)) ∧
    (∀ current rest, workerLoop what st (current :: rest)
      = workerLoopPass what current st ::
          workerLoop what (workerLoopPass what current st).result.state rest) := by
  refine ⟨monitor_cycle_throwing gateway, ?_, monitor_loop_throwing gateway last_mac observations,
    monitor_loop_length gateway _ last_mac observations,
    (workerLoop_running what currents st hrun).1, ?_, ?_⟩
  · intro observed stored hne
    constructor
    · rw [monitor_cycle_calls gateway Callback.throwing (by decide) observed stored, if_pos hne]
    · unfold monitor_cycle
      have h1 : ¬ (normalize_mac observed = "" ∧ normalize_mac stored = "") :=
        fun hc => hne (hc.1.trans hc.2.symm)
      simp only [if_neg h1, if_pos hne]
  · intro p hp
    refine ⟨(workerLoop_running what currents st hrun).2 p hp, ?_⟩
    obtain ⟨current, s, rfl⟩ := mem_workerLoop what currents st p hp
    intro hthrew
    rw [workerLoopPass_result] at hthrew
    obtain ⟨hc, hl⟩ := workerLoopPass_caught what current s
    exact ⟨hc.trans hthrew, hl hthrew⟩
  · intro current rest
    rw [workerLoop, if_pos hrun]

/-- Witness for C21: a running DNS watcher with a throwing notification
callback and known set {1.1.1.1}, over the observed lists {9.9.9.9} and
{1.1.1.1}. -/
theorem raising_callback_does_not_stop_loops_witness :
    ({ DnsMonitor.fresh with
        m_running := true, m_notifyCb := Callback.throwing,
        m_knownDns := ["1.1.1.1"] } : DnsMonitor).m_running = true ∧
    (workerLoop (some "sink failed")
        { DnsMonitor.fresh with
          m_running := true, m_notifyCb := Callback.throwing, m_knownDns := ["1.1.1.1"] }
        [["9.9.9.9"], ["1.1.1.1"]]).map (fun p => (p.result.threw, p.caught, p.logs))
      = [(true, true, [(LogType.ERROR, "Exception in workerLoop: sink failed")]),
         (false, false, [])] ∧
    (workerLoop (some "sink failed")
        { DnsMonitor.fresh with
          m_running := true, m_notifyCb := Callback.throwing, m_knownDns := ["1.1.1.1"] }
        [["9.9.9.9"], ["1.1.1.1"]]).length = 2 :=
  ⟨by decide, by decide,
   (raising_callback_does_not_stop_loops "192.168.1.1" "" [] (some "sink failed")
      { DnsMonitor.fresh with
        m_running := true, m_notifyCb := Callback.throwing, m_knownDns := ["1.1.1.1"] }
      [["9.9.9.9"], ["1.1.1.1"]] (by decide)).2.2.2.2.1⟩

/-- C22 (the code at the failing input): a running ICMP watcher whose ping
callback throws handles the echo request from 10.0.0.5 at 61 s by invoking the
callback, which throws; `workerLoop` has no handler, so the capture loop ends
there and the echo request from 10.0.0.6 at 200 s is never handled. The same
is read off the sample Ethernet frame through `handlePacket`. With a returning
callback both echo requests are handled. -/
theorem throwing_ping_callback_ends_capture_loop :
    workerLoopEchoes
        { m_running := true, m_callback := Callback.throwing, m_lastNotification := 0 }
        [("10.0.0.5", 61000000000), ("10.0.0.6", 200000000000)]
      = [{ state := { m_running := true, m_callback := Callback.throwing,
                      m_lastNotification := 0 },
           notified := some "10.0.0.5", threw := true }] ∧
    (handlePacket DLT_EN10MB sampleEthernetFrame 61000000000
        { m_running := true, m_callback := Callback.throwing, m_lastNotification := 0 })
      = some { state := { m_running := true, m_callback := Callback.throwing,
                          m_lastNotification := 0 },
               notified := some "10.0.0.5", threw := true } ∧
    (workerLoopEchoes
        { m_running := true, m_callback := Callback.returning, m_lastNotification := 0 }
        [("10.0.0.5", 61000000000), ("10.0.0.6", 200000000000)]).length = 2 := by
  decide

/-- C23 (the code at the failing input): on a freshly constructed DNS watcher,
`setKnownDnsPath("/etc/spoofeye/known_dns.json")`, called while the file
cannot be opened, leaves the watcher as it was: the path is not stored and
`getKnownDnsPath()` still returns the empty string. Once the file has become
valid (loading that path would succeed), `reloadKnownDns()` still returns
false and leaves the watcher unchanged: it reads no file, so the failed load
is never retried. -/
theorem reload_after_failed_first_load_reads_nothing :
    (DnsMonitor.setKnownDnsPath (fun _ => none) (fun _ => none) "/etc/spoofeye/known_dns.json"
      DnsMonitor.fresh) = DnsMonitor.fresh ∧
    DnsMonitor.fresh.m_knownDnsPath = "" ∧
    (DnsMonitor.setKnownDnsPath (fun _ => none) (fun _ => none) "/etc/spoofeye/known_dns.json"
      DnsMonitor.fresh).getKnownDnsPath = "" ∧
    (loadKnownDnsFromFile (fun _ => some "[\"1.1.1.1\"]")
      (fun _ => some (Json.array [Json.string "1.1.1.1"])) "/etc/spoofeye/known_dns.json"
      (DnsMonitor.setKnownDnsPath (fun _ => none) (fun _ => none)
        "/etc/spoofeye/known_dns.json" DnsMonitor.fresh)).1 = true ∧
    DnsMonitor.reloadKnownDns (fun _ => some "[\"1.1.1.1\"]")
      (fun _ => some (Json.array [Json.string "1.1.1.1"]))
      (DnsMonitor.setKnownDnsPath (fun _ => none) (fun _ => none)
        "/etc/spoofeye/known_dns.json" DnsMonitor.fresh)
      = (false, DnsMonitor.fresh) := by
  decide

/-- C24: for every resolver-configuration text, the list returned by
`getSystemDnsServers` is strictly ascending (sorted, without duplicates), and
an address is in it exactly when some line of the text, cut at its first `#`,
has `nameserver` as its first token and the address as its second token. The
sample text yields 1.1.1.1 and 9.9.9.9. -/
theorem system_dns_servers_sorted_nameservers (text : String) :
    (getSystemDnsServers (some text)).Pairwise (fun a b => a.data < b.data) ∧
    (getSystemDnsServers (some text)).Nodup ∧
    (∀ x, x ∈ getSystemDnsServers (some text) ↔
      ∃ line ∈ getlines text, ∃ rest,
        tokens (stripHash line) = "nameserver" :: x :: rest) ∧
    getSystemDnsServers (some sampleResolvConf) = ["1.1.1.1", "9.9.9.9"] := by
  have hstrict : (getSystemDnsServers (some text)).Pairwise (fun a b => a.data < b.data) :=
    uniqueAdjacent_strict _ (List.sorted_insertionSort strLe _)
  refine ⟨hstrict, ?_, ?_, by decide⟩
  · exact hstrict.imp (fun {a b} hab heq => by rw [heq] at hab; exact lt_irrefl _ hab)
  · intro x
    show x ∈ uniqueAdjacent (List.insertionSort strLe ((getlines text).filterMap resolvLine)) ↔ _
    rw [mem_uniqueAdjacent, List.mem_insertionSort, List.mem_filterMap]
    constructor
    · rintro ⟨line, hline, hres⟩
      exact ⟨line, hline, (resolvLine_eq_some line x).mp hres⟩
    · rintro ⟨line, hline, hres⟩
      exact ⟨line, hline, (resolvLine_eq_some line x).mpr hres⟩

/-- C25: for every string `s`, no character of `normalize_mac(s)` is
whitespace or an uppercase ASCII letter, `normalize_mac(normalize_mac(s))` is
`normalize_mac(s)`, and `normalize_mac(s) = normalize_mac(t)` whenever `s` and
`t` differ only in ASCII letter case and in inserted or removed whitespace
(`CaseSpaceVariant`). -/
theorem normalize_mac_canonical (s t : String) :
    (∀ c ∈ (normalize_mac s).data,
      isspace c = false ∧ ¬ (65 ≤ c.toNat ∧ c.toNat ≤ 90)) ∧
    normalize_mac (normalize_mac s) = normalize_mac s ∧
    (CaseSpaceVariant s.data t.data → normalize_mac s = normalize_mac t) := by
  refine ⟨?_, normalize_mac_idem s, ?_⟩
  · intro c hc
    unfold normalize_mac at hc
    obtain ⟨b, hb, rfl⟩ := List.mem_map.mp hc
    have hb2 := (List.mem_filter.mp hb).2
    simp only [Bool.not_eq_eq_eq_not, Bool.not_true] at hb2
    exact ⟨isspace_tolower b hb2, tolower_not_upper b⟩
  · intro h
    unfold normalize_mac
    rw [normalize_of_variant s.data t.data h]

/-- Witness for C25: the strings `A b` and ` aB`. -/
theorem normalize_mac_canonical_witness :
    CaseSpaceVariant (String.mk ['A', ' ', 'b']).data (String.mk [' ', 'a', 'B']).data ∧
    normalize_mac (String.mk ['A', ' ', 'b']) = normalize_mac (String.mk [' ', 'a', 'B']) ∧
    normalize_mac "A b" = "ab" :=
  have hv : CaseSpaceVariant (String.mk ['A', ' ', 'b']).data (String.mk [' ', 'a', 'B']).data :=
    CaseSpaceVariant.spaceRight ' ' _ _ (by decide)
      (CaseSpaceVariant.letter 'A' 'a' _ _ (by decide) (by decide)
        (Or.inr (Or.inl (by decide)))
        (CaseSpaceVariant.spaceLeft ' ' _ _ (by decide)
          (CaseSpaceVariant.letter 'b' 'B' _ _ (by decide) (by decide)
            (Or.inr (Or.inr (by decide))) CaseSpaceVariant.nil)))
  ⟨hv, (normalize_mac_canonical (String.mk ['A', ' ', 'b']) (String.mk [' ', 'a', 'B'])).2.2 hv,
   by decide⟩

/-- C26 (the code at the failing input): for all arguments `n` and `g` and
all arguments after them, `main` started with `--interval n`, `-i n`,
`--interval=n`, `--gateway g`, `-g g` or `--gateway=g` in first position
returns 1 from its command loop, where the token is no registered command;
the flag loop is not reached and `Core` is not constructed. Without arguments
`main` reaches the construction with interval 5 and an empty forced gateway.
The flag loop taken alone reads the interval and the gateway from such
arguments. -/
theorem main_rejects_interval_and_gateway_flags (stoi : String → Option Int) (n g : String)
    (rest : List String) :
    mainArgs stoi ("--interval" :: n :: rest) = MainOutcome.exited 1 ∧
    mainArgs stoi ("-i" :: n :: rest) = MainOutcome.exited 1 ∧
    mainArgs stoi (("--interval=" ++ n) :: rest) = MainOutcome.exited 1 ∧
    mainArgs stoi ("--gateway" :: g :: rest) = MainOutcome.exited 1 ∧
    mainArgs stoi ("-g" :: g :: rest) = MainOutcome.exited 1 ∧
    mainArgs stoi (("--gateway=" ++ g) :: rest) = MainOutcome.exited 1 ∧
    mainArgs stoi [] = MainOutcome.configured
      { interval := 5, forcedGateway := "", iniPath := "/etc/spoofeye/spoofeye.ini",
        print_config := false } ∧
    flagLoop stoi ["--interval", n] MainState.initial =
      (stoi n).map (fun k => { MainState.initial with interval := k }) ∧
    flagLoop stoi ["--gateway", g] MainState.initial =
      some { MainState.initial with forcedGateway := g } := by
  refine ⟨?_, ?_, ?_, ?_, ?_, ?_, rfl, ?_, ?_⟩
  · exact mainArgs_of_unknown_first stoi _ _
      (getCommandInfo_of_interval_or_gateway _ (Or.inl (by decide)))
  · exact mainArgs_of_unknown_first stoi _ _
      (getCommandInfo_of_interval_or_gateway _ (Or.inr (Or.inr (Or.inl rfl))))
  · exact mainArgs_of_unknown_first stoi _ _
      (getCommandInfo_of_interval_or_gateway _ (Or.inl (by rw [String.data_append]; rfl)))
  · exact mainArgs_of_unknown_first stoi _ _
      (getCommandInfo_of_interval_or_gateway _ (Or.inr (Or.inl (by decide))))
  · exact mainArgs_of_unknown_first stoi _ _
      (getCommandInfo_of_interval_or_gateway _ (Or.inr (Or.inr (Or.inr rfl))))
  · exact mainArgs_of_unknown_first stoi _ _
      (getCommandInfo_of_interval_or_gateway _ (Or.inr (Or.inl (by rw [String.data_append]; rfl))))
  · cases hs : stoi n with
    | none => simp [flagLoop, hs]
    | some k => simp [flagLoop, hs]
  · simp [flagLoop]

/-- C27: for every INI text, `arpMonitorEnabled()`, `dnsMonitorEnabled()` and
`icmpMonitorEnabled()` of the configuration loaded from it are the monitor
flag of the last assignment to `monitors.arp_monitor`, `monitors.dns_monitor`
and `monitors.icmp_monitor`: false when no line assigns the key, and otherwise
false exactly when the assigned value, trimmed and lowercased, is one of `0`,
`false`, `no`, `off`. An assignment is stored under the lowercased section
name, a dot and the lowercased key, and what follows a `;` or a `#` on a line
has no influence on how the line is read. The sample text, an unrecognised
word and a key outside the section are evaluated as well. -/
theorem monitor_flags_follow_last_assignment (iniPath text : String) :
    (Config.loadFromFile iniPath (some text)).map Config.arpMonitorEnabled =
      some (monitorFlag (lastAssignment text "monitors.arp_monitor")) ∧
    (Config.loadFromFile iniPath (some text)).map Config.dnsMonitorEnabled =
      some (monitorFlag (lastAssignment text "monitors.dns_monitor")) ∧
    (Config.loadFromFile iniPath (some text)).map Config.icmpMonitorEnabled =
      some (monitorFlag (lastAssignment text "monitors.icmp_monitor")) ∧
    (∀ currentSection key : String, Config.qualifiedKey currentSection key =
      if currentSection = "" then Config.toLower key
      else Config.toLower currentSection ++ "." ++ Config.toLower key) ∧
    (∀ body extra extra2 : List Char,
      Config.parseLine ⟨body ++ ';' :: extra⟩ = Config.parseLine ⟨body ++ ';' :: extra2⟩) ∧
    (∀ body extra extra2 : List Char,
      Config.parseLine ⟨body ++ '#' :: extra⟩ = Config.parseLine ⟨body ++ '#' :: extra2⟩) ∧
    Config.parseLine " [ MONITORS ] \r" = IniLine.header "monitors" ∧
    Config.assignments "" (getlines sampleIni) =
      [("show_notifications", "no"), ("monitors.arp_monitor", "Yes"),
        ("monitors.dns_monitor", "off"), ("monitors.icmp_monitor", ""),
        ("monitors.arp_monitor", "OFF")] ∧
    (Config.loadFromFile "spoofeye.ini" (some sampleIni)).map
        (fun cfg => (cfg.arpMonitorEnabled, cfg.dnsMonitorEnabled, cfg.icmpMonitorEnabled)) =
      some (false, false, true) ∧
    (Config.loadFromFile "spoofeye.ini" (some "[monitors]\narp_monitor = maybe\n")).map
        Config.arpMonitorEnabled = some true ∧
    (Config.loadFromFile "spoofeye.ini" (some "arp_monitor = true\n")).map
        Config.arpMonitorEnabled = some false := by
  have key : ∀ k : String,
      (match (((getlines text).foldl Config.loadLine
          { currentSection := "", data_ := [] }).data_).lookup k with
        | some v => Config.parseBool v true
        | none => false) = monitorFlag (lastAssignment text k) := by
    intro k
    have h := config_load_lookup iniPath text k
    simp only [Config.loadFromFile, Option.map_some', Option.some.injEq] at h
    rw [h]
    cases lastAssignment text k with
    | none => rfl
    | some v => simp only [monitorFlag, config_parseBool_true]
  refine ⟨?_, ?_, ?_, config_qualifiedKey_lower,
    config_parseLine_comment ';' (Or.inl rfl), config_parseLine_comment '#' (Or.inr rfl),
    by decide, by decide, by decide, by decide, by decide⟩
  · simp only [Config.loadFromFile, Option.map_some', Config.arpMonitorEnabled,
      Option.some.injEq]
    exact key _
  · simp only [Config.loadFromFile, Option.map_some', Config.dnsMonitorEnabled,
      Option.some.injEq]
    exact key _
  · simp only [Config.loadFromFile, Option.map_some', Config.icmpMonitorEnabled,
      Option.some.injEq]
    exact key _

/-- C28: for every known set and every sequence of observed resolver lists
handled by `checkOnce` from a freshly constructed DNS watcher whose
notification callback does not throw, after every cycle `isAlerting()` is true
if and only if the stored `m_lastUnknownDns` is non-empty; no cycle ends in an
exception. -/
theorem dns_alerting_iff_unknown_stored (known : List String) (cb : Callback)
    (hcb : cb ≠ Callback.throwing) (currents : List (List String)) :
    ∀ r ∈ workerLoopCycles { DnsMonitor.fresh with m_knownDns := known, m_notifyCb := cb }
        currents,
      (r.state.isAlerting = true ↔ r.state.m_lastUnknownDns ≠ []) ∧ r.threw = false := by
  apply workerLoopCycles_alerting_inv
  · exact hcb
  · show (false = true) ↔ ([] : List String) ≠ []
    simp

/-- Witness for C28: known set {1.1.1.1} and the observed lists {9.9.9.9},
{9.9.9.9}, {1.1.1.1}. -/
theorem dns_alerting_iff_unknown_stored_witness :
    Callback.returning ≠ Callback.throwing ∧
    (workerLoopCycles
        { DnsMonitor.fresh with m_knownDns := ["1.1.1.1"], m_notifyCb := Callback.returning }
        [["9.9.9.9"], ["9.9.9.9"], ["1.1.1.1"]]).map
      (fun r => (r.state.isAlerting, r.state.m_lastUnknownDns))
      = [(true, ["9.9.9.9"]), (true, ["9.9.9.9"]), (false, [])] ∧
    ((checkOnce ["9.9.9.9"]
        { DnsMonitor.fresh with m_knownDns := ["1.1.1.1"],
                                m_notifyCb := Callback.returning }).state.isAlerting = true ↔
      (checkOnce ["9.9.9.9"]
        { DnsMonitor.fresh with m_knownDns := ["1.1.1.1"],
                                m_notifyCb := Callback.returning }).state.m_lastUnknownDns ≠ []) :=
  ⟨by decide, by decide,
   (dns_alerting_iff_unknown_stored ["1.1.1.1"] Callback.returning (by decide) [["9.9.9.9"]]
      (checkOnce ["9.9.9.9"]
        { DnsMonitor.fresh with m_knownDns := ["1.1.1.1"], m_notifyCb := Callback.returning })
      (by decide)).1⟩

/-- C29 (the code at the failing input): a freshly constructed ICMP watcher
with a callback set has `m_lastNotification` at the epoch of the clock; its
first echo request, observed when the clock reads 30 s, does not invoke the
callback and leaves the watcher unchanged, whereas at a reading of 60 s the
callback is invoked. `Core`, whose own throttle starts at the construction
time minus the interval, forwards a first ping 30 s after the epoch. -/
theorem first_echo_soon_after_epoch_is_suppressed :
    (IcmpMonitor.setPingCallback Callback.returning IcmpMonitor.fresh).m_lastNotification = 0 ∧
    onEchoRequest "10.0.0.5" 30000000000
        (IcmpMonitor.setPingCallback Callback.returning IcmpMonitor.fresh)
      = { state := IcmpMonitor.setPingCallback Callback.returning IcmpMonitor.fresh,
          notified := none, threw := false } ∧
    (onEchoRequest "10.0.0.5" 60000000000
        (IcmpMonitor.setPingCallback Callback.returning IcmpMonitor.fresh)).notified
      = some "10.0.0.5" ∧
    ((Core.create 5 "" sampleArpOnlyConfig
        { sampleNoGatewayEnv with now := 30000000000 }).icmpPingCallback "10.0.0.5"
        30000000000).sends.length = 1 := by
  decide

/-- C30: on a `Core` constructed with the ICMP watcher enabled, for every
sequence of echo requests whose timestamps are at or after the construction
time (non-decreasing or not), with the ping callback of `Core` reading the
clock value the watcher read, every echo request that the throttle of the
watcher lets through is forwarded as an alert by the throttle of `Core`; the
echo requests forwarded are exactly those that the watcher taken alone lets
through. -/
theorem icmp_throttles_compose (pollIntervalSeconds : Int) (forcedGateway : String)
    (cfg : Config) (env : CoreEnv) (echoes : List (String × Int))
    (hcfg : cfg.icmpMonitorEnabled = true)
    (hafter : ∀ e ∈ echoes, env.now ≤ e.2) :
    (∀ r ∈ (Core.create pollIntervalSeconds forcedGateway cfg env).echoPipeline echoes,
      r.passed = true → r.forwarded = true) ∧
    ((Core.create pollIntervalSeconds forcedGateway cfg env).echoPipeline echoes).map
        (fun r => r.forwarded) =
      (workerLoopEchoes (IcmpMonitor.setPingCallback Callback.returning IcmpMonitor.fresh)
        echoes).map (fun r => r.notified.isSome) := by
  have hw : (Core.create pollIntervalSeconds forcedGateway cfg env).m_icmpMonitor =
      some (IcmpMonitor.setPingCallback Callback.returning IcmpMonitor.fresh) := by
    simp [Core.create, hcfg]
  obtain ⟨h1, h2⟩ := core_echoPipeline_inv env.now echoes
    (Core.create pollIntervalSeconds forcedGateway cfg env)
    (IcmpMonitor.setPingCallback Callback.returning IcmpMonitor.fresh) hw rfl
    (Or.inr (le_of_eq rfl)) hafter
  refine ⟨fun r hr hp => (h1 r hr).trans hp, ?_⟩
  rw [← h2]
  apply List.map_congr_left
  intro r hr
  exact h1 r hr

/-- Witness for C30: a `Core` built when the clock read 10 s, with echo
requests at 20 s, 70 s, 100 s and 130 s; the second and the fourth pass the
watcher and are forwarded. -/
theorem icmp_throttles_compose_witness :
    Config.icmpMonitorEnabled
        { iniPath_ := "", data_ := [("monitors.icmp_monitor", "1")] } = true ∧
    (∀ e ∈ [("10.0.0.5", (20000000000 : Int)), ("10.0.0.5", 70000000000),
          ("10.0.0.6", 100000000000), ("10.0.0.5", 130000000000)],
      (10000000000 : Int) ≤ e.2) ∧
    (∀ r ∈ (Core.create 5 "" { iniPath_ := "", data_ := [("monitors.icmp_monitor", "1")] }
          { sampleNoGatewayEnv with now := 10000000000 }).echoPipeline
        [("10.0.0.5", 20000000000), ("10.0.0.5", 70000000000), ("10.0.0.6", 100000000000),
          ("10.0.0.5", 130000000000)],
      r.passed = true → r.forwarded = true) ∧
    ((Core.create 5 "" { iniPath_ := "", data_ := [("monitors.icmp_monitor", "1")] }
          { sampleNoGatewayEnv with now := 10000000000 }).echoPipeline
        [("10.0.0.5", 20000000000), ("10.0.0.5", 70000000000), ("10.0.0.6", 100000000000),
          ("10.0.0.5", 130000000000)]).map (fun r => (r.passed, r.forwarded)) =
      [(false, false), (true, true), (false, false), (true, true)] :=
  ⟨by decide, by decide,
   (icmp_throttles_compose 5 "" { iniPath_ := "", data_ := [("monitors.icmp_monitor", "1")] }
      { sampleNoGatewayEnv with now := 10000000000 }
      [("10.0.0.5", 20000000000), ("10.0.0.5", 70000000000), ("10.0.0.6", 100000000000),
        ("10.0.0.5", 130000000000)] (by decide) (by decide)).1, by decide⟩

end SpoofEye
